import Mathlib

/-!
# Geometry render passes of donut: pipeline and binding-set caches

A shallow embedding of `DepthPass`, `GBufferFillPass` and `ForwardShadingPass`
(`src/render/*.cpp`, `include/donut/render/*.h`): the packed pipeline keys, the
pipeline descriptors the passes assemble, the per-pass pipeline table and the
binding-set caches, with the device and the material binding cache as oracles
supplied at every call.
-/

namespace donut

/-! ## Handles and enumerations -/

/-- A reference-counted handle or interface pointer: `none` is the null handle,
`some n` the object with identity `n`. -/
abbrev Handle := Option Nat

/-- Modelled from the spec: `engine::MaterialDomain` (SceneTypes.h is not among the
sources). The enumerators are the ones the passes name, numbered in their order of
declaration, with `Count` after the last one. A material carries the raw value, so a
value outside the enumeration can be expressed. -/
abbrev MaterialDomain.Opaque : Nat := 0

namespace MaterialDomain
abbrev AlphaTested : Nat := 1
abbrev AlphaBlended : Nat := 2
abbrev Transmissive : Nat := 3
abbrev TransmissiveAlphaTested : Nat := 4
abbrev TransmissiveAlphaBlended : Nat := 5
abbrev Count : Nat := 6
end MaterialDomain

/-- The cull modes of the rasterizer, `nvrhi::RasterCullMode`, as raw values: `Back`,
`Front`, `None`. -/
abbrev RasterCullMode.Back : Nat := 0

namespace RasterCullMode
abbrev Front : Nat := 1
abbrev None : Nat := 2
end RasterCullMode

/-- Depth comparison functions, `nvrhi::ComparisonFunc`. -/
inductive ComparisonFunc where
  | Never | Less | Equal | LessOrEqual | Greater | NotEqual | GreaterOrEqual | Always
  deriving DecidableEq, Repr

/-- Blend factors, `nvrhi::BlendFactor`. -/
inductive BlendFactor where
  | Zero | One | SrcColor | InvSrcColor | SrcAlpha | InvSrcAlpha | DstAlpha | InvDstAlpha
  | DstColor | InvDstColor | ConstantColor | InvConstantColor
  | Src1Color | InvSrc1Color | Src1Alpha | InvSrc1Alpha
  deriving DecidableEq, Repr

/-- Stencil operations, `nvrhi::StencilOp`. -/
inductive StencilOp where
  | Keep | Zero | Replace | IncrementAndClamp | DecrementAndClamp | Invert
  | IncrementAndWrap | DecrementAndWrap
  deriving DecidableEq, Repr

/-! ## Bit-fields of the packed pipeline keys

`PipelineKey` is a union of a bit-field struct and a `uint32_t value`. The fields are
laid out from the least significant bit in declaration order; a write replaces the
bits of one field by the low bits of the written value and leaves the others. -/

/-- Replace the `width` bits of `value` that start at bit `offset` by the low `width`
bits of `x`. -/
def writeBits (value offset width x : Nat) : Nat :=
  value % 2 ^ offset + (x % 2 ^ width) * 2 ^ offset
    + value / 2 ^ (offset + width) * 2 ^ (offset + width)

/-- The `width` bits of `value` that start at bit `offset`. -/
def readBits (value offset width : Nat) : Nat :=
  value / 2 ^ offset % 2 ^ width

/-- A `bool` stored into a one-bit field. -/
def boolBit (b : Bool) : Nat := if b then 1 else 0

namespace ForwardShadingPass

/-- The key of the forward pass, ForwardShadingPass.h: `domain : 3`, `cullMode : 2`,
`frontCounterClockwise : 1`, `reverseDepth : 1`, overlaid with `uint32_t value`. -/
structure PipelineKey where
  value : Nat
  deriving DecidableEq, Repr

namespace PipelineKey

/-- Size of the pipeline table: `1 << 7`. -/
abbrev Count : Nat := 2 ^ 7

def domain (k : PipelineKey) : Nat := readBits k.value 0 3
def cullMode (k : PipelineKey) : Nat := readBits k.value 3 2
def frontCounterClockwise (k : PipelineKey) : Bool := readBits k.value 5 1 != 0
def reverseDepth (k : PipelineKey) : Bool := readBits k.value 6 1 != 0

def setDomain (k : PipelineKey) (d : Nat) : PipelineKey :=
  ⟨writeBits k.value 0 3 d⟩
def setCullMode (k : PipelineKey) (c : Nat) : PipelineKey :=
  ⟨writeBits k.value 3 2 c⟩
def setFrontCounterClockwise (k : PipelineKey) (b : Bool) : PipelineKey :=
  ⟨writeBits k.value 5 1 (boolBit b)⟩
def setReverseDepth (k : PipelineKey) (b : Bool) : PipelineKey :=
  ⟨writeBits k.value 6 1 (boolBit b)⟩

/-- All four fields written into a key that starts as `value = 0`. -/
def pack (d : Nat) (c : Nat) (f r : Bool) : PipelineKey :=
  ((((⟨0⟩ : PipelineKey).setDomain d).setCullMode c).setFrontCounterClockwise f).setReverseDepth r

end PipelineKey
end ForwardShadingPass

namespace GBufferFillPass

/-- The key of the G-buffer fill pass, GBufferFillPass.h: `cullMode : 2`,
`alphaTested : 1`, `frontCounterClockwise : 1`, `reverseDepth : 1`, overlaid with
`uint32_t value`. -/
structure PipelineKey where
  value : Nat
  deriving DecidableEq, Repr

namespace PipelineKey

/-- Size of the pipeline table: `1 << 5`. -/
abbrev Count : Nat := 2 ^ 5

def cullMode (k : PipelineKey) : Nat := readBits k.value 0 2
def alphaTested (k : PipelineKey) : Bool := readBits k.value 2 1 != 0
def frontCounterClockwise (k : PipelineKey) : Bool := readBits k.value 3 1 != 0
def reverseDepth (k : PipelineKey) : Bool := readBits k.value 4 1 != 0

def setCullMode (k : PipelineKey) (c : Nat) : PipelineKey :=
  ⟨writeBits k.value 0 2 c⟩
def setAlphaTested (k : PipelineKey) (b : Bool) : PipelineKey :=
  ⟨writeBits k.value 2 1 (boolBit b)⟩
def setFrontCounterClockwise (k : PipelineKey) (b : Bool) : PipelineKey :=
  ⟨writeBits k.value 3 1 (boolBit b)⟩
def setReverseDepth (k : PipelineKey) (b : Bool) : PipelineKey :=
  ⟨writeBits k.value 4 1 (boolBit b)⟩

/-- All four fields written into a key that starts as `value = 0`. -/
def pack (c : Nat) (a f r : Bool) : PipelineKey :=
  ((((⟨0⟩ : PipelineKey).setCullMode c).setAlphaTested a).setFrontCounterClockwise f).setReverseDepth r

end PipelineKey
end GBufferFillPass

/-! ## Descriptors, resources and the collaborators of a pass -/

/-- A `float` that is only copied around, carried as an uninterpreted token. -/
abbrev FloatToken := Int

/-- The fields of `nvrhi::RasterState` the passes write, with the library defaults. -/
structure RasterState where
  frontCounterClockwise : Bool := false
  cullMode : Nat := RasterCullMode.Back
  depthBias : Int := 0
  depthBiasClamp : FloatToken := 0
  slopeScaledDepthBias : FloatToken := 0
  deriving DecidableEq, Repr

/-- The pass operation of `nvrhi::DepthStencilState::StencilOpDesc`. -/
structure StencilOpDesc where
  passOp : StencilOp := StencilOp.Keep
  deriving DecidableEq, Repr

/-- The fields of `nvrhi::DepthStencilState` the passes write, with the library defaults. -/
structure DepthStencilState where
  depthWriteEnable : Bool := true
  depthFunc : ComparisonFunc := ComparisonFunc.Less
  stencilEnable : Bool := false
  stencilReadMask : Nat := 255
  stencilWriteMask : Nat := 255
  stencilRefValue : Nat := 0
  frontFaceStencil : StencilOpDesc := {}
  backFaceStencil : StencilOpDesc := {}
  deriving DecidableEq, Repr

/-- One render target of `nvrhi::BlendState`, with the library defaults. -/
structure RenderTarget where
  blendEnable : Bool := false
  srcBlend : BlendFactor := BlendFactor.One
  destBlend : BlendFactor := BlendFactor.Zero
  srcBlendAlpha : BlendFactor := BlendFactor.One
  destBlendAlpha : BlendFactor := BlendFactor.Zero
  deriving DecidableEq, Repr

/-- The part of `nvrhi::BlendState` the passes write: `targets[0]` and alpha to coverage. -/
structure BlendState where
  target0 : RenderTarget := {}
  alphaToCoverageEnable : Bool := false
  deriving DecidableEq, Repr

structure RenderState where
  blendState : BlendState := {}
  depthStencilState : DepthStencilState := {}
  rasterState : RasterState := {}
  deriving DecidableEq, Repr

/-- The descriptor handed to `createGraphicsPipeline`; a default-constructed one is `{}`. -/
structure GraphicsPipelineDesc where
  inputLayout : Handle := none
  VS : Handle := none
  PS : Handle := none
  GS : Handle := none
  renderState : RenderState := {}
  bindingLayouts : List Handle := []
  deriving DecidableEq, Repr

/-- What `getFramebufferInfo()` reports: the attachment formats as one token, and the
sample count. -/
structure FramebufferInfo where
  formats : Nat
  sampleCount : Nat
  deriving DecidableEq, Repr

structure Framebuffer where
  id : Nat
  info : FramebufferInfo
  deriving DecidableEq, Repr

structure VertexBufferBinding where
  buffer : Handle
  slot : Nat
  offset : Nat
  deriving DecidableEq, Repr

/-- An index buffer binding; the format is always `R32_UINT` here. -/
structure IndexBufferBinding where
  buffer : Handle
  offset : Nat
  deriving DecidableEq, Repr

/-- The fields of `nvrhi::GraphicsState` the passes read or write. -/
structure GraphicsState where
  pipeline : Handle := none
  framebuffer : Framebuffer
  bindings : List Handle := []
  vertexBuffers : List VertexBufferBinding := []
  indexBuffer : Option IndexBufferBinding := none
  deriving DecidableEq, Repr

/-- Items of a binding set descriptor, `nvrhi::BindingSetItem`: slot, then resource (or
byte size for push constants). -/
inductive BindingSetItem where
  | ConstantBuffer (slot : Nat) (buffer : Handle)
  | Sampler (slot : Nat) (sampler : Handle)
  | Texture_SRV (slot : Nat) (texture : Handle)
  | RawBuffer_SRV (slot : Nat) (buffer : Handle)
  | StructuredBuffer_SRV (slot : Nat) (buffer : Handle)
  | PushConstants (slot : Nat) (byteSize : Nat)
  deriving DecidableEq, Repr

structure BindingSetDesc where
  trackLiveness : Bool := true
  bindings : List BindingSetItem := []
  deriving DecidableEq, Repr

/-- Modelled from the spec: a loaded texture of a material (SceneTypes.h is not among
the sources); `texture` is the GPU texture, null while it is not loaded. -/
structure LoadedTexture where
  texture : Handle
  deriving DecidableEq, Repr

/-- Modelled from the spec: the fields of `engine::Material` the passes read
(SceneTypes.h is not among the sources): the domain and the two textures with their
enable flags. `id` is the identity of the material object. -/
structure Material where
  id : Nat
  domain : Nat
  baseOrDiffuseTexture : Option LoadedTexture := none
  enableBaseOrDiffuseTexture : Bool := true
  opacityTexture : Option LoadedTexture := none
  enableOpacityTexture : Bool := true
  deriving DecidableEq, Repr

/-- Modelled from the spec: the vertex attributes whose ranges a buffer group names
(SceneTypes.h is not among the sources). -/
inductive VertexAttribute where
  | Position | PrevPosition | TexCoord1 | Normal | Tangent | Transform | PrevTransform
  deriving DecidableEq, Repr

/-- Modelled from the spec: `engine::BufferGroup` (SceneTypes.h is not among the
sources): the three buffers and the byte offset of each attribute range. `ptr` is the
address of the object, the identity the input binding-set caches are keyed by. -/
structure BufferGroup where
  ptr : Nat
  indexBuffer : Handle
  vertexBuffer : Handle
  instanceBuffer : Handle
  byteOffset : VertexAttribute → Nat

/-- Modelled from the spec: what the passes ask of `engine::IView` (View.h is not
among the sources): the two flags, the view-projection matrix and the planar view
constants, the last two as tokens. -/
structure View where
  IsMirrored : Bool
  IsReverseDepth : Bool
  viewProjectionMatrix : Nat := 0
  planarViewConstants : Nat := 0
  deriving DecidableEq, Repr

/-- The device at the moment of one call: what `createGraphicsPipeline` and
`createBindingSet` answer for each argument, null on failure. No behaviour of the device
is assumed. -/
structure Device where
  createGraphicsPipeline : GraphicsPipelineDesc → Framebuffer → Handle
  createBindingSet : BindingSetDesc → Handle → Handle

/-- The material binding cache at the moment of one call (MaterialBindingCache.h is
not among the sources; the passes only consume it): its layout and the binding set it
returns for a material, null when the resources are not ready. -/
structure MaterialBindingCache where
  GetLayout : Handle
  GetMaterialBindingSet : Material → Handle

/-- One `createGraphicsPipeline` call a pass made: the key it was made for, the
arguments, and the handle the device returned. The list of these is kept next to the
pass state as a record of the calls; no pass reads it. -/
structure PipelineCall where
  key : Nat
  desc : GraphicsPipelineDesc
  framebuffer : Framebuffer
  result : Handle
  deriving DecidableEq, Repr

/-- What one `SetupMaterial` call leaves behind: the returned flag, the pass, the
caller's graphics state, and the index with which `m_Pipelines` was read (`none` when
the call returned before reaching the table). -/
structure SetupMaterialResult (Pass : Type) where
  ret : Bool
  pass : Pass
  state : GraphicsState
  lookup : Option Nat

/-- The arguments of one `SetupMaterial` call together with the collaborators as they
are at the moment of the call. -/
structure MaterialCall (Context : Type) where
  dev : Device
  materialBindings : MaterialBindingCache
  context : Context
  material : Material
  cullMode : Nat
  state : GraphicsState

/-- A command recorded into the command list. -/
inductive Command where
  | writeDepthConstants (buffer : Handle) (matWorldToClip : Nat)
  | writeGBufferConstants (buffer : Handle) (view viewPrev : Nat)
  | writeForwardViewConstants (buffer : Handle) (view : Nat)
  | setPushConstants (constants : List Nat)
  deriving DecidableEq, Repr

/-- The draw arguments, `nvrhi::DrawArguments`. -/
structure DrawArguments where
  vertexCount : Nat := 0
  instanceCount : Nat := 1
  startIndexLocation : Nat := 0
  startVertexLocation : Nat := 0
  startInstanceLocation : Nat := 0
  deriving DecidableEq, Repr

/-- What one `SetPushConstants` call leaves behind: the three objects it receives by
reference, and the commands it recorded into the command list. -/
structure SetPushConstantsResult (Context : Type) where
  context : Context
  state : GraphicsState
  args : DrawArguments
  commands : List Command

/-- `m_Pipelines[k] = p` on the pipeline table. -/
def setSlot (table : Nat → Handle) (k : Nat) (p : Handle) : Nat → Handle :=
  fun i => if i = k then p else table i

/-- `map[key] = value` on an `unordered_map` keyed by an identity; `none` is an absent
entry, `some h` an entry holding the handle `h` (which may be null). -/
def mapInsert {κ : Type} [DecidableEq κ] (m : κ → Option Handle) (key : κ) (value : Handle) :
    κ → Option Handle :=
  fun i => if i = key then some value else m i

/-- `uint32_t(x)` of a 64-bit byte offset. -/
def toUInt32 (x : Nat) : Nat := x % 2 ^ 32

/-! ## DepthPass (src/render/DepthPass.cpp) -/

/-- Modelled from the spec: `DepthPass::PipelineKey` (DepthPass.h is not among the
sources). DepthPass.cpp reads and writes the fields `cullMode`, `alphaTested`,
`frontCounterClockwise` and `reverseDepth` of `bits` and indexes the table with `value`;
they are laid out as in the key of the G-buffer fill pass. -/
abbrev DepthPass.PipelineKey := GBufferFillPass.PipelineKey

/-- The members of `DepthPass` that the modelled functions use, and the record of the
`createGraphicsPipeline` calls made so far. -/
structure DepthPass where
  m_InputLayout : Handle
  m_VertexShader : Handle
  m_PixelShader : Handle
  m_InputBindingLayout : Handle
  m_ViewBindingLayout : Handle
  m_ViewBindingSet : Handle
  m_DepthCB : Handle
  m_DepthBias : Int
  m_DepthBiasClamp : FloatToken
  m_SlopeScaledDepthBias : FloatToken
  m_IsDX11 : Bool
  m_UseInputAssembler : Bool
  m_Pipelines : Nat → Handle
  m_InputBindingSets : Nat → Option Handle
  deviceLog : List PipelineCall

namespace DepthPass

/-- `DepthPass::Context`: `Context()` sets `keyTemplate.value = 0`. -/
structure Context where
  inputBindingSet : Handle := none
  keyTemplate : PipelineKey := ⟨0⟩
  positionOffset : Nat := 0
  texCoordOffset : Nat := 0
  deriving DecidableEq, Repr

/-- `sizeof(DepthPushConstants)`: four `uint`. -/
abbrev sizeofDepthPushConstants : Nat := 16

abbrev DEPTH_BINDING_PUSH_CONSTANTS : Nat := 1
abbrev DEPTH_BINDING_INSTANCE_BUFFER : Nat := 10
abbrev DEPTH_BINDING_VERTEX_BUFFER : Nat := 11

/-- `DepthPass::ResetBindingCache`; the `Clear()` of the material binding cache happens
in the collaborator. -/
def ResetBindingCache (self : DepthPass) : DepthPass :=
  { self with m_InputBindingSets := fun _ => none }

/-- The descriptor `DepthPass::CreateGraphicsPipeline` assembles for `key`. -/
def pipelineDesc (self : DepthPass) (materialBindings : MaterialBindingCache)
    (key : PipelineKey) : GraphicsPipelineDesc :=
  { inputLayout := self.m_InputLayout
    VS := self.m_VertexShader
    PS := if key.alphaTested then self.m_PixelShader else none
    renderState :=
      { rasterState :=
          { depthBias := self.m_DepthBias
            depthBiasClamp := self.m_DepthBiasClamp
            slopeScaledDepthBias := self.m_SlopeScaledDepthBias
            frontCounterClockwise := key.frontCounterClockwise
            cullMode := key.cullMode }
        depthStencilState :=
          { depthFunc := if key.reverseDepth then ComparisonFunc.GreaterOrEqual
                         else ComparisonFunc.LessOrEqual } }
    bindingLayouts :=
      [self.m_ViewBindingLayout]
        ++ (if key.alphaTested then [materialBindings.GetLayout] else [])
        ++ (if !self.m_UseInputAssembler then [self.m_InputBindingLayout] else []) }

/-- `DepthPass::CreateGraphicsPipeline`. -/
def CreateGraphicsPipeline (self : DepthPass) (dev : Device)
    (materialBindings : MaterialBindingCache) (key : PipelineKey)
    (framebuffer : Framebuffer) : Handle :=
  dev.createGraphicsPipeline (self.pipelineDesc materialBindings key) framebuffer

/-- `DepthPass::CreateInputBindingSet`: the descriptor and the device call. -/
def CreateInputBindingSet (self : DepthPass) (dev : Device) (bufferGroup : BufferGroup) :
    Handle :=
  dev.createBindingSet
    { bindings :=
        [ (if self.m_IsDX11
            then BindingSetItem.RawBuffer_SRV DEPTH_BINDING_INSTANCE_BUFFER
              bufferGroup.instanceBuffer
            else BindingSetItem.StructuredBuffer_SRV DEPTH_BINDING_INSTANCE_BUFFER
              bufferGroup.instanceBuffer),
          BindingSetItem.RawBuffer_SRV DEPTH_BINDING_VERTEX_BUFFER bufferGroup.vertexBuffer,
          BindingSetItem.PushConstants DEPTH_BINDING_PUSH_CONSTANTS sizeofDepthPushConstants ] }
    self.m_InputBindingLayout

/-- `DepthPass::GetOrCreateInputBindingSet`: the pass afterwards and the returned handle. -/
def GetOrCreateInputBindingSet (self : DepthPass) (dev : Device) (bufferGroup : BufferGroup) :
    DepthPass × Handle :=
  match self.m_InputBindingSets bufferGroup.ptr with
  | none =>
    let bindingSet := self.CreateInputBindingSet dev bufferGroup
    ({ self with
        m_InputBindingSets := mapInsert self.m_InputBindingSets bufferGroup.ptr bindingSet },
      bindingSet)
  | some second => (self, second)

/-- `DepthPass::SetupView`: the context afterwards and the command recorded. -/
def SetupView (self : DepthPass) (context : Context) (view : View) : Context × Command :=
  ({ context with
      keyTemplate :=
        (context.keyTemplate.setFrontCounterClockwise view.IsMirrored).setReverseDepth
          view.IsReverseDepth },
    Command.writeDepthConstants self.m_DepthCB view.viewProjectionMatrix)

/-- `material->X && material->X->texture && material->enableX`. -/
def hasTexture (texture : Option LoadedTexture) (enable : Bool) : Bool :=
  match texture with
  | none => false
  | some t => t.texture.isSome && enable

/-- `DepthPass::SetupMaterial`. The branch on the domain fixes the `alphaTested` bit and
the first bindings, or returns false; then the input binding set is appended, the table
slot `m_Pipelines[key.value]` is read and, when it is empty, filled by
`CreateGraphicsPipeline`. On one thread the double check under the mutex is a single
check. The `assert` on the framebuffer info is not part of the control flow. -/
def SetupMaterial (self : DepthPass) (dev : Device) (materialBindings : MaterialBindingCache)
    (context : Context) (material : Material) (cullMode : Nat) (state : GraphicsState) :
    SetupMaterialResult DepthPass :=
  let key := context.keyTemplate.setCullMode cullMode
  let hasBaseOrDiffuseTexture :=
    hasTexture material.baseOrDiffuseTexture material.enableBaseOrDiffuseTexture
  let hasOpacityTexture := hasTexture material.opacityTexture material.enableOpacityTexture
  let branch : Option (PipelineKey × List Handle) :=
    if material.domain = MaterialDomain.AlphaTested
        ∧ (hasBaseOrDiffuseTexture = true ∨ hasOpacityTexture = true) then
      match materialBindings.GetMaterialBindingSet material with
      | none => none
      | some materialBindingSet =>
        some (key.setAlphaTested true, [self.m_ViewBindingSet, some materialBindingSet])
    else if material.domain = MaterialDomain.Opaque then
      some (key.setAlphaTested false, [self.m_ViewBindingSet])
    else none
  match branch with
  | none => ⟨false, self, state, none⟩
  | some (key, bindings) =>
    let state : GraphicsState :=
      { state with
        bindings := if !self.m_UseInputAssembler then bindings ++ [context.inputBindingSet]
                    else bindings }
    match self.m_Pipelines key.value with
    | some pipeline => ⟨true, self, { state with pipeline := some pipeline }, some key.value⟩
    | none =>
      let pipeline := self.CreateGraphicsPipeline dev materialBindings key state.framebuffer
      let self : DepthPass :=
        { self with
          m_Pipelines := setSlot self.m_Pipelines key.value pipeline
          deviceLog := self.deviceLog ++
            [⟨key.value, self.pipelineDesc materialBindings key, state.framebuffer, pipeline⟩] }
      match pipeline with
      | none => ⟨false, self, state, some key.value⟩
      | some p => ⟨true, self, { state with pipeline := some p }, some key.value⟩

/-- `DepthPass::SetupInputBuffers`: the pass, the context and the graphics state
afterwards. -/
def SetupInputBuffers (self : DepthPass) (dev : Device) (context : Context)
    (buffers : BufferGroup) (state : GraphicsState) : DepthPass × Context × GraphicsState :=
  let state : GraphicsState := { state with indexBuffer := some ⟨buffers.indexBuffer, 0⟩ }
  if self.m_UseInputAssembler then
    (self, context,
      { state with
        vertexBuffers :=
          [ ⟨buffers.vertexBuffer, 0, buffers.byteOffset VertexAttribute.Position⟩,
            ⟨buffers.vertexBuffer, 1, buffers.byteOffset VertexAttribute.TexCoord1⟩,
            ⟨buffers.instanceBuffer, 2, 0⟩ ] })
  else
    let r := self.GetOrCreateInputBindingSet dev buffers
    (r.1,
      { context with
        inputBindingSet := r.2
        positionOffset := toUInt32 (buffers.byteOffset VertexAttribute.Position)
        texCoordOffset := toUInt32 (buffers.byteOffset VertexAttribute.TexCoord1) },
      state)

/-- `DepthPushConstants` (depth_cb.h): four `uint`. -/
structure DepthPushConstants where
  startInstanceLocation : Nat
  startVertexLocation : Nat
  positionOffset : Nat
  texCoordOffset : Nat
  deriving DecidableEq, Repr

/-- The block handed to `setPushConstants`: the fields in declaration order. -/
def DepthPushConstants.words (c : DepthPushConstants) : List Nat :=
  [c.startInstanceLocation, c.startVertexLocation, c.positionOffset, c.texCoordOffset]

/-- `DepthPass::SetPushConstants`. -/
def SetPushConstants (self : DepthPass) (context : Context) (state : GraphicsState)
    (args : DrawArguments) : SetPushConstantsResult Context :=
  if self.m_UseInputAssembler then ⟨context, state, args, []⟩
  else
    let constants : DepthPushConstants :=
      { startInstanceLocation := args.startInstanceLocation
        startVertexLocation := args.startVertexLocation
        positionOffset := context.positionOffset
        texCoordOffset := context.texCoordOffset }
    ⟨context, state,
      { args with startInstanceLocation := 0, startVertexLocation := 0 },
      [Command.setPushConstants constants.words]⟩

/-- One call on a pass instance that can change the pass, with its arguments and the
collaborators as they are at that moment. -/
inductive Op where
  | setupMaterial (call : MaterialCall Context)
  | setupInputBuffers (dev : Device) (context : Context) (buffers : BufferGroup)
      (state : GraphicsState)
  | resetBindingCache

/-- `SetupMaterial` applied to the arguments of a recorded call. -/
def setupMaterial (self : DepthPass) (call : MaterialCall Context) : SetupMaterialResult DepthPass :=
  self.SetupMaterial call.dev call.materialBindings call.context call.material call.cullMode
    call.state

/-- Whether the call is `ResetBindingCache`. -/
def Op.isReset : Op → Bool
  | Op.resetBindingCache => true
  | _ => false

/-- The pass after one call. -/
def step (self : DepthPass) : Op → DepthPass
  | Op.setupMaterial call => (self.setupMaterial call).pass
  | Op.setupInputBuffers dev context buffers state =>
    (self.SetupInputBuffers dev context buffers state).1
  | Op.resetBindingCache => self.ResetBindingCache

/-- The pass after a sequence of calls made one after the other. -/
def run (self : DepthPass) (ops : List Op) : DepthPass :=
  ops.foldl step self

/-- A pass as its constructor leaves the table and the cache: every slot of
`m_Pipelines` null, no input binding set, no device call made. -/
def Fresh (self : DepthPass) : Prop :=
  (∀ k, self.m_Pipelines k = none) ∧ (∀ b, self.m_InputBindingSets b = none)
    ∧ self.deviceLog = []

end DepthPass

/-! ## GBufferFillPass (src/render/GBufferFillPass.cpp) -/

/-- The members of `GBufferFillPass` that the modelled functions use, and the record of
the `createGraphicsPipeline` calls made so far. -/
structure GBufferFillPass where
  m_InputLayout : Handle
  m_VertexShader : Handle
  m_PixelShader : Handle
  m_PixelShaderAlphaTested : Handle
  m_GeometryShader : Handle
  m_InputBindingLayout : Handle
  m_ViewBindingLayout : Handle
  m_ViewBindings : Handle
  m_GBufferCB : Handle
  m_EnableDepthWrite : Bool
  m_IsDX11 : Bool
  m_UseInputAssembler : Bool
  m_StencilWriteMask : Nat
  m_Pipelines : Nat → Handle
  m_InputBindingSets : Nat → Option Handle
  deviceLog : List PipelineCall

namespace GBufferFillPass

/-- `GBufferFillPass::Context`: `Context()` sets `keyTemplate.value = 0`. -/
structure Context where
  inputBindingSet : Handle := none
  keyTemplate : PipelineKey := ⟨0⟩
  positionOffset : Nat := 0
  prevPositionOffset : Nat := 0
  texCoordOffset : Nat := 0
  normalOffset : Nat := 0
  tangentOffset : Nat := 0
  deriving DecidableEq, Repr

/-- `sizeof(GBufferPushConstants)`: seven `uint`. -/
abbrev sizeofGBufferPushConstants : Nat := 28

abbrev GBUFFER_BINDING_PUSH_CONSTANTS : Nat := 1
abbrev GBUFFER_BINDING_INSTANCE_BUFFER : Nat := 10
abbrev GBUFFER_BINDING_VERTEX_BUFFER : Nat := 11

/-- `GBufferFillPass::ResetBindingCache`. -/
def ResetBindingCache (self : GBufferFillPass) : GBufferFillPass :=
  { self with m_InputBindingSets := fun _ => none }

/-- `uint8_t(x)`. -/
def toUInt8 (x : Nat) : Nat := x % 2 ^ 8

/-- The descriptor `GBufferFillPass::CreateGraphicsPipeline` assembles for `key`. -/
def pipelineDesc (self : GBufferFillPass) (materialBindings : MaterialBindingCache)
    (key : PipelineKey) : GraphicsPipelineDesc :=
  let depthStencilState : DepthStencilState :=
    { depthWriteEnable := self.m_EnableDepthWrite
      depthFunc := if key.reverseDepth then ComparisonFunc.GreaterOrEqual
                   else ComparisonFunc.LessOrEqual }
  let depthStencilState : DepthStencilState :=
    if self.m_StencilWriteMask ≠ 0 then
      { depthStencilState with
        stencilEnable := true
        stencilReadMask := 0
        stencilWriteMask := toUInt8 self.m_StencilWriteMask
        stencilRefValue := toUInt8 self.m_StencilWriteMask
        frontFaceStencil := { passOp := StencilOp.Replace }
        backFaceStencil := { passOp := StencilOp.Replace } }
    else depthStencilState
  { inputLayout := self.m_InputLayout
    VS := self.m_VertexShader
    GS := self.m_GeometryShader
    PS := if key.alphaTested then
            (if self.m_PixelShaderAlphaTested.isSome then self.m_PixelShaderAlphaTested
             else self.m_PixelShader)
          else self.m_PixelShader
    renderState :=
      { rasterState :=
          { frontCounterClockwise := key.frontCounterClockwise
            cullMode := if key.alphaTested then RasterCullMode.None else key.cullMode }
        blendState :=
          { alphaToCoverageEnable :=
              key.alphaTested && !self.m_PixelShaderAlphaTested.isSome }
        depthStencilState := depthStencilState }
    bindingLayouts :=
      [materialBindings.GetLayout, self.m_ViewBindingLayout]
        ++ (if !self.m_UseInputAssembler then [self.m_InputBindingLayout] else []) }

/-- `GBufferFillPass::CreateGraphicsPipeline`. -/
def CreateGraphicsPipeline (self : GBufferFillPass) (dev : Device)
    (materialBindings : MaterialBindingCache) (key : PipelineKey)
    (sampleFramebuffer : Framebuffer) : Handle :=
  dev.createGraphicsPipeline (self.pipelineDesc materialBindings key) sampleFramebuffer

/-- `GBufferFillPass::CreateInputBindingSet`. -/
def CreateInputBindingSet (self : GBufferFillPass) (dev : Device)
    (bufferGroup : BufferGroup) : Handle :=
  dev.createBindingSet
    { bindings :=
        [ (if self.m_IsDX11
            then BindingSetItem.RawBuffer_SRV GBUFFER_BINDING_INSTANCE_BUFFER
              bufferGroup.instanceBuffer
            else BindingSetItem.StructuredBuffer_SRV GBUFFER_BINDING_INSTANCE_BUFFER
              bufferGroup.instanceBuffer),
          BindingSetItem.RawBuffer_SRV GBUFFER_BINDING_VERTEX_BUFFER bufferGroup.vertexBuffer,
          BindingSetItem.PushConstants GBUFFER_BINDING_PUSH_CONSTANTS
            sizeofGBufferPushConstants ] }
    self.m_InputBindingLayout

/-- `GBufferFillPass::GetOrCreateInputBindingSet`. -/
def GetOrCreateInputBindingSet (self : GBufferFillPass) (dev : Device)
    (bufferGroup : BufferGroup) : GBufferFillPass × Handle :=
  match self.m_InputBindingSets bufferGroup.ptr with
  | none =>
    let bindingSet := self.CreateInputBindingSet dev bufferGroup
    ({ self with
        m_InputBindingSets := mapInsert self.m_InputBindingSets bufferGroup.ptr bindingSet },
      bindingSet)
  | some second => (self, second)

/-- `GBufferFillPass::SetupView`: the context afterwards and the command recorded. -/
def SetupView (self : GBufferFillPass) (context : Context) (view viewPrev : View) :
    Context × Command :=
  ({ context with
      keyTemplate :=
        (context.keyTemplate.setFrontCounterClockwise view.IsMirrored).setReverseDepth
          view.IsReverseDepth },
    Command.writeGBufferConstants self.m_GBufferCB view.planarViewConstants
      viewPrev.planarViewConstants)

/-- `GBufferFillPass::SetupMaterial`. The `switch` on the domain sets the `alphaTested`
bit (the blended and transmissive domains share the case of `Opaque`) or returns false
in its `default`; then the material binding set is asked for, the table slot is read
and, when it is empty, filled by `CreateGraphicsPipeline`; the pipeline and the
bindings are stored into the graphics state last. The `assert` on the framebuffer
info is not part of the control flow. -/
def SetupMaterial (self : GBufferFillPass) (dev : Device)
    (materialBindings : MaterialBindingCache) (context : Context) (material : Material)
    (cullMode : Nat) (state : GraphicsState) : SetupMaterialResult GBufferFillPass :=
  let key := context.keyTemplate.setCullMode cullMode
  let switched : Option PipelineKey :=
    if material.domain = MaterialDomain.Opaque
        ∨ material.domain = MaterialDomain.AlphaBlended
        ∨ material.domain = MaterialDomain.Transmissive
        ∨ material.domain = MaterialDomain.TransmissiveAlphaTested
        ∨ material.domain = MaterialDomain.TransmissiveAlphaBlended then
      some (key.setAlphaTested false)
    else if material.domain = MaterialDomain.AlphaTested then
      some (key.setAlphaTested true)
    else none
  match switched with
  | none => ⟨false, self, state, none⟩
  | some key =>
    match materialBindings.GetMaterialBindingSet material with
    | none => ⟨false, self, state, none⟩
    | some materialBindingSet =>
      let bindings : List Handle :=
        [some materialBindingSet, self.m_ViewBindings]
          ++ (if !self.m_UseInputAssembler then [context.inputBindingSet] else [])
      match self.m_Pipelines key.value with
      | some pipeline =>
        ⟨true, self, { state with pipeline := some pipeline, bindings := bindings },
          some key.value⟩
      | none =>
        let pipeline := self.CreateGraphicsPipeline dev materialBindings key state.framebuffer
        let self : GBufferFillPass :=
          { self with
            m_Pipelines := setSlot self.m_Pipelines key.value pipeline
            deviceLog := self.deviceLog ++
              [⟨key.value, self.pipelineDesc materialBindings key, state.framebuffer,
                pipeline⟩] }
        match pipeline with
        | none => ⟨false, self, state, some key.value⟩
        | some p =>
          ⟨true, self, { state with pipeline := some p, bindings := bindings },
            some key.value⟩

/-- `GBufferFillPass::SetupInputBuffers`. -/
def SetupInputBuffers (self : GBufferFillPass) (dev : Device) (context : Context)
    (buffers : BufferGroup) (state : GraphicsState) :
    GBufferFillPass × Context × GraphicsState :=
  let state : GraphicsState := { state with indexBuffer := some ⟨buffers.indexBuffer, 0⟩ }
  if self.m_UseInputAssembler then
    (self, context,
      { state with
        vertexBuffers :=
          [ ⟨buffers.vertexBuffer, 0, buffers.byteOffset VertexAttribute.Position⟩,
            ⟨buffers.vertexBuffer, 1, buffers.byteOffset VertexAttribute.PrevPosition⟩,
            ⟨buffers.vertexBuffer, 2, buffers.byteOffset VertexAttribute.TexCoord1⟩,
            ⟨buffers.vertexBuffer, 3, buffers.byteOffset VertexAttribute.Normal⟩,
            ⟨buffers.vertexBuffer, 4, buffers.byteOffset VertexAttribute.Tangent⟩,
            ⟨buffers.instanceBuffer, 5, 0⟩ ] })
  else
    let r := self.GetOrCreateInputBindingSet dev buffers
    (r.1,
      { context with
        inputBindingSet := r.2
        positionOffset := toUInt32 (buffers.byteOffset VertexAttribute.Position)
        prevPositionOffset := toUInt32 (buffers.byteOffset VertexAttribute.PrevPosition)
        texCoordOffset := toUInt32 (buffers.byteOffset VertexAttribute.TexCoord1)
        normalOffset := toUInt32 (buffers.byteOffset VertexAttribute.Normal)
        tangentOffset := toUInt32 (buffers.byteOffset VertexAttribute.Tangent) },
      state)

/-- `GBufferPushConstants` (gbuffer_cb.h): seven `uint`. -/
structure GBufferPushConstants where
  startInstanceLocation : Nat
  startVertexLocation : Nat
  positionOffset : Nat
  prevPositionOffset : Nat
  texCoordOffset : Nat
  normalOffset : Nat
  tangentOffset : Nat
  deriving DecidableEq, Repr

/-- The block handed to `setPushConstants`: the fields in declaration order. -/
def GBufferPushConstants.words (c : GBufferPushConstants) : List Nat :=
  [c.startInstanceLocation, c.startVertexLocation, c.positionOffset, c.prevPositionOffset,
    c.texCoordOffset, c.normalOffset, c.tangentOffset]

/-- `GBufferFillPass::SetPushConstants`. -/
def SetPushConstants (self : GBufferFillPass) (context : Context) (state : GraphicsState)
    (args : DrawArguments) : SetPushConstantsResult Context :=
  if self.m_UseInputAssembler then ⟨context, state, args, []⟩
  else
    let constants : GBufferPushConstants :=
      { startInstanceLocation := args.startInstanceLocation
        startVertexLocation := args.startVertexLocation
        positionOffset := context.positionOffset
        prevPositionOffset := context.prevPositionOffset
        texCoordOffset := context.texCoordOffset
        normalOffset := context.normalOffset
        tangentOffset := context.tangentOffset }
    ⟨context, state,
      { args with startInstanceLocation := 0, startVertexLocation := 0 },
      [Command.setPushConstants constants.words]⟩

/-- One call on a pass instance that can change the pass. -/
inductive Op where
  | setupMaterial (call : MaterialCall Context)
  | setupInputBuffers (dev : Device) (context : Context) (buffers : BufferGroup)
      (state : GraphicsState)
  | resetBindingCache

/-- `SetupMaterial` applied to the arguments of a recorded call. -/
def setupMaterial (self : GBufferFillPass) (call : MaterialCall Context) : SetupMaterialResult GBufferFillPass :=
  self.SetupMaterial call.dev call.materialBindings call.context call.material call.cullMode
    call.state

/-- Whether the call is `ResetBindingCache`. -/
def Op.isReset : Op → Bool
  | Op.resetBindingCache => true
  | _ => false

/-- The pass after one call. -/
def step (self : GBufferFillPass) : Op → GBufferFillPass
  | Op.setupMaterial call => (self.setupMaterial call).pass
  | Op.setupInputBuffers dev context buffers state =>
    (self.SetupInputBuffers dev context buffers state).1
  | Op.resetBindingCache => self.ResetBindingCache

/-- The pass after a sequence of calls made one after the other. -/
def run (self : GBufferFillPass) (ops : List Op) : GBufferFillPass :=
  ops.foldl step self

/-- A pass as its constructor leaves the table and the cache. -/
def Fresh (self : GBufferFillPass) : Prop :=
  (∀ k, self.m_Pipelines k = none) ∧ (∀ b, self.m_InputBindingSets b = none)
    ∧ self.deviceLog = []

end GBufferFillPass

/-! ## ForwardShadingPass (src/render/ForwardShadingPass.cpp) -/

/-- Modelled from the spec: what `PrepareLights` asks of a shadow map (ShadowMap.h is
not among the sources): its texture and the texture size, the size as a token. -/
structure ShadowMap where
  GetTexture : Handle
  GetTextureSize : Nat := 0
  /-- What `GetCascade(i)->FillShadowConstants` writes, for each cascade, as a token. -/
  cascades : List Nat := []
  /-- What `GetPerObjectShadow(i)->FillShadowConstants` writes, for each per-object
  shadow, as a token. -/
  perObjectShadows : List Nat := []
  deriving DecidableEq, Repr

/-- Modelled from the spec: what `PrepareLights` asks of a light (SceneTypes.h is not
among the sources): its shadow map, if it has one. -/
structure Light where
  shadowMap : Option ShadowMap := none
  /-- What `FillLightConstants` writes for this light, as a token. -/
  constants : Nat := 0
  deriving DecidableEq, Repr

/-- Modelled from the spec: what `PrepareLights` asks of a light probe (SceneTypes.h is
not among the sources): the enabled flag and the three textures. -/
structure LightProbe where
  enabled : Bool := true
  diffuseMap : Handle := none
  specularMap : Handle := none
  environmentBrdf : Handle := none
  /-- What `IsActive()` answers. -/
  IsActive : Bool := true
  /-- What `FillLightProbeConstants` writes for this probe, as a token. -/
  constants : Nat := 0
  deriving DecidableEq, Repr

/-- Modelled from the spec: the textures and samplers of `engine::CommonRenderPasses`
that the forward pass binds (CommonRenderPasses.h is not among the sources). -/
structure CommonRenderPasses where
  m_BlackTexture : Handle
  m_BlackTexture2DArray : Handle
  m_BlackCubeMapArray : Handle
  m_AnisotropicWrapSampler : Handle
  m_LinearWrapSampler : Handle
  m_LinearClampSampler : Handle
  deriving DecidableEq, Repr

/-- The members of `ForwardShadingPass` that the modelled functions use, and the record
of the `createGraphicsPipeline` calls made so far. -/
structure ForwardShadingPass where
  m_InputLayout : Handle
  m_VertexShader : Handle
  m_PixelShader : Handle
  m_PixelShaderTransmissive : Handle
  m_GeometryShader : Handle
  m_ShadowSampler : Handle
  m_ViewBindingLayout : Handle
  m_ViewBindingSet : Handle
  m_ShadingBindingLayout : Handle
  m_InputBindingLayout : Handle
  m_ForwardViewCB : Handle
  m_ForwardLightCB : Handle
  m_TrackLiveness : Bool := true
  m_IsDX11 : Bool
  m_UseInputAssembler : Bool
  m_CommonPasses : CommonRenderPasses
  m_Pipelines : Nat → Handle
  m_ShadingBindingSets : Handle × Handle → Option Handle
  m_InputBindingSets : Nat → Option Handle
  deviceLog : List PipelineCall

namespace ForwardShadingPass

/-- `ForwardShadingPass::Context`: `Context()` sets `keyTemplate.value = 0`. -/
structure Context where
  shadingBindingSet : Handle := none
  inputBindingSet : Handle := none
  keyTemplate : PipelineKey := ⟨0⟩
  positionOffset : Nat := 0
  texCoordOffset : Nat := 0
  normalOffset : Nat := 0
  tangentOffset : Nat := 0
  deriving DecidableEq, Repr

/-- `sizeof(ForwardPushConstants)`: six `uint`. -/
abbrev sizeofForwardPushConstants : Nat := 24

abbrev FORWARD_BINDING_PUSH_CONSTANTS : Nat := 1
abbrev FORWARD_BINDING_INSTANCE_BUFFER : Nat := 10
abbrev FORWARD_BINDING_VERTEX_BUFFER : Nat := 11
abbrev FORWARD_BINDING_LIGHT_CONSTANTS : Nat := 3
abbrev FORWARD_BINDING_SHADOW_MAP_TEXTURE : Nat := 20
abbrev FORWARD_BINDING_DIFFUSE_LIGHT_PROBE_TEXTURE : Nat := 21
abbrev FORWARD_BINDING_SPECULAR_LIGHT_PROBE_TEXTURE : Nat := 22
abbrev FORWARD_BINDING_ENVIRONMENT_BRDF_TEXTURE : Nat := 23
abbrev FORWARD_BINDING_MATERIAL_SAMPLER : Nat := 0
abbrev FORWARD_BINDING_SHADOW_MAP_SAMPLER : Nat := 1
abbrev FORWARD_BINDING_LIGHT_PROBE_SAMPLER : Nat := 2
abbrev FORWARD_BINDING_ENVIRONMENT_BRDF_SAMPLER : Nat := 3

/-- `ForwardShadingPass::ResetBindingCache`. -/
def ResetBindingCache (self : ForwardShadingPass) : ForwardShadingPass :=
  { self with m_ShadingBindingSets := fun _ => none, m_InputBindingSets := fun _ => none }

/-- `x ? x : fallback` on handles. -/
def orElse (x fallback : Handle) : Handle :=
  if x.isSome then x else fallback

/-- `ForwardShadingPass::CreateShadingBindingSet`. -/
def CreateShadingBindingSet (self : ForwardShadingPass) (dev : Device)
    (shadowMapTexture diffuse specular environmentBrdf : Handle) : Handle :=
  dev.createBindingSet
    { trackLiveness := self.m_TrackLiveness
      bindings :=
        [ BindingSetItem.ConstantBuffer FORWARD_BINDING_LIGHT_CONSTANTS self.m_ForwardLightCB,
          BindingSetItem.Texture_SRV FORWARD_BINDING_SHADOW_MAP_TEXTURE
            (orElse shadowMapTexture self.m_CommonPasses.m_BlackTexture2DArray),
          BindingSetItem.Texture_SRV FORWARD_BINDING_DIFFUSE_LIGHT_PROBE_TEXTURE
            (orElse diffuse self.m_CommonPasses.m_BlackCubeMapArray),
          BindingSetItem.Texture_SRV FORWARD_BINDING_SPECULAR_LIGHT_PROBE_TEXTURE
            (orElse specular self.m_CommonPasses.m_BlackCubeMapArray),
          BindingSetItem.Texture_SRV FORWARD_BINDING_ENVIRONMENT_BRDF_TEXTURE
            (orElse environmentBrdf self.m_CommonPasses.m_BlackTexture),
          BindingSetItem.Sampler FORWARD_BINDING_MATERIAL_SAMPLER
            self.m_CommonPasses.m_AnisotropicWrapSampler,
          BindingSetItem.Sampler FORWARD_BINDING_SHADOW_MAP_SAMPLER self.m_ShadowSampler,
          BindingSetItem.Sampler FORWARD_BINDING_LIGHT_PROBE_SAMPLER
            self.m_CommonPasses.m_LinearWrapSampler,
          BindingSetItem.Sampler FORWARD_BINDING_ENVIRONMENT_BRDF_SAMPLER
            self.m_CommonPasses.m_LinearClampSampler ] }
    self.m_ShadingBindingLayout

/-- The descriptor `ForwardShadingPass::CreateGraphicsPipeline` assembles for `key` and
the framebuffer; `none` in the `default` case of the `switch` on the domain, where the
function returns null without calling the device. -/
def pipelineDesc (self : ForwardShadingPass) (materialBindings : MaterialBindingCache)
    (key : PipelineKey) (framebuffer : Framebuffer) : Option GraphicsPipelineDesc :=
  let framebufferUsesMSAA : Bool := decide (framebuffer.info.sampleCount > 1)
  let base : GraphicsPipelineDesc :=
    { inputLayout := self.m_InputLayout
      VS := self.m_VertexShader
      GS := self.m_GeometryShader
      renderState :=
        { rasterState :=
            { frontCounterClockwise := key.frontCounterClockwise
              cullMode := key.cullMode }
          blendState := { alphaToCoverageEnable := false }
          depthStencilState :=
            { depthFunc := if key.reverseDepth then ComparisonFunc.GreaterOrEqual
                           else ComparisonFunc.LessOrEqual } }
      bindingLayouts :=
        [materialBindings.GetLayout, self.m_ViewBindingLayout, self.m_ShadingBindingLayout]
          ++ (if !self.m_UseInputAssembler then [self.m_InputBindingLayout] else []) }
  if key.domain = MaterialDomain.Opaque then
    some { base with PS := self.m_PixelShader }
  else if key.domain = MaterialDomain.AlphaTested then
    some { base with
      PS := self.m_PixelShader
      renderState :=
        { base.renderState with
          blendState :=
            { base.renderState.blendState with alphaToCoverageEnable := framebufferUsesMSAA } } }
  else if key.domain = MaterialDomain.AlphaBlended then
    some { base with
      PS := self.m_PixelShader
      renderState :=
        { base.renderState with
          blendState :=
            { base.renderState.blendState with
              target0 :=
                { base.renderState.blendState.target0 with
                  blendEnable := true
                  srcBlend := BlendFactor.SrcAlpha
                  destBlend := BlendFactor.InvSrcAlpha
                  srcBlendAlpha := BlendFactor.Zero
                  destBlendAlpha := BlendFactor.One } }
          depthStencilState :=
            { base.renderState.depthStencilState with depthWriteEnable := false } } }
  else if key.domain = MaterialDomain.Transmissive
      ∨ key.domain = MaterialDomain.TransmissiveAlphaTested
      ∨ key.domain = MaterialDomain.TransmissiveAlphaBlended then
    some { base with
      PS := self.m_PixelShaderTransmissive
      renderState :=
        { base.renderState with
          blendState :=
            { base.renderState.blendState with
              target0 :=
                { base.renderState.blendState.target0 with
                  blendEnable := true
                  srcBlend := BlendFactor.One
                  destBlend := BlendFactor.Src1Color
                  srcBlendAlpha := BlendFactor.Zero
                  destBlendAlpha := BlendFactor.One } }
          depthStencilState :=
            { base.renderState.depthStencilState with depthWriteEnable := false } } }
  else none

/-- `ForwardShadingPass::CreateGraphicsPipeline`: the returned handle. -/
def CreateGraphicsPipeline (self : ForwardShadingPass) (dev : Device)
    (materialBindings : MaterialBindingCache) (key : PipelineKey)
    (framebuffer : Framebuffer) : Handle :=
  match self.pipelineDesc materialBindings key framebuffer with
  | none => none
  | some desc => dev.createGraphicsPipeline desc framebuffer

/-- The device calls `CreateGraphicsPipeline` makes: one when a descriptor is
assembled, none in the `default` case. -/
def CreateGraphicsPipeline_calls (self : ForwardShadingPass) (dev : Device)
    (materialBindings : MaterialBindingCache) (key : PipelineKey)
    (framebuffer : Framebuffer) : List PipelineCall :=
  match self.pipelineDesc materialBindings key framebuffer with
  | none => []
  | some desc => [⟨key.value, desc, framebuffer, dev.createGraphicsPipeline desc framebuffer⟩]

/-- `ForwardShadingPass::CreateInputBindingSet`. -/
def CreateInputBindingSet (self : ForwardShadingPass) (dev : Device)
    (bufferGroup : BufferGroup) : Handle :=
  dev.createBindingSet
    { bindings :=
        [ (if self.m_IsDX11
            then BindingSetItem.RawBuffer_SRV FORWARD_BINDING_INSTANCE_BUFFER
              bufferGroup.instanceBuffer
            else BindingSetItem.StructuredBuffer_SRV FORWARD_BINDING_INSTANCE_BUFFER
              bufferGroup.instanceBuffer),
          BindingSetItem.RawBuffer_SRV FORWARD_BINDING_VERTEX_BUFFER bufferGroup.vertexBuffer,
          BindingSetItem.PushConstants FORWARD_BINDING_PUSH_CONSTANTS
            sizeofForwardPushConstants ] }
    self.m_InputBindingLayout

/-- `ForwardShadingPass::GetOrCreateInputBindingSet`. -/
def GetOrCreateInputBindingSet (self : ForwardShadingPass) (dev : Device)
    (bufferGroup : BufferGroup) : ForwardShadingPass × Handle :=
  match self.m_InputBindingSets bufferGroup.ptr with
  | none =>
    let bindingSet := self.CreateInputBindingSet dev bufferGroup
    ({ self with
        m_InputBindingSets := mapInsert self.m_InputBindingSets bufferGroup.ptr bindingSet },
      bindingSet)
  | some second => (self, second)

/-- `ForwardShadingPass::SetupView`: the context afterwards and the command recorded. -/
def SetupView (self : ForwardShadingPass) (context : Context) (view : View) :
    Context × Command :=
  ({ context with
      keyTemplate :=
        (context.keyTemplate.setFrontCounterClockwise view.IsMirrored).setReverseDepth
          view.IsReverseDepth },
    Command.writeForwardViewConstants self.m_ForwardViewCB view.planarViewConstants)

/-- The first loop of `PrepareLights`: the texture of the first light that has a shadow
map, null when there is none. -/
def firstShadowMapTexture : List Light → Handle
  | [] => none
  | light :: rest =>
    match light.shadowMap with
    | some shadowMap => shadowMap.GetTexture
    | none => firstShadowMapTexture rest

/-- The second loop of `PrepareLights`, from the textures chosen so far (diffuse,
specular, environment BRDF): a disabled probe is skipped; while one of the three is
null the probe's textures are taken; otherwise a probe that differs in one of them is
the error, `none`, on which the function logs and returns. -/
def selectProbeTextures : List LightProbe → Handle × Handle × Handle →
    Option (Handle × Handle × Handle)
  | [], chosen => some chosen
  | probe :: rest, (lightProbeDiffuse, lightProbeSpecular, lightProbeEnvironmentBrdf) =>
    if !probe.enabled then
      selectProbeTextures rest (lightProbeDiffuse, lightProbeSpecular, lightProbeEnvironmentBrdf)
    else if lightProbeDiffuse = none ∨ lightProbeSpecular = none
        ∨ lightProbeEnvironmentBrdf = none then
      selectProbeTextures rest (probe.diffuseMap, probe.specularMap, probe.environmentBrdf)
    else if lightProbeDiffuse ≠ probe.diffuseMap ∨ lightProbeSpecular ≠ probe.specularMap
        ∨ lightProbeEnvironmentBrdf ≠ probe.environmentBrdf then
      none
    else
      selectProbeTextures rest (lightProbeDiffuse, lightProbeSpecular, lightProbeEnvironmentBrdf)

abbrev FORWARD_MAX_LIGHTS : Nat := 16
abbrev FORWARD_MAX_SHADOWS : Nat := 16
abbrev FORWARD_MAX_LIGHT_PROBES : Nat := 16

/-- The three arrays of `ForwardShadingLightConstants`, each of 16 elements. -/
inductive ConstantArray where
  | lights | shadows | lightProbes
  deriving DecidableEq, Repr

/-- Modelled from the spec: one element of `lights` (light_cb.h is not among the
sources): what `FillLightConstants` wrote, as the token of the light, and the writes
`shadowCascades[cascade] = numShadows` and `perObjectShadows[i] = numShadows` made
afterwards, as pairs of index and value in the order they were made. -/
structure LightConstants where
  filledFrom : Nat
  shadowCascades : List (Nat × Nat) := []
  perObjectShadows : List (Nat × Nat) := []
  deriving DecidableEq, Repr

/-- `ForwardShadingLightConstants` (forward_cb.h). An array is a function of the index;
`none` is an element still zero as `constants = {}` left it. The ambient colours and
the inverse of the texture size, which are copied or computed from arguments and take
part in no decision, are left out. -/
structure ForwardShadingLightConstants where
  shadowMapTextureSize : Nat := 0
  numLights : Nat := 0
  numLightProbes : Nat := 0
  lights : Nat → Option LightConstants := fun _ => none
  shadows : Nat → Option Nat := fun _ => none
  lightProbes : Nat → Option Nat := fun _ => none

/-- `array[index] = value`, at any index. -/
def arraySet {α : Type} (array : Nat → Option α) (index : Nat) (value : α) : Nat → Option α :=
  fun i => if i = index then some value else array i

/-- The local state of the second half of `PrepareLights`: the constants being filled,
the local `numShadows`, and the record of the array elements written so far, each as
the array and the index used. No code reads the record. -/
structure LightLoopState where
  constants : ForwardShadingLightConstants := {}
  numShadows : Nat := 0
  arrayWrites : List (ConstantArray × Nat) := []

/-- The size of the first shadow map found by the first loop of `PrepareLights`, 0 when
no light has a shadow map. -/
def firstShadowMapTextureSize : List Light → Nat
  | [] => 0
  | light :: rest =>
    match light.shadowMap with
    | some shadowMap => shadowMap.GetTextureSize
    | none => firstShadowMapTextureSize rest

/-- The loop over the cascades of a shadow map (`perObject = false`) or over its
per-object shadows (`perObject = true`), from the entry with the given index on: while
`numShadows` is below `FORWARD_MAX_SHADOWS` the shadow constants are written to
`shadows[numShadows]`, the index `numShadows` is stored into the light constants, and
`numShadows` is incremented; otherwise the entry is skipped. -/
def fillShadows (perObject : Bool) :
    List Nat → Nat → LightConstants → LightLoopState → LightConstants × LightLoopState
  | [], _, lightConstants, st => (lightConstants, st)
  | shadow :: rest, index, lightConstants, st =>
    if st.numShadows < FORWARD_MAX_SHADOWS then
      fillShadows perObject rest (index + 1)
        (if perObject then
          { lightConstants with
            perObjectShadows := lightConstants.perObjectShadows ++ [(index, st.numShadows)] }
         else
          { lightConstants with
            shadowCascades := lightConstants.shadowCascades ++ [(index, st.numShadows)] })
        { st with
          constants :=
            { st.constants with shadows := arraySet st.constants.shadows st.numShadows shadow }
          numShadows := st.numShadows + 1
          arrayWrites := st.arrayWrites ++ [(ConstantArray.shadows, st.numShadows)] }
    else fillShadows perObject rest (index + 1) lightConstants st

/-- One iteration of the loop over the lights: `lights[numLights]` is filled from the
light, the shadows of its shadow map are added, and `numLights` is incremented. -/
def fillLight (light : Light) (st : LightLoopState) : LightLoopState :=
  let slot := st.constants.numLights
  let st1 : LightLoopState :=
    { st with arrayWrites := st.arrayWrites ++ [(ConstantArray.lights, slot)] }
  let filled : LightConstants × LightLoopState :=
    match light.shadowMap with
    | none => ({ filledFrom := light.constants }, st1)
    | some shadowMap =>
      let cascaded := fillShadows false shadowMap.cascades 0 { filledFrom := light.constants } st1
      fillShadows true shadowMap.perObjectShadows 0 cascaded.1 cascaded.2
  { filled.2 with
    constants :=
      { filled.2.constants with
        lights := arraySet filled.2.constants.lights slot filled.1
        numLights := slot + 1 } }

/-- The loop over the lights: `nLight` runs from 0 up to, not including,
`min(lights.size(), FORWARD_MAX_LIGHTS)`. The cast of the size to `int` is exact, a
vector of lights being shorter than 2^31. -/
def fillLights (lights : List Light) (st : LightLoopState) : LightLoopState :=
  (lights.take (min lights.length FORWARD_MAX_LIGHTS)).foldl (fun st light => fillLight light st) st

/-- The loop over the light probes: a probe that is not active is skipped; an active
one is written to `lightProbes[numLightProbes]`, `numLightProbes` is incremented, and
the loop is left once it has reached `FORWARD_MAX_LIGHT_PROBES`. -/
def fillLightProbes : List LightProbe → LightLoopState → LightLoopState
  | [], st => st
  | probe :: rest, st =>
    if !probe.IsActive then fillLightProbes rest st
    else
      let slot := st.constants.numLightProbes
      let st1 : LightLoopState :=
        { st with
          constants :=
            { st.constants with
              lightProbes := arraySet st.constants.lightProbes slot probe.constants
              numLightProbes := slot + 1 }
          arrayWrites := st.arrayWrites ++ [(ConstantArray.lightProbes, slot)] }
      if slot + 1 ≥ FORWARD_MAX_LIGHT_PROBES then st1 else fillLightProbes rest st1

/-- The second half of `PrepareLights`: the constants start as `{}`, take the shadow
map size, and are filled by the loop over the lights and the loop over the probes. -/
def fillLightConstants (lights : List Light) (lightProbes : List LightProbe) :
    LightLoopState :=
  fillLightProbes lightProbes
    (fillLights lights
      { constants := { shadowMapTextureSize := firstShadowMapTextureSize lights } })

/-- What `PrepareLights` leaves behind: the pass, the context, whether it logged the
error about differing probe textures, the light constants it wrote into
`m_ForwardLightCB` (`none` when it wrote nothing), and the record of the array elements
written while the constants were filled. -/
structure PrepareLightsResult where
  pass : ForwardShadingPass
  context : Context
  loggedError : Bool := false
  written : Option ForwardShadingLightConstants := none
  arrayWrites : List (ConstantArray × Nat) := []

/-- `ForwardShadingPass::PrepareLights`: the textures are selected (on differing probe
textures the function logs the error and returns),
`m_ShadingBindingSets[(shadowMapTexture, lightProbeDiffuse)]` is read (which inserts a
null handle for an absent key), a null handle is replaced by `CreateShadingBindingSet`,
the handle is stored into the context, and the light constants are filled and written
into `m_ForwardLightCB`. -/
def PrepareLights (self : ForwardShadingPass) (dev : Device) (context : Context)
    (lights : List Light) (lightProbes : List LightProbe) : PrepareLightsResult :=
  let shadowMapTexture := firstShadowMapTexture lights
  match selectProbeTextures lightProbes (none, none, none) with
  | none => { pass := self, context := context, loggedError := true }
  | some (lightProbeDiffuse, lightProbeSpecular, lightProbeEnvironmentBrdf) =>
    let stored : Handle :=
      match self.m_ShadingBindingSets (shadowMapTexture, lightProbeDiffuse) with
      | none => none
      | some h => h
    let shadingBindings : Handle :=
      if stored.isSome then stored
      else self.CreateShadingBindingSet dev shadowMapTexture lightProbeDiffuse
        lightProbeSpecular lightProbeEnvironmentBrdf
    { pass :=
        { self with
          m_ShadingBindingSets :=
            mapInsert self.m_ShadingBindingSets (shadowMapTexture, lightProbeDiffuse)
              shadingBindings }
      context := { context with shadingBindingSet := shadingBindings }
      written := some (fillLightConstants lights lightProbes).constants
      arrayWrites := (fillLightConstants lights lightProbes).arrayWrites }

/-- `ForwardShadingPass::SetupMaterial`. The material binding set is asked for first;
a domain of `Count` or above or a cull mode above `None` returns false (after an
`assert(false)`, which release builds compile out); the key takes the cull mode and the
domain; the table slot is read and, when it is empty, filled by
`CreateGraphicsPipeline`; the pipeline and the bindings are stored into the graphics
state last. The `assert` on the framebuffer info is not part of the control flow. -/
def SetupMaterial (self : ForwardShadingPass) (dev : Device)
    (materialBindings : MaterialBindingCache) (context : Context) (material : Material)
    (cullMode : Nat) (state : GraphicsState) : SetupMaterialResult ForwardShadingPass :=
  match materialBindings.GetMaterialBindingSet material with
  | none => ⟨false, self, state, none⟩
  | some materialBindingSet =>
    if material.domain ≥ MaterialDomain.Count ∨ cullMode > RasterCullMode.None then
      ⟨false, self, state, none⟩
    else
      let key := (context.keyTemplate.setCullMode cullMode).setDomain material.domain
      let bindings : List Handle :=
        [some materialBindingSet, self.m_ViewBindingSet, context.shadingBindingSet]
          ++ (if !self.m_UseInputAssembler then [context.inputBindingSet] else [])
      match self.m_Pipelines key.value with
      | some pipeline =>
        ⟨true, self, { state with pipeline := some pipeline, bindings := bindings },
          some key.value⟩
      | none =>
        let pipeline := self.CreateGraphicsPipeline dev materialBindings key state.framebuffer
        let self : ForwardShadingPass :=
          { self with
            m_Pipelines := setSlot self.m_Pipelines key.value pipeline
            deviceLog := self.deviceLog ++
              self.CreateGraphicsPipeline_calls dev materialBindings key state.framebuffer }
        match pipeline with
        | none => ⟨false, self, state, some key.value⟩
        | some p =>
          ⟨true, self, { state with pipeline := some p, bindings := bindings },
            some key.value⟩

/-- `ForwardShadingPass::SetupInputBuffers`. -/
def SetupInputBuffers (self : ForwardShadingPass) (dev : Device) (context : Context)
    (buffers : BufferGroup) (state : GraphicsState) :
    ForwardShadingPass × Context × GraphicsState :=
  let state : GraphicsState := { state with indexBuffer := some ⟨buffers.indexBuffer, 0⟩ }
  if self.m_UseInputAssembler then
    (self, context,
      { state with
        vertexBuffers :=
          [ ⟨buffers.vertexBuffer, 0, buffers.byteOffset VertexAttribute.Position⟩,
            ⟨buffers.vertexBuffer, 1, buffers.byteOffset VertexAttribute.PrevPosition⟩,
            ⟨buffers.vertexBuffer, 2, buffers.byteOffset VertexAttribute.TexCoord1⟩,
            ⟨buffers.vertexBuffer, 3, buffers.byteOffset VertexAttribute.Normal⟩,
            ⟨buffers.vertexBuffer, 4, buffers.byteOffset VertexAttribute.Tangent⟩,
            ⟨buffers.instanceBuffer, 5, 0⟩ ] })
  else
    let r := self.GetOrCreateInputBindingSet dev buffers
    (r.1,
      { context with
        inputBindingSet := r.2
        positionOffset := toUInt32 (buffers.byteOffset VertexAttribute.Position)
        texCoordOffset := toUInt32 (buffers.byteOffset VertexAttribute.TexCoord1)
        normalOffset := toUInt32 (buffers.byteOffset VertexAttribute.Normal)
        tangentOffset := toUInt32 (buffers.byteOffset VertexAttribute.Tangent) },
      state)

/-- `ForwardPushConstants` (forward_cb.h): six `uint`. -/
structure ForwardPushConstants where
  startInstanceLocation : Nat
  startVertexLocation : Nat
  positionOffset : Nat
  texCoordOffset : Nat
  normalOffset : Nat
  tangentOffset : Nat
  deriving DecidableEq, Repr

/-- The block handed to `setPushConstants`: the fields in declaration order. -/
def ForwardPushConstants.words (c : ForwardPushConstants) : List Nat :=
  [c.startInstanceLocation, c.startVertexLocation, c.positionOffset, c.texCoordOffset,
    c.normalOffset, c.tangentOffset]

/-- `ForwardShadingPass::SetPushConstants`. -/
def SetPushConstants (self : ForwardShadingPass) (context : Context) (state : GraphicsState)
    (args : DrawArguments) : SetPushConstantsResult Context :=
  if self.m_UseInputAssembler then ⟨context, state, args, []⟩
  else
    let constants : ForwardPushConstants :=
      { startInstanceLocation := args.startInstanceLocation
        startVertexLocation := args.startVertexLocation
        positionOffset := context.positionOffset
        texCoordOffset := context.texCoordOffset
        normalOffset := context.normalOffset
        tangentOffset := context.tangentOffset }
    ⟨context, state,
      { args with startInstanceLocation := 0, startVertexLocation := 0 },
      [Command.setPushConstants constants.words]⟩

/-- One call on a pass instance that can change the pass. -/
inductive Op where
  | setupMaterial (call : MaterialCall Context)
  | setupInputBuffers (dev : Device) (context : Context) (buffers : BufferGroup)
      (state : GraphicsState)
  | prepareLights (dev : Device) (context : Context) (lights : List Light)
      (lightProbes : List LightProbe)
  | resetBindingCache

/-- `SetupMaterial` applied to the arguments of a recorded call. -/
def setupMaterial (self : ForwardShadingPass) (call : MaterialCall Context) : SetupMaterialResult ForwardShadingPass :=
  self.SetupMaterial call.dev call.materialBindings call.context call.material call.cullMode
    call.state

/-- Whether the call is `ResetBindingCache`. -/
def Op.isReset : Op → Bool
  | Op.resetBindingCache => true
  | _ => false

/-- The pass after one call. -/
def step (self : ForwardShadingPass) : Op → ForwardShadingPass
  | Op.setupMaterial call => (self.setupMaterial call).pass
  | Op.setupInputBuffers dev context buffers state =>
    (self.SetupInputBuffers dev context buffers state).1
  | Op.prepareLights dev context lights lightProbes =>
    (self.PrepareLights dev context lights lightProbes).pass
  | Op.resetBindingCache => self.ResetBindingCache

/-- The pass after a sequence of calls made one after the other. -/
def run (self : ForwardShadingPass) (ops : List Op) : ForwardShadingPass :=
  ops.foldl step self

/-- A pass as its constructor leaves the table and the caches. -/
def Fresh (self : ForwardShadingPass) : Prop :=
  (∀ k, self.m_Pipelines k = none) ∧ (∀ t, self.m_ShadingBindingSets t = none)
    ∧ (∀ b, self.m_InputBindingSets b = none) ∧ self.deviceLog = []

end ForwardShadingPass

/-! ## Keyframe animation (src/engine/KeyframeAnimation.cpp)

A `float` is modelled as a rational number: comparisons and arithmetic are exact, and
there is no NaN and no infinity. -/

namespace animation

/-- Modelled from the spec: `dm::float4` with the componentwise operators of the math
library (donut/core/math is not among the sources). -/
structure Float4 where
  x : ℚ
  y : ℚ
  z : ℚ
  w : ℚ
  deriving DecidableEq

instance : Add Float4 := ⟨fun a b => ⟨a.x + b.x, a.y + b.y, a.z + b.z, a.w + b.w⟩⟩

instance : Sub Float4 := ⟨fun a b => ⟨a.x - b.x, a.y - b.y, a.z - b.z, a.w - b.w⟩⟩

instance : Neg Float4 := ⟨fun a => ⟨-a.x, -a.y, -a.z, -a.w⟩⟩

instance : HMul ℚ Float4 Float4 := ⟨fun s a => ⟨s * a.x, s * a.y, s * a.z, s * a.w⟩⟩

instance : HMul Float4 ℚ Float4 := ⟨fun a s => ⟨a.x * s, a.y * s, a.z * s, a.w * s⟩⟩

/-- Modelled from the spec: `lerp` of the math library (donut/core/math is not among
the sources), the linear interpolation from `a` to `b`. -/
def lerp (a b : Float4) (u : ℚ) : Float4 := a + (b - a) * u

/-- Modelled from the spec: `animation::Keyframe` (KeyframeAnimation.h is not among the
sources): time, value and the two tangents. -/
structure Keyframe where
  time : ℚ
  value : Float4
  inTangent : Float4 := ⟨0, 0, 0, 0⟩
  outTangent : Float4 := ⟨0, 0, 0, 0⟩
  deriving DecidableEq

/-- Modelled from the spec: `animation::InterpolationMode` (KeyframeAnimation.h is not
among the sources), the five modes `Interpolate` names. -/
inductive InterpolationMode where
  | Step | Linear | Slerp | CatmullRomSpline | HermiteSpline
  deriving DecidableEq, Repr

/-- `animation::Interpolate`. The quaternion `slerp` of the math library, which is not
among the sources and is not rational, is a parameter: `slerp b c t` stands for the
components of `slerp(quat::fromXYZW(b), quat::fromXYZW(c), t)`. The `default` case of
the `switch` is not reachable with a mode of the enumeration. -/
def Interpolate (slerp : Float4 → Float4 → ℚ → Float4) (mode : InterpolationMode)
    (a b c d : Keyframe) (t dt : ℚ) : Float4 :=
  match mode with
  | InterpolationMode.Step => b.value
  | InterpolationMode.Linear => lerp b.value c.value t
  | InterpolationMode.Slerp => slerp b.value c.value t
  | InterpolationMode.CatmullRomSpline =>
    let i : Float4 := -a.value + (3 : ℚ) * b.value - (3 : ℚ) * c.value + d.value
    let j : Float4 := (2 : ℚ) * a.value - (5 : ℚ) * b.value + (4 : ℚ) * c.value - d.value
    let k : Float4 := -a.value + c.value
    (1 / 2 : ℚ) * ((i * t + j) * t + k) * t + b.value
  | InterpolationMode.HermiteSpline =>
    let t2 := t * t
    let t3 := t2 * t
    (2 * t3 - 3 * t2 + 1) * b.value
      + (t3 - 2 * t2 + t) * b.outTangent * dt
      + (-2 * t3 + 3 * t2) * c.value
      + (t3 - t2) * c.inTangent * dt

/-- How the binary search of `Sampler::Evaluate` ends: the loop is left with the given
`left` and `right` (both the found index after the `break`); or `right = middle - 1` is
reached with `middle = 0`, where the unsigned subtraction wraps; or a keyframe is read
at an index that is not below the size; or the iterations allowed to the model are
used up. -/
inductive SearchOutcome where
  | stopped (left right : Nat)
  | underflow (left : Nat)
  | outOfBounds (index : Nat)
  | outOfFuel
  deriving DecidableEq, Repr

/-- The `while (left <= right)` loop of `Sampler::Evaluate`, from the given `left` and
`right`, for at most the given number of tests of the loop condition. -/
def search (keyframes : List Keyframe) (time : ℚ) : Nat → Nat → Nat → SearchOutcome
  | 0, _, _ => SearchOutcome.outOfFuel
  | fuel + 1, left, right =>
    if left ≤ right then
      let middle := (left + right) / 2
      match keyframes[middle]?, keyframes[middle + 1]? with
      | none, _ => SearchOutcome.outOfBounds middle
      | some _, none => SearchOutcome.outOfBounds (middle + 1)
      | some kb, some kc =>
        if time < kb.time then
          if middle = 0 then SearchOutcome.underflow left
          else search keyframes time fuel left (middle - 1)
        else if time ≥ kc.time then search keyframes time fuel (middle + 1) right
        else SearchOutcome.stopped middle middle
    else SearchOutcome.stopped left right

/-- What `Sampler::Evaluate` does: it returns an optional; or the check after the search
fires (the `assert` about an incorrect search result, then an empty optional); or the
search ends in one of the ways that leave the behaviour undefined. -/
inductive Evaluated where
  | result (y : Option Float4)
  | incorrectSearchResult
  | undefined (outcome : SearchOutcome)
  deriving DecidableEq

/-- The members of `animation::Sampler`. -/
structure Sampler where
  m_Keyframes : List Keyframe
  m_Mode : InterpolationMode := InterpolationMode.Step

/-- `Sampler::Evaluate`. The search is given as many tests of the loop condition as
there are keyframes. -/
def Sampler.Evaluate (slerp : Float4 → Float4 → ℚ → Float4) (self : Sampler) (time : ℚ)
    (extrapolateLastValues : Bool) : Evaluated :=
  let count := self.m_Keyframes.length
  match self.m_Keyframes with
  | [] => Evaluated.result none
  | first :: _ =>
    if time ≤ first.time then Evaluated.result (some first.value)
    else
      let last := self.m_Keyframes.getD (count - 1) first
      if count = 1 ∨ time ≥ last.time then
        if extrapolateLastValues then Evaluated.result (some last.value)
        else Evaluated.result none
      else
        match search self.m_Keyframes time count 0 (count - 2) with
        | SearchOutcome.stopped left _ =>
          let offset := left
          match self.m_Keyframes[offset]?, self.m_Keyframes[offset + 1]? with
          | none, _ => Evaluated.undefined (SearchOutcome.outOfBounds offset)
          | some _, none => Evaluated.undefined (SearchOutcome.outOfBounds (offset + 1))
          | some b, some c =>
            let a := if offset > 0 then self.m_Keyframes.getD (offset - 1) b else b
            let d := if offset < count - 2 then self.m_Keyframes.getD (offset + 2) c else c
            if time < b.time ∨ time ≥ c.time then Evaluated.incorrectSearchResult
            else
              let dt := c.time - b.time
              let u := (time - b.time) / dt
              Evaluated.result (some (Interpolate slerp self.m_Mode a b c d u dt))
        | outcome => Evaluated.undefined outcome

/-- The keyframe array is sorted ascending by time; equal times may follow each other. -/
def SortedByTime (keyframes : List Keyframe) : Prop :=
  List.Pairwise (fun a b => a.time ≤ b.time) keyframes

end animation

/-! ## Invariants of the pipeline tables and the kinds of binding slots -/

/-- The number of recorded `createGraphicsPipeline` calls for the key value `k` that
returned a pipeline. -/
def successCount (log : List PipelineCall) (k : Nat) : Nat :=
  (log.filter (fun e => decide (e.key = k) && e.result.isSome)).length

/-- Every pipeline in the table of a depth pass was returned by a recorded device call
made for the key of its slot, with the descriptor the pass assembles for that key. -/
def DepthPass.TableInv (s : DepthPass) : Prop :=
  ∀ k p, s.m_Pipelines k = some p →
    ∃ e ∈ s.deviceLog, e.key = k ∧ e.result = some p ∧ ∃ mb, e.desc = s.pipelineDesc mb ⟨k⟩

/-- At most one recorded call per key returned a pipeline, and none for an empty slot. -/
def DepthPass.CountInv (s : DepthPass) : Prop :=
  ∀ k, successCount s.deviceLog k ≤ 1 ∧ (s.m_Pipelines k = none → successCount s.deviceLog k = 0)

/-- Every pipeline in the table of a G-buffer fill pass was returned by a recorded
device call made for the key of its slot, with the descriptor the pass assembles for
that key. -/
def GBufferFillPass.TableInv (s : GBufferFillPass) : Prop :=
  ∀ k p, s.m_Pipelines k = some p →
    ∃ e ∈ s.deviceLog, e.key = k ∧ e.result = some p ∧ ∃ mb, e.desc = s.pipelineDesc mb ⟨k⟩

/-- At most one recorded call per key returned a pipeline, and none for an empty slot. -/
def GBufferFillPass.CountInv (s : GBufferFillPass) : Prop :=
  ∀ k, successCount s.deviceLog k ≤ 1 ∧ (s.m_Pipelines k = none → successCount s.deviceLog k = 0)

/-- Every pipeline in the table of a forward pass was returned by a recorded device
call made for the key of its slot, with a descriptor the pass assembles for that key. -/
def ForwardShadingPass.TableInv (s : ForwardShadingPass) : Prop :=
  ∀ k p, s.m_Pipelines k = some p →
    ∃ e ∈ s.deviceLog, e.key = k ∧ e.result = some p
      ∧ ∃ mb fb, s.pipelineDesc mb ⟨k⟩ fb = some e.desc

/-- At most one recorded call per key returned a pipeline, and none for an empty slot. -/
def ForwardShadingPass.CountInv (s : ForwardShadingPass) : Prop :=
  ∀ k, successCount s.deviceLog k ≤ 1 ∧ (s.m_Pipelines k = none → successCount s.deviceLog k = 0)

/-- The kinds of binding slots named by the passes: the material bindings, the per-view
bindings, the shading bindings of the forward pass, and the vertex input bindings. -/
inductive BindingKind where
  | material | view | shading | input
  deriving DecidableEq, Repr

/-- The order of the slots of the depth pass as the specification states it: view,
then material only when alpha-tested, then input when the input assembler is not used. -/
def DepthPass.slotOrder (alphaTested useInputAssembler : Bool) : List BindingKind :=
  [BindingKind.view] ++ (if alphaTested then [BindingKind.material] else [])
    ++ (if useInputAssembler then [] else [BindingKind.input])

/-- The order of the slots of the G-buffer fill pass as the specification states it:
material, view, then input when the input assembler is not used. -/
def GBufferFillPass.slotOrder (useInputAssembler : Bool) : List BindingKind :=
  [BindingKind.material, BindingKind.view]
    ++ (if useInputAssembler then [] else [BindingKind.input])

/-- The order of the slots of the forward pass as the specification states it:
material, view, shading, then input when the input assembler is not used. -/
def ForwardShadingPass.slotOrder (useInputAssembler : Bool) : List BindingKind :=
  [BindingKind.material, BindingKind.view, BindingKind.shading]
    ++ (if useInputAssembler then [] else [BindingKind.input])

/-- The binding layout of each kind in a depth pass (it has no shading layout). -/
def DepthPass.layoutOf (self : DepthPass) (materialBindings : MaterialBindingCache) :
    BindingKind → Handle
  | BindingKind.material => materialBindings.GetLayout
  | BindingKind.view => self.m_ViewBindingLayout
  | BindingKind.shading => none
  | BindingKind.input => self.m_InputBindingLayout

/-- The binding set of each kind at a `SetupMaterial` call of a depth pass: the set the
material binding cache returns for the material, the view binding set of the pass, and
the input binding set of the context. -/
def DepthPass.bindingSetOf (self : DepthPass) (call : MaterialCall DepthPass.Context) :
    BindingKind → Handle
  | BindingKind.material => call.materialBindings.GetMaterialBindingSet call.material
  | BindingKind.view => self.m_ViewBindingSet
  | BindingKind.shading => none
  | BindingKind.input => call.context.inputBindingSet

/-- The binding layout of each kind in a G-buffer fill pass (it has no shading layout). -/
def GBufferFillPass.layoutOf (self : GBufferFillPass)
    (materialBindings : MaterialBindingCache) : BindingKind → Handle
  | BindingKind.material => materialBindings.GetLayout
  | BindingKind.view => self.m_ViewBindingLayout
  | BindingKind.shading => none
  | BindingKind.input => self.m_InputBindingLayout

/-- The binding set of each kind at a `SetupMaterial` call of a G-buffer fill pass. -/
def GBufferFillPass.bindingSetOf (self : GBufferFillPass)
    (call : MaterialCall GBufferFillPass.Context) : BindingKind → Handle
  | BindingKind.material => call.materialBindings.GetMaterialBindingSet call.material
  | BindingKind.view => self.m_ViewBindings
  | BindingKind.shading => none
  | BindingKind.input => call.context.inputBindingSet

/-- The binding layout of each kind in a forward pass. -/
def ForwardShadingPass.layoutOf (self : ForwardShadingPass)
    (materialBindings : MaterialBindingCache) : BindingKind → Handle
  | BindingKind.material => materialBindings.GetLayout
  | BindingKind.view => self.m_ViewBindingLayout
  | BindingKind.shading => self.m_ShadingBindingLayout
  | BindingKind.input => self.m_InputBindingLayout

/-- The binding set of each kind at a `SetupMaterial` call of a forward pass. -/
def ForwardShadingPass.bindingSetOf (self : ForwardShadingPass)
    (call : MaterialCall ForwardShadingPass.Context) : BindingKind → Handle
  | BindingKind.material => call.materialBindings.GetMaterialBindingSet call.material
  | BindingKind.view => self.m_ViewBindingSet
  | BindingKind.shading => call.context.shadingBindingSet
  | BindingKind.input => call.context.inputBindingSet

/-! ## Sample objects

Concrete passes, collaborators and calls on which the statements below are evaluated. -/

namespace Sample

def framebuffer : Framebuffer := ⟨1, ⟨0, 1⟩⟩

def state : GraphicsState := { framebuffer := framebuffer }

/-- A device on which every creation succeeds: pipeline 7, binding set 9. -/
def workingDevice : Device := ⟨fun _ _ => some 7, fun _ _ => some 9⟩

/-- A device on which every creation fails. -/
def failingDevice : Device := ⟨fun _ _ => none, fun _ _ => none⟩

/-- A material binding cache that has a binding set, 41, for the material with
identity 1 only. -/
def cache : MaterialBindingCache := ⟨some 40, fun m => if m.id = 1 then some 41 else none⟩

def opaqueMaterial : Material := { id := 1, domain := MaterialDomain.Opaque }

/-- An opaque material whose resources are not ready in `cache`. -/
def opaqueMaterialNotReady : Material := { id := 2, domain := MaterialDomain.Opaque }

/-- An alpha-tested material with a loaded base texture. -/
def alphaTestedMaterial : Material :=
  { id := 1, domain := MaterialDomain.AlphaTested, baseOrDiffuseTexture := some ⟨some 50⟩ }

/-- An alpha-tested material without a base or opacity texture. -/
def alphaTestedUntextured : Material := { id := 1, domain := MaterialDomain.AlphaTested }

def alphaBlendedMaterial : Material := { id := 1, domain := MaterialDomain.AlphaBlended }

def view : View := { IsMirrored := true, IsReverseDepth := true }

def depthPass : DepthPass :=
  { m_InputLayout := none, m_VertexShader := some 10, m_PixelShader := some 11
    m_InputBindingLayout := some 20, m_ViewBindingLayout := some 21
    m_ViewBindingSet := some 22, m_DepthCB := some 23
    m_DepthBias := 0, m_DepthBiasClamp := 0, m_SlopeScaledDepthBias := 0
    m_IsDX11 := false, m_UseInputAssembler := false
    m_Pipelines := fun _ => none, m_InputBindingSets := fun _ => none, deviceLog := [] }

def gbufferPass : GBufferFillPass :=
  { m_InputLayout := none, m_VertexShader := some 10, m_PixelShader := some 11
    m_PixelShaderAlphaTested := some 12, m_GeometryShader := none
    m_InputBindingLayout := some 20, m_ViewBindingLayout := some 21
    m_ViewBindings := some 22, m_GBufferCB := some 23
    m_EnableDepthWrite := true, m_IsDX11 := false, m_UseInputAssembler := false
    m_StencilWriteMask := 0
    m_Pipelines := fun _ => none, m_InputBindingSets := fun _ => none, deviceLog := [] }

def commonPasses : CommonRenderPasses := ⟨some 30, some 31, some 32, some 33, some 34, some 35⟩

def forwardPass : ForwardShadingPass :=
  { m_InputLayout := none, m_VertexShader := some 10, m_PixelShader := some 11
    m_PixelShaderTransmissive := some 12, m_GeometryShader := none
    m_ShadowSampler := some 13
    m_ViewBindingLayout := some 21, m_ViewBindingSet := some 22
    m_ShadingBindingLayout := some 24, m_InputBindingLayout := some 20
    m_ForwardViewCB := some 23, m_ForwardLightCB := some 25
    m_IsDX11 := false, m_UseInputAssembler := false, m_CommonPasses := commonPasses
    m_Pipelines := fun _ => none, m_ShadingBindingSets := fun _ => none
    m_InputBindingSets := fun _ => none, deviceLog := [] }

/-- A call of the depth pass: opaque material, cull mode Back, every creation succeeds. -/
def depthCall : MaterialCall DepthPass.Context :=
  ⟨workingDevice, cache, {}, opaqueMaterial, RasterCullMode.Back, state⟩

/-- A call of the G-buffer fill pass: opaque material, cull mode Back. -/
def gbufferCall : MaterialCall GBufferFillPass.Context :=
  ⟨workingDevice, cache, {}, opaqueMaterial, RasterCullMode.Back, state⟩

/-- A call of the forward pass: opaque material, cull mode Back. -/
def forwardCall : MaterialCall ForwardShadingPass.Context :=
  ⟨workingDevice, cache, {}, opaqueMaterial, RasterCullMode.Back, state⟩

def bufferGroup : BufferGroup :=
  { ptr := 100, indexBuffer := some 60, vertexBuffer := some 61, instanceBuffer := some 62
    byteOffset := fun _ => 0 }

end Sample

/-- The descriptor of an alpha-blended draw as the specification states it: blending
enabled on render target 0 with the factors SrcAlpha, InvSrcAlpha for the colour and
Zero, One for alpha, depth write disabled, and the standard pixel shader of the pass. -/
def ForwardShadingPass.IsAlphaBlendDescriptor (self : ForwardShadingPass)
    (desc : GraphicsPipelineDesc) : Prop :=
  desc.renderState.blendState.target0.blendEnable = true
    ∧ desc.renderState.blendState.target0.srcBlend = BlendFactor.SrcAlpha
    ∧ desc.renderState.blendState.target0.destBlend = BlendFactor.InvSrcAlpha
    ∧ desc.renderState.blendState.target0.srcBlendAlpha = BlendFactor.Zero
    ∧ desc.renderState.blendState.target0.destBlendAlpha = BlendFactor.One
    ∧ desc.renderState.depthStencilState.depthWriteEnable = false
    ∧ desc.PS = self.m_PixelShader

/-- Light probes with consistent textures, as the specification words it: any two
enabled probes of the list have the same diffuse map, the same specular map and the
same environment BRDF texture. -/
def ForwardShadingPass.ConsistentTextures (lightProbes : List LightProbe) : Prop :=
  ∀ p ∈ lightProbes, ∀ q ∈ lightProbes, p.enabled = true → q.enabled = true →
    p.diffuseMap = q.diffuseMap ∧ p.specularMap = q.specularMap
      ∧ p.environmentBrdf = q.environmentBrdf

/-- Every enabled probe of the list has all three textures. -/
def ForwardShadingPass.EnabledProbesTextured (lightProbes : List LightProbe) : Prop :=
  ∀ p ∈ lightProbes, p.enabled = true →
    p.diffuseMap ≠ none ∧ p.specularMap ≠ none ∧ p.environmentBrdf ≠ none

/-- The list contains two enabled probes whose diffuse maps differ, the one that comes
first in the list having all three textures. -/
def ForwardShadingPass.TexturedProbeBeforeOtherDiffuse (lightProbes : List LightProbe) :
    Prop :=
  ∃ (i j : Nat) (p q : LightProbe),
    i < j ∧ lightProbes[i]? = some p ∧ lightProbes[j]? = some q
      ∧ p.enabled = true ∧ q.enabled = true
      ∧ p.diffuseMap ≠ none ∧ p.specularMap ≠ none ∧ p.environmentBrdf ≠ none
      ∧ p.diffuseMap ≠ q.diffuseMap

/-- The list contains two enabled probes whose diffuse maps differ. -/
def ForwardShadingPass.DiffuseMapsDiffer (lightProbes : List LightProbe) : Prop :=
  ∃ p ∈ lightProbes, ∃ q ∈ lightProbes,
    p.enabled = true ∧ q.enabled = true ∧ p.diffuseMap ≠ q.diffuseMap

/-- Every recorded write to one of the three arrays used an index below 16. -/
def ForwardShadingPass.WritesBelow (writes : List (ForwardShadingPass.ConstantArray × Nat)) :
    Prop :=
  ∀ w ∈ writes, w.2 < 16

/-! ## Initialisation, and contexts set up by views -/

/-- `ForwardShadingPass::CreateParameters` (ForwardShadingPass.h), without the material
binding cache, which is handed to each call here. -/
structure ForwardShadingPass.CreateParameters where
  singlePassCubemap : Bool := false
  trackLiveness : Bool := true
  useInputAssembler : Bool := false
  numConstantBufferVersions : Nat := 16
  deriving DecidableEq, Repr

/-- What the shader factory and the device return for the objects that
`ForwardShadingPass::Init` creates, the view binding set apart: the shaders, the input
layout, the shadow sampler, the two constant buffers and the three binding layouts. -/
structure ForwardShadingPass.InitResources where
  vertexShader : Handle
  inputLayout : Handle
  geometryShader : Handle
  pixelShader : Handle
  pixelShaderTransmissive : Handle
  shadowSampler : Handle
  forwardViewCB : Handle
  forwardLightCB : Handle
  viewBindingLayout : Handle
  shadingBindingLayout : Handle
  inputBindingLayout : Handle
  deriving DecidableEq, Repr

abbrev ForwardShadingPass.FORWARD_BINDING_VIEW_CONSTANTS : Nat := 2

/-- The forward pass as its constructor and the default member initialisers of
ForwardShadingPass.h leave it: `m_IsDX11` from the device, the common passes, every
handle null, `m_TrackLiveness = true`, `m_UseInputAssembler = false`, an empty table and
empty caches. -/
def ForwardShadingPass.construct (isDX11 : Bool) (commonPasses : CommonRenderPasses) :
    ForwardShadingPass :=
  { m_InputLayout := none, m_VertexShader := none, m_PixelShader := none
    m_PixelShaderTransmissive := none, m_GeometryShader := none, m_ShadowSampler := none
    m_ViewBindingLayout := none, m_ViewBindingSet := none, m_ShadingBindingLayout := none
    m_InputBindingLayout := none, m_ForwardViewCB := none, m_ForwardLightCB := none
    m_TrackLiveness := true, m_IsDX11 := isDX11, m_UseInputAssembler := false
    m_CommonPasses := commonPasses
    m_Pipelines := fun _ => none, m_ShadingBindingSets := fun _ => none
    m_InputBindingSets := fun _ => none, deviceLog := [] }

/-- The descriptor `ForwardShadingPass::CreateViewBindingSet` assembles. -/
def ForwardShadingPass.viewBindingSetDesc (self : ForwardShadingPass) : BindingSetDesc :=
  { trackLiveness := self.m_TrackLiveness
    bindings :=
      [ BindingSetItem.ConstantBuffer ForwardShadingPass.FORWARD_BINDING_VIEW_CONSTANTS
          self.m_ForwardViewCB ] }

/-- `ForwardShadingPass::CreateViewBindingSet`. -/
def ForwardShadingPass.CreateViewBindingSet (self : ForwardShadingPass) (dev : Device) :
    Handle :=
  dev.createBindingSet self.viewBindingSetDesc self.m_ViewBindingLayout

/-- `ForwardShadingPass::Init`, in the order of its assignments. `m_SupportedViewTypes`
and `m_MaterialBindings` are not members of the model. No assignment to
`m_TrackLiveness` is made. -/
def ForwardShadingPass.Init (self : ForwardShadingPass) (dev : Device)
    (resources : ForwardShadingPass.InitResources)
    (params : ForwardShadingPass.CreateParameters) : ForwardShadingPass :=
  let self : ForwardShadingPass :=
    { self with
      m_UseInputAssembler := params.useInputAssembler
      m_VertexShader := resources.vertexShader
      m_InputLayout := resources.inputLayout
      m_GeometryShader := resources.geometryShader
      m_PixelShader := resources.pixelShader
      m_PixelShaderTransmissive := resources.pixelShaderTransmissive
      m_ShadowSampler := resources.shadowSampler
      m_ForwardViewCB := resources.forwardViewCB
      m_ForwardLightCB := resources.forwardLightCB
      m_ViewBindingLayout := resources.viewBindingLayout }
  let self : ForwardShadingPass :=
    { self with m_ViewBindingSet := self.CreateViewBindingSet dev }
  { self with
    m_ShadingBindingLayout := resources.shadingBindingLayout
    m_InputBindingLayout := resources.inputBindingLayout }

/-- The descriptor `ForwardShadingPass::CreateShadingBindingSet` assembles. -/
def ForwardShadingPass.shadingBindingSetDesc (self : ForwardShadingPass)
    (shadowMapTexture diffuse specular environmentBrdf : Handle) : BindingSetDesc :=
  { trackLiveness := self.m_TrackLiveness
    bindings :=
      [ BindingSetItem.ConstantBuffer ForwardShadingPass.FORWARD_BINDING_LIGHT_CONSTANTS
          self.m_ForwardLightCB,
        BindingSetItem.Texture_SRV ForwardShadingPass.FORWARD_BINDING_SHADOW_MAP_TEXTURE
          (ForwardShadingPass.orElse shadowMapTexture self.m_CommonPasses.m_BlackTexture2DArray),
        BindingSetItem.Texture_SRV
          ForwardShadingPass.FORWARD_BINDING_DIFFUSE_LIGHT_PROBE_TEXTURE
          (ForwardShadingPass.orElse diffuse self.m_CommonPasses.m_BlackCubeMapArray),
        BindingSetItem.Texture_SRV
          ForwardShadingPass.FORWARD_BINDING_SPECULAR_LIGHT_PROBE_TEXTURE
          (ForwardShadingPass.orElse specular self.m_CommonPasses.m_BlackCubeMapArray),
        BindingSetItem.Texture_SRV ForwardShadingPass.FORWARD_BINDING_ENVIRONMENT_BRDF_TEXTURE
          (ForwardShadingPass.orElse environmentBrdf self.m_CommonPasses.m_BlackTexture),
        BindingSetItem.Sampler ForwardShadingPass.FORWARD_BINDING_MATERIAL_SAMPLER
          self.m_CommonPasses.m_AnisotropicWrapSampler,
        BindingSetItem.Sampler ForwardShadingPass.FORWARD_BINDING_SHADOW_MAP_SAMPLER
          self.m_ShadowSampler,
        BindingSetItem.Sampler ForwardShadingPass.FORWARD_BINDING_LIGHT_PROBE_SAMPLER
          self.m_CommonPasses.m_LinearWrapSampler,
        BindingSetItem.Sampler ForwardShadingPass.FORWARD_BINDING_ENVIRONMENT_BRDF_SAMPLER
          self.m_CommonPasses.m_LinearClampSampler ] }

/-- `GBufferFillPass::CreateParameters` (GBufferFillPass.h), without the material
binding cache. -/
structure GBufferFillPass.CreateParameters where
  enableSinglePassCubemap : Bool := false
  enableDepthWrite : Bool := true
  enableMotionVectors : Bool := false
  trackLiveness : Bool := true
  useInputAssembler : Bool := false
  stencilWriteMask : Nat := 0
  numConstantBufferVersions : Nat := 16
  deriving DecidableEq, Repr

abbrev GBufferFillPass.GBUFFER_BINDING_VIEW_CONSTANTS : Nat := 2
abbrev GBufferFillPass.GBUFFER_BINDING_MATERIAL_SAMPLER : Nat := 0

/-- The binding set descriptor `GBufferFillPass::CreateViewBindings` assembles; the
common passes, which the model of the pass does not hold, are an argument. -/
def GBufferFillPass.viewBindingSetDesc (self : GBufferFillPass)
    (commonPasses : CommonRenderPasses) (params : GBufferFillPass.CreateParameters) :
    BindingSetDesc :=
  { trackLiveness := params.trackLiveness
    bindings :=
      [ BindingSetItem.ConstantBuffer GBufferFillPass.GBUFFER_BINDING_VIEW_CONSTANTS
          self.m_GBufferCB,
        BindingSetItem.Sampler GBufferFillPass.GBUFFER_BINDING_MATERIAL_SAMPLER
          commonPasses.m_AnisotropicWrapSampler ] }

/-- The context of the forward pass after its constructor and the `SetupView` calls for
the given views, in order. -/
def ForwardShadingPass.contextAfterViews (self : ForwardShadingPass) (views : List View) :
    ForwardShadingPass.Context :=
  views.foldl (fun context view => (self.SetupView context view).1) {}

/-- The context of the G-buffer fill pass after its constructor and the `SetupView`
calls for the given pairs of view and previous view, in order. -/
def GBufferFillPass.contextAfterViews (self : GBufferFillPass) (views : List (View × View)) :
    GBufferFillPass.Context :=
  views.foldl (fun context view => (self.SetupView context view.1 view.2).1) {}

/-! ## More sample objects -/

namespace Sample

def drawArguments : DrawArguments :=
  { vertexCount := 3, instanceCount := 2, startIndexLocation := 5, startVertexLocation := 7
    startInstanceLocation := 9 }

def depthContext : DepthPass.Context :=
  { inputBindingSet := some 9, positionOffset := 64, texCoordOffset := 128 }

/-- Twenty lights without shadow maps; light `i` fills its constants with the token `i`. -/
def twentyLights : List Light :=
  (List.range 20).map (fun i => { constants := i })

/-- An enabled probe without textures followed by an enabled probe with textures. -/
def probesFirstUntextured : List LightProbe :=
  [ {}, { diffuseMap := some 71, specularMap := some 72, environmentBrdf := some 73 } ]

/-- Two enabled probes with all three textures, which differ in the diffuse map. -/
def probesMismatched : List LightProbe :=
  [ { diffuseMap := some 70, specularMap := some 72, environmentBrdf := some 73 },
    { diffuseMap := some 71, specularMap := some 72, environmentBrdf := some 73 } ]

/-- An enabled probe without textures followed by two enabled probes with all three
textures, which differ in the diffuse map. -/
def probesMismatchedAfterUntextured : List LightProbe :=
  [ {},
    { diffuseMap := some 70, specularMap := some 72, environmentBrdf := some 73 },
    { diffuseMap := some 71, specularMap := some 72, environmentBrdf := some 73 } ]

/-- Two enabled probes with the same three textures. -/
def probesConsistent : List LightProbe :=
  [ { diffuseMap := some 70, specularMap := some 72, environmentBrdf := some 73, constants := 5 },
    { diffuseMap := some 70, specularMap := some 72, environmentBrdf := some 73, constants := 6 } ]

def alphaBlendedCall : MaterialCall ForwardShadingPass.Context :=
  ⟨workingDevice, cache, {}, alphaBlendedMaterial, RasterCullMode.Back, state⟩

/-- A keyframe with the given time and the given first component of the value. -/
def keyframe (time value : ℚ) : animation.Keyframe :=
  { time := time, value := ⟨value, 0, 0, 0⟩ }

/-- Keyframes at the times 0, 1, 2, 3. -/
def keyframes : List animation.Keyframe :=
  [keyframe 0 10, keyframe 1 20, keyframe 2 40, keyframe 3 80]

def linearSampler : animation.Sampler :=
  { m_Keyframes := keyframes, m_Mode := animation.InterpolationMode.Linear }

def stepSampler : animation.Sampler :=
  { m_Keyframes := keyframes, m_Mode := animation.InterpolationMode.Step }

/-- A sampler with a single keyframe, at time 0. -/
def singleSampler : animation.Sampler := { m_Keyframes := [keyframe 0 10] }

/-- A sorted sampler in Step mode whose first two keyframes have the same time. -/
def repeatedStartSampler : animation.Sampler :=
  { m_Keyframes := [keyframe 0 10, keyframe 0 20, keyframe 1 40] }

/-- A device whose handles name what they were made for: a pipeline has the identity of
the framebuffer it was created for, a binding set the fourth item of its descriptor when
that is a texture (the specular probe texture of a shading binding set). -/
def namingDevice : Device :=
  ⟨fun _ framebuffer => some framebuffer.id,
    fun desc _ =>
      match desc.bindings[3]? with
      | some (BindingSetItem.Texture_SRV _ texture) => texture
      | _ => none⟩

/-- One enabled probe with the diffuse map 70 of `probesConsistent` and other specular
and environment BRDF textures. -/
def probesOtherSpecular : List LightProbe :=
  [ { diffuseMap := some 70, specularMap := some 82, environmentBrdf := some 83 } ]

def initResources : ForwardShadingPass.InitResources :=
  ⟨some 10, none, none, some 11, some 12, some 13, some 23, some 25, some 21, some 24, some 20⟩

/-- A sampler in Linear mode whose keyframes, at the times 0, 5, 2, 3, are not sorted. -/
def unsortedSampler : animation.Sampler :=
  { m_Keyframes := [keyframe 0 10, keyframe 5 20, keyframe 2 40, keyframe 3 80],
    m_Mode := animation.InterpolationMode.Linear }

/-- A stand-in for the quaternion `slerp`, which no statement below depends on. -/
def slerp (a : animation.Float4) (_ : animation.Float4) (_ : ℚ) : animation.Float4 := a

end Sample

/-! ## Key lemmas -/

section KeyLemmas

theorem readBits_boolBit_ne_zero (b : Bool) : (boolBit b != 0) = b := by
  cases b <;> rfl

namespace ForwardShadingPass.PipelineKey

@[simp] theorem forward_key_domain_setDomain (k : PipelineKey) (d : Nat) :
    (k.setDomain d).domain = d % 8 := by
  simp only [domain, setDomain, writeBits, readBits, Nat.reducePow, Nat.reduceAdd]; omega

@[simp] theorem forward_key_domain_setCullMode (k : PipelineKey) (c : Nat) :
    (k.setCullMode c).domain = k.domain := by
  simp only [domain, setCullMode, writeBits, readBits, Nat.reducePow, Nat.reduceAdd]; omega

@[simp] theorem forward_key_cullMode_setCullMode (k : PipelineKey) (c : Nat) :
    (k.setCullMode c).cullMode = c % 4 := by
  simp only [cullMode, setCullMode, writeBits, readBits, Nat.reducePow, Nat.reduceAdd]; omega

@[simp] theorem forward_key_cullMode_setDomain (k : PipelineKey) (d : Nat) :
    (k.setDomain d).cullMode = k.cullMode := by
  simp only [cullMode, setDomain, writeBits, readBits, Nat.reducePow, Nat.reduceAdd]; omega

@[simp] theorem forward_key_cullMode_setFrontCounterClockwise (k : PipelineKey) (b : Bool) :
    (k.setFrontCounterClockwise b).cullMode = k.cullMode := by
  simp only [cullMode, setFrontCounterClockwise, writeBits, readBits, Nat.reducePow,
    Nat.reduceAdd]; omega

@[simp] theorem forward_key_cullMode_setReverseDepth (k : PipelineKey) (b : Bool) :
    (k.setReverseDepth b).cullMode = k.cullMode := by
  simp only [cullMode, setReverseDepth, writeBits, readBits, Nat.reducePow, Nat.reduceAdd]; omega

@[simp] theorem forward_key_domain_setFrontCounterClockwise (k : PipelineKey) (b : Bool) :
    (k.setFrontCounterClockwise b).domain = k.domain := by
  simp only [domain, setFrontCounterClockwise, writeBits, readBits, Nat.reducePow,
    Nat.reduceAdd]; omega

@[simp] theorem forward_key_domain_setReverseDepth (k : PipelineKey) (b : Bool) :
    (k.setReverseDepth b).domain = k.domain := by
  simp only [domain, setReverseDepth, writeBits, readBits, Nat.reducePow, Nat.reduceAdd]; omega

@[simp] theorem forward_key_frontCounterClockwise_setFrontCounterClockwise (k : PipelineKey) (b : Bool) :
    (k.setFrontCounterClockwise b).frontCounterClockwise = b := by
  have h : readBits (writeBits k.value 5 1 (boolBit b)) 5 1 = boolBit b := by
    cases b <;>
      simp only [boolBit, writeBits, readBits, Nat.reducePow, Nat.reduceAdd, if_true, if_false,
        Bool.false_eq_true] <;> omega
  simp only [frontCounterClockwise, setFrontCounterClockwise, h, readBits_boolBit_ne_zero]

@[simp] theorem forward_key_frontCounterClockwise_setReverseDepth (k : PipelineKey) (b : Bool) :
    (k.setReverseDepth b).frontCounterClockwise = k.frontCounterClockwise := by
  simp only [frontCounterClockwise, setReverseDepth]
  congr 1
  simp only [writeBits, readBits, Nat.reducePow, Nat.reduceAdd]; omega

@[simp] theorem forward_key_frontCounterClockwise_setCullMode (k : PipelineKey) (c : Nat) :
    (k.setCullMode c).frontCounterClockwise = k.frontCounterClockwise := by
  simp only [frontCounterClockwise, setCullMode]
  congr 1
  simp only [writeBits, readBits, Nat.reducePow, Nat.reduceAdd]; omega

@[simp] theorem forward_key_frontCounterClockwise_setDomain (k : PipelineKey) (d : Nat) :
    (k.setDomain d).frontCounterClockwise = k.frontCounterClockwise := by
  simp only [frontCounterClockwise, setDomain]
  congr 1
  simp only [writeBits, readBits, Nat.reducePow, Nat.reduceAdd]; omega

@[simp] theorem forward_key_reverseDepth_setReverseDepth (k : PipelineKey) (b : Bool) :
    (k.setReverseDepth b).reverseDepth = b := by
  have h : readBits (writeBits k.value 6 1 (boolBit b)) 6 1 = boolBit b := by
    cases b <;>
      simp only [boolBit, writeBits, readBits, Nat.reducePow, Nat.reduceAdd, if_true, if_false,
        Bool.false_eq_true] <;> omega
  simp only [reverseDepth, setReverseDepth, h, readBits_boolBit_ne_zero]

@[simp] theorem forward_key_reverseDepth_setFrontCounterClockwise (k : PipelineKey) (b : Bool) :
    (k.setFrontCounterClockwise b).reverseDepth = k.reverseDepth := by
  simp only [reverseDepth, setFrontCounterClockwise]
  congr 1
  simp only [writeBits, readBits, Nat.reducePow, Nat.reduceAdd]; omega

@[simp] theorem forward_key_reverseDepth_setCullMode (k : PipelineKey) (c : Nat) :
    (k.setCullMode c).reverseDepth = k.reverseDepth := by
  simp only [reverseDepth, setCullMode]
  congr 1
  simp only [writeBits, readBits, Nat.reducePow, Nat.reduceAdd]; omega

@[simp] theorem forward_key_reverseDepth_setDomain (k : PipelineKey) (d : Nat) :
    (k.setDomain d).reverseDepth = k.reverseDepth := by
  simp only [reverseDepth, setDomain]
  congr 1
  simp only [writeBits, readBits, Nat.reducePow, Nat.reduceAdd]; omega

theorem forward_key_pack_value_lt (d c : Nat) (f r : Bool) : (pack d c f r).value < Count := by
  cases f <;> cases r <;>
    simp only [pack, setDomain, setCullMode, setFrontCounterClockwise, setReverseDepth,
      boolBit, writeBits, Count, Nat.reducePow, Nat.reduceAdd, if_true, if_false,
      Bool.false_eq_true] <;> omega

end ForwardShadingPass.PipelineKey

namespace GBufferFillPass.PipelineKey

@[simp] theorem gbuffer_key_cullMode_setCullMode (k : PipelineKey) (c : Nat) :
    (k.setCullMode c).cullMode = c % 4 := by
  simp only [cullMode, setCullMode, writeBits, readBits, Nat.reducePow, Nat.reduceAdd]
  omega

@[simp] theorem gbuffer_key_cullMode_setAlphaTested (k : PipelineKey) (b : Bool) :
    (k.setAlphaTested b).cullMode = k.cullMode := by
  simp only [cullMode, setAlphaTested, writeBits, readBits, Nat.reducePow, Nat.reduceAdd]; omega

@[simp] theorem gbuffer_key_cullMode_setFrontCounterClockwise (k : PipelineKey) (b : Bool) :
    (k.setFrontCounterClockwise b).cullMode = k.cullMode := by
  simp only [cullMode, setFrontCounterClockwise, writeBits, readBits, Nat.reducePow,
    Nat.reduceAdd]; omega

@[simp] theorem gbuffer_key_cullMode_setReverseDepth (k : PipelineKey) (b : Bool) :
    (k.setReverseDepth b).cullMode = k.cullMode := by
  simp only [cullMode, setReverseDepth, writeBits, readBits, Nat.reducePow, Nat.reduceAdd]; omega

@[simp] theorem gbuffer_key_alphaTested_setAlphaTested (k : PipelineKey) (b : Bool) :
    (k.setAlphaTested b).alphaTested = b := by
  have h : readBits (writeBits k.value 2 1 (boolBit b)) 2 1 = boolBit b := by
    cases b <;>
      simp only [boolBit, writeBits, readBits, Nat.reducePow, Nat.reduceAdd, if_true, if_false,
        Bool.false_eq_true] <;> omega
  simp only [alphaTested, setAlphaTested, h, readBits_boolBit_ne_zero]

@[simp] theorem gbuffer_key_alphaTested_setCullMode (k : PipelineKey) (c : Nat) :
    (k.setCullMode c).alphaTested = k.alphaTested := by
  simp only [alphaTested, setCullMode]
  congr 1
  simp only [writeBits, readBits, Nat.reducePow, Nat.reduceAdd]; omega

@[simp] theorem gbuffer_key_alphaTested_setFrontCounterClockwise (k : PipelineKey) (b : Bool) :
    (k.setFrontCounterClockwise b).alphaTested = k.alphaTested := by
  simp only [alphaTested, setFrontCounterClockwise]
  congr 1
  simp only [writeBits, readBits, Nat.reducePow, Nat.reduceAdd]; omega

@[simp] theorem gbuffer_key_alphaTested_setReverseDepth (k : PipelineKey) (b : Bool) :
    (k.setReverseDepth b).alphaTested = k.alphaTested := by
  simp only [alphaTested, setReverseDepth]
  congr 1
  simp only [writeBits, readBits, Nat.reducePow, Nat.reduceAdd]; omega

@[simp] theorem gbuffer_key_frontCounterClockwise_setFrontCounterClockwise (k : PipelineKey) (b : Bool) :
    (k.setFrontCounterClockwise b).frontCounterClockwise = b := by
  have h : readBits (writeBits k.value 3 1 (boolBit b)) 3 1 = boolBit b := by
    cases b <;>
      simp only [boolBit, writeBits, readBits, Nat.reducePow, Nat.reduceAdd, if_true, if_false,
        Bool.false_eq_true] <;> omega
  simp only [frontCounterClockwise, setFrontCounterClockwise, h, readBits_boolBit_ne_zero]

@[simp] theorem gbuffer_key_frontCounterClockwise_setReverseDepth (k : PipelineKey) (b : Bool) :
    (k.setReverseDepth b).frontCounterClockwise = k.frontCounterClockwise := by
  simp only [frontCounterClockwise, setReverseDepth]
  congr 1
  simp only [writeBits, readBits, Nat.reducePow, Nat.reduceAdd]; omega

@[simp] theorem gbuffer_key_frontCounterClockwise_setCullMode (k : PipelineKey) (c : Nat) :
    (k.setCullMode c).frontCounterClockwise = k.frontCounterClockwise := by
  simp only [frontCounterClockwise, setCullMode]
  congr 1
  simp only [writeBits, readBits, Nat.reducePow, Nat.reduceAdd]; omega

@[simp] theorem gbuffer_key_frontCounterClockwise_setAlphaTested (k : PipelineKey) (b : Bool) :
    (k.setAlphaTested b).frontCounterClockwise = k.frontCounterClockwise := by
  simp only [frontCounterClockwise, setAlphaTested]
  congr 1
  simp only [writeBits, readBits, Nat.reducePow, Nat.reduceAdd]; omega

@[simp] theorem gbuffer_key_reverseDepth_setReverseDepth (k : PipelineKey) (b : Bool) :
    (k.setReverseDepth b).reverseDepth = b := by
  have h : readBits (writeBits k.value 4 1 (boolBit b)) 4 1 = boolBit b := by
    cases b <;>
      simp only [boolBit, writeBits, readBits, Nat.reducePow, Nat.reduceAdd, if_true, if_false,
        Bool.false_eq_true] <;> omega
  simp only [reverseDepth, setReverseDepth, h, readBits_boolBit_ne_zero]

@[simp] theorem gbuffer_key_reverseDepth_setFrontCounterClockwise (k : PipelineKey) (b : Bool) :
    (k.setFrontCounterClockwise b).reverseDepth = k.reverseDepth := by
  simp only [reverseDepth, setFrontCounterClockwise]
  congr 1
  simp only [writeBits, readBits, Nat.reducePow, Nat.reduceAdd]; omega

@[simp] theorem gbuffer_key_reverseDepth_setCullMode (k : PipelineKey) (c : Nat) :
    (k.setCullMode c).reverseDepth = k.reverseDepth := by
  simp only [reverseDepth, setCullMode]
  congr 1
  simp only [writeBits, readBits, Nat.reducePow, Nat.reduceAdd]; omega

@[simp] theorem gbuffer_key_reverseDepth_setAlphaTested (k : PipelineKey) (b : Bool) :
    (k.setAlphaTested b).reverseDepth = k.reverseDepth := by
  simp only [reverseDepth, setAlphaTested]
  congr 1
  simp only [writeBits, readBits, Nat.reducePow, Nat.reduceAdd]; omega

theorem gbuffer_key_pack_value_lt (c : Nat) (a f r : Bool) : (pack c a f r).value < Count := by
  cases a <;> cases f <;> cases r <;>
    simp only [pack, setCullMode, setAlphaTested, setFrontCounterClockwise, setReverseDepth,
      boolBit, writeBits, Count, Nat.reducePow, Nat.reduceAdd, if_true, if_false,
      Bool.false_eq_true] <;> omega

end GBufferFillPass.PipelineKey

end KeyLemmas

/-! ## C3: the packed keys -/

section PackedKeys

theorem forward_pack_fields (d c : Nat) (f r : Bool) (hd : d < 8) (hc : c < 4) :
    (ForwardShadingPass.PipelineKey.pack d c f r).domain = d
      ∧ (ForwardShadingPass.PipelineKey.pack d c f r).cullMode = c
      ∧ (ForwardShadingPass.PipelineKey.pack d c f r).frontCounterClockwise = f
      ∧ (ForwardShadingPass.PipelineKey.pack d c f r).reverseDepth = r := by
  simp only [ForwardShadingPass.PipelineKey.pack,
    ForwardShadingPass.PipelineKey.forward_key_domain_setReverseDepth,
    ForwardShadingPass.PipelineKey.forward_key_domain_setFrontCounterClockwise,
    ForwardShadingPass.PipelineKey.forward_key_domain_setCullMode,
    ForwardShadingPass.PipelineKey.forward_key_domain_setDomain,
    ForwardShadingPass.PipelineKey.forward_key_cullMode_setReverseDepth,
    ForwardShadingPass.PipelineKey.forward_key_cullMode_setFrontCounterClockwise,
    ForwardShadingPass.PipelineKey.forward_key_cullMode_setCullMode,
    ForwardShadingPass.PipelineKey.forward_key_frontCounterClockwise_setReverseDepth,
    ForwardShadingPass.PipelineKey.forward_key_frontCounterClockwise_setFrontCounterClockwise,
    ForwardShadingPass.PipelineKey.forward_key_reverseDepth_setReverseDepth,
    Nat.mod_eq_of_lt hd, Nat.mod_eq_of_lt hc, and_self]

theorem gbuffer_pack_fields (c : Nat) (a f r : Bool) (hc : c < 4) :
    (GBufferFillPass.PipelineKey.pack c a f r).cullMode = c
      ∧ (GBufferFillPass.PipelineKey.pack c a f r).alphaTested = a
      ∧ (GBufferFillPass.PipelineKey.pack c a f r).frontCounterClockwise = f
      ∧ (GBufferFillPass.PipelineKey.pack c a f r).reverseDepth = r := by
  simp only [GBufferFillPass.PipelineKey.pack,
    GBufferFillPass.PipelineKey.gbuffer_key_cullMode_setReverseDepth,
    GBufferFillPass.PipelineKey.gbuffer_key_cullMode_setFrontCounterClockwise,
    GBufferFillPass.PipelineKey.gbuffer_key_cullMode_setAlphaTested,
    GBufferFillPass.PipelineKey.gbuffer_key_cullMode_setCullMode,
    GBufferFillPass.PipelineKey.gbuffer_key_alphaTested_setReverseDepth,
    GBufferFillPass.PipelineKey.gbuffer_key_alphaTested_setFrontCounterClockwise,
    GBufferFillPass.PipelineKey.gbuffer_key_alphaTested_setAlphaTested,
    GBufferFillPass.PipelineKey.gbuffer_key_frontCounterClockwise_setReverseDepth,
    GBufferFillPass.PipelineKey.gbuffer_key_frontCounterClockwise_setFrontCounterClockwise,
    GBufferFillPass.PipelineKey.gbuffer_key_reverseDepth_setReverseDepth,
    Nat.mod_eq_of_lt hc, and_self]

theorem cullMode_valid_lt {c : Nat}
    (hc : c = RasterCullMode.Back ∨ c = RasterCullMode.Front ∨ c = RasterCullMode.None) :
    c < 4 := by
  rcases hc with h | h | h <;> rw [h] <;> decide

/-- C3: for both packed keys, starting from `value = 0`, every valid tuple of fields
(domain below `MaterialDomain::Count`, cull mode one of Back, Front, None, any
booleans) is read back unchanged after it is written, the packed value is below
`PipelineKey::Count`, and a valid tuple that packs to the same value is the same tuple. -/
theorem C3_pipeline_key_round_trip (d c : Nat) (a f r : Bool)
    (hd : d < MaterialDomain.Count)
    (hc : c = RasterCullMode.Back ∨ c = RasterCullMode.Front ∨ c = RasterCullMode.None) :
    ((ForwardShadingPass.PipelineKey.pack d c f r).domain = d
      ∧ (ForwardShadingPass.PipelineKey.pack d c f r).cullMode = c
      ∧ (ForwardShadingPass.PipelineKey.pack d c f r).frontCounterClockwise = f
      ∧ (ForwardShadingPass.PipelineKey.pack d c f r).reverseDepth = r
      ∧ (ForwardShadingPass.PipelineKey.pack d c f r).value
          < ForwardShadingPass.PipelineKey.Count
      ∧ ∀ (d2 c2 : Nat) (f2 r2 : Bool), d2 < MaterialDomain.Count →
          (c2 = RasterCullMode.Back ∨ c2 = RasterCullMode.Front ∨ c2 = RasterCullMode.None) →
          (ForwardShadingPass.PipelineKey.pack d2 c2 f2 r2).value
            = (ForwardShadingPass.PipelineKey.pack d c f r).value →
          d2 = d ∧ c2 = c ∧ f2 = f ∧ r2 = r)
    ∧ ((GBufferFillPass.PipelineKey.pack c a f r).cullMode = c
      ∧ (GBufferFillPass.PipelineKey.pack c a f r).alphaTested = a
      ∧ (GBufferFillPass.PipelineKey.pack c a f r).frontCounterClockwise = f
      ∧ (GBufferFillPass.PipelineKey.pack c a f r).reverseDepth = r
      ∧ (GBufferFillPass.PipelineKey.pack c a f r).value < GBufferFillPass.PipelineKey.Count
      ∧ ∀ (c2 : Nat) (a2 f2 r2 : Bool),
          (c2 = RasterCullMode.Back ∨ c2 = RasterCullMode.Front ∨ c2 = RasterCullMode.None) →
          (GBufferFillPass.PipelineKey.pack c2 a2 f2 r2).value
            = (GBufferFillPass.PipelineKey.pack c a f r).value →
          c2 = c ∧ a2 = a ∧ f2 = f ∧ r2 = r) := by
  have hd8 : d < 8 := by
    have : MaterialDomain.Count = 6 := rfl
    omega
  have hc4 : c < 4 := cullMode_valid_lt hc
  obtain ⟨h1, h2, h3, h4⟩ := forward_pack_fields d c f r hd8 hc4
  obtain ⟨g1, g2, g3, g4⟩ := gbuffer_pack_fields c a f r hc4
  refine ⟨⟨h1, h2, h3, h4, ForwardShadingPass.PipelineKey.forward_key_pack_value_lt d c f r, ?_⟩,
    ⟨g1, g2, g3, g4, GBufferFillPass.PipelineKey.gbuffer_key_pack_value_lt c a f r, ?_⟩⟩
  · intro d2 c2 f2 r2 hd2 hc2 hv
    have hd28 : d2 < 8 := by
      have : MaterialDomain.Count = 6 := rfl
      omega
    obtain ⟨e1, e2, e3, e4⟩ := forward_pack_fields d2 c2 f2 r2 hd28 (cullMode_valid_lt hc2)
    have hk : ForwardShadingPass.PipelineKey.pack d2 c2 f2 r2
        = ForwardShadingPass.PipelineKey.pack d c f r := by
      cases hp : ForwardShadingPass.PipelineKey.pack d2 c2 f2 r2
      cases hq : ForwardShadingPass.PipelineKey.pack d c f r
      rw [hp, hq] at hv
      exact congrArg _ hv
    rw [hk] at e1 e2 e3 e4
    exact ⟨e1.symm.trans h1, e2.symm.trans h2, e3.symm.trans h3, e4.symm.trans h4⟩
  · intro c2 a2 f2 r2 hc2 hv
    obtain ⟨e1, e2, e3, e4⟩ := gbuffer_pack_fields c2 a2 f2 r2 (cullMode_valid_lt hc2)
    have hk : GBufferFillPass.PipelineKey.pack c2 a2 f2 r2
        = GBufferFillPass.PipelineKey.pack c a f r := by
      cases hp : GBufferFillPass.PipelineKey.pack c2 a2 f2 r2
      cases hq : GBufferFillPass.PipelineKey.pack c a f r
      rw [hp, hq] at hv
      exact congrArg _ hv
    rw [hk] at e1 e2 e3 e4
    exact ⟨e1.symm.trans g1, e2.symm.trans g2, e3.symm.trans g3, e4.symm.trans g4⟩

/-- The round trip of C3 at the tuple (TransmissiveAlphaBlended, None, alpha-tested,
mirrored, reverse depth): the forward key packs to 117 and the G-buffer key to 30. -/
theorem C3_pipeline_key_round_trip_witness :
    (ForwardShadingPass.PipelineKey.pack 5 2 true true).value = 117
      ∧ (GBufferFillPass.PipelineKey.pack 2 true true true).value = 30
      ∧ (ForwardShadingPass.PipelineKey.pack 5 2 true true).domain = 5
      ∧ (GBufferFillPass.PipelineKey.pack 2 true true true).cullMode = 2 :=
  ⟨by decide, by decide,
    (C3_pipeline_key_round_trip 5 2 true true true (by decide) (Or.inr (Or.inr rfl))).1.1,
    (C3_pipeline_key_round_trip 5 2 true true true (by decide) (Or.inr (Or.inr rfl))).2.1⟩

end PackedKeys

/-! ## The pipeline tables: what one call does, and what every run preserves -/

section PipelineTables

theorem setSlot_same (t : Nat → Handle) (k : Nat) (p : Handle) : setSlot t k p k = p := by
  simp [setSlot]

theorem setSlot_other (t : Nat → Handle) (k j : Nat) (p : Handle) (h : j ≠ k) :
    setSlot t k p j = t j := by
  simp [setSlot, h]

theorem successCount_append (log : List PipelineCall) (e : PipelineCall) (k : Nat) :
    successCount (log ++ [e]) k
      = successCount log k + (if e.key = k ∧ e.result.isSome = true then 1 else 0) := by
  unfold successCount
  rw [List.filter_append, List.length_append]
  by_cases h : e.key = k ∧ e.result.isSome = true
  · simp [List.filter, h]
  · rw [if_neg h]
    have : (decide (e.key = k) && e.result.isSome) = false := by
      rcases not_and_or.mp h with h1 | h1
      · simp [h1]
      · simp [h1]
    simp [List.filter, this]

namespace DepthPass

theorem depth_setupMaterial_hit (self : DepthPass) (call : MaterialCall Context)
    (k : Nat) (p : Nat) (hs : self.m_Pipelines k = some p)
    (hl : (self.setupMaterial call).lookup = some k) :
    (self.setupMaterial call).ret = true ∧ (self.setupMaterial call).state.pipeline = some p
      ∧ (self.setupMaterial call).pass = self := by
  revert hl
  unfold setupMaterial SetupMaterial
  dsimp only
  repeat' split
  all_goals
    intro hl
    first
      | (cases hl; done)
      | (simp only [Option.some.injEq] at hl; subst hl; simp_all)

theorem depth_setupMaterial_no_lookup (self : DepthPass) (call : MaterialCall Context)
    (hl : (self.setupMaterial call).lookup = none) :
    (self.setupMaterial call).ret = false ∧ (self.setupMaterial call).state = call.state
      ∧ (self.setupMaterial call).pass = self := by
  revert hl
  unfold setupMaterial SetupMaterial
  dsimp only
  repeat' split
  all_goals
    intro hl
    first
      | exact ⟨rfl, rfl, rfl⟩
      | cases hl

theorem depth_setupMaterial_miss (self : DepthPass) (call : MaterialCall Context)
    (k : Nat) (hs : self.m_Pipelines k = none)
    (hl : (self.setupMaterial call).lookup = some k) :
    ∃ e : PipelineCall,
      (self.setupMaterial call).pass
        = { self with
            m_Pipelines := setSlot self.m_Pipelines k e.result
            deviceLog := self.deviceLog ++ [e] }
      ∧ e.key = k
      ∧ e.desc = self.pipelineDesc call.materialBindings ⟨k⟩
      ∧ e.framebuffer = call.state.framebuffer
      ∧ e.result = call.dev.createGraphicsPipeline e.desc e.framebuffer
      ∧ (self.setupMaterial call).ret = e.result.isSome
      ∧ (self.setupMaterial call).state.pipeline
          = (if e.result.isSome then e.result else call.state.pipeline) := by
  refine ⟨⟨k, self.pipelineDesc call.materialBindings ⟨k⟩, call.state.framebuffer,
    call.dev.createGraphicsPipeline (self.pipelineDesc call.materialBindings ⟨k⟩)
      call.state.framebuffer⟩, ?_⟩
  revert hl
  unfold setupMaterial SetupMaterial CreateGraphicsPipeline
  dsimp only
  repeat' split
  all_goals
    intro hl
    first
      | (cases hl; done)
      | (simp only [Option.some.injEq] at hl; subst hl; simp_all)

theorem depth_SetupInputBuffers_pass (self : DepthPass) (dev : Device) (context : Context)
    (buffers : BufferGroup) (state : GraphicsState) :
    ∃ m, (self.SetupInputBuffers dev context buffers state).1
      = { self with m_InputBindingSets := m } := by
  unfold SetupInputBuffers GetOrCreateInputBindingSet
  dsimp only
  split
  · exact ⟨_, rfl⟩
  · split
    · exact ⟨_, rfl⟩
    · exact ⟨_, rfl⟩

/-- What one call does to the table and to the record of device calls: nothing, or one
empty slot is assigned the result of one recorded device call. -/
theorem depth_step_table (self : DepthPass) (op : Op) :
    ((self.step op).m_Pipelines = self.m_Pipelines
        ∧ (self.step op).deviceLog = self.deviceLog
        ∧ ∀ mb key, (self.step op).pipelineDesc mb key = self.pipelineDesc mb key)
    ∨ ∃ call k e, op = Op.setupMaterial call ∧ (self.setupMaterial call).lookup = some k
        ∧ self.m_Pipelines k = none
        ∧ (self.step op).m_Pipelines = setSlot self.m_Pipelines k e.result
        ∧ (self.step op).deviceLog = self.deviceLog ++ [e]
        ∧ e.key = k ∧ e.desc = self.pipelineDesc call.materialBindings ⟨k⟩
        ∧ (∀ mb key, (self.step op).pipelineDesc mb key = self.pipelineDesc mb key) := by
  cases op with
  | setupMaterial call =>
    cases hl : (self.setupMaterial call).lookup with
    | none =>
      left
      show (self.setupMaterial call).pass.m_Pipelines = _
        ∧ (self.setupMaterial call).pass.deviceLog = _
        ∧ ∀ mb key, (self.setupMaterial call).pass.pipelineDesc mb key = _
      rw [(depth_setupMaterial_no_lookup self call hl).2.2]
      exact ⟨rfl, rfl, fun _ _ => rfl⟩
    | some k =>
      cases hs : self.m_Pipelines k with
      | some p =>
        left
        show (self.setupMaterial call).pass.m_Pipelines = _
          ∧ (self.setupMaterial call).pass.deviceLog = _
          ∧ ∀ mb key, (self.setupMaterial call).pass.pipelineDesc mb key = _
        rw [(depth_setupMaterial_hit self call k p hs hl).2.2]
        exact ⟨rfl, rfl, fun _ _ => rfl⟩
      | none =>
        right
        obtain ⟨e, he, hk, hd, -⟩ := depth_setupMaterial_miss self call k hs hl
        refine ⟨call, k, e, rfl, hl, hs, ?_, ?_, hk, hd, ?_⟩
        · show (self.setupMaterial call).pass.m_Pipelines = _
          rw [he]
        · show (self.setupMaterial call).pass.deviceLog = _
          rw [he]
        · intro mb key
          show (self.setupMaterial call).pass.pipelineDesc mb key = _
          rw [he]; rfl
  | setupInputBuffers dev context buffers state =>
    left
    obtain ⟨m, hm⟩ := depth_SetupInputBuffers_pass self dev context buffers state
    show (self.SetupInputBuffers dev context buffers state).1.m_Pipelines = _
      ∧ (self.SetupInputBuffers dev context buffers state).1.deviceLog = _
      ∧ ∀ mb key, (self.SetupInputBuffers dev context buffers state).1.pipelineDesc mb key = _
    rw [hm]
    exact ⟨rfl, rfl, fun _ _ => rfl⟩
  | resetBindingCache => left; exact ⟨rfl, rfl, fun _ _ => rfl⟩

theorem depth_step_slot_some (self : DepthPass) (op : Op) (k p : Nat)
    (hs : self.m_Pipelines k = some p) : (self.step op).m_Pipelines k = some p := by
  rcases depth_step_table self op with ⟨h, -⟩ | ⟨call, k2, e, -, -, hs2, h, -⟩
  · rw [h]; exact hs
  · rw [h, setSlot_other _ _ _ _ (by intro hk; rw [hk, hs2] at hs; cases hs)]
    exact hs

theorem depth_run_slot_some (ops : List Op) (self : DepthPass) (k p : Nat)
    (hs : self.m_Pipelines k = some p) : (self.run ops).m_Pipelines k = some p := by
  induction ops generalizing self with
  | nil => exact hs
  | cons op rest ih => exact ih (self.step op) (depth_step_slot_some self op k p hs)

theorem depth_step_tableInv (self : DepthPass) (op : Op) (hi : TableInv self) :
    TableInv (self.step op) := by
  intro k p hk
  rcases depth_step_table self op with
    ⟨h1, h2, h3⟩ | ⟨call, k2, e, -, -, hs2, h1, h2, hek, hed, h3⟩
  · rw [h1] at hk
    obtain ⟨e, he, h4, h5, mb, h6⟩ := hi k p hk
    exact ⟨e, by rw [h2]; exact he, h4, h5, mb, by rw [h3]; exact h6⟩
  · rw [h1] at hk
    by_cases hkk : k = k2
    · subst hkk
      rw [setSlot_same] at hk
      exact ⟨e, by rw [h2]; simp, hek, hk, call.materialBindings, by rw [h3]; exact hed⟩
    · rw [setSlot_other _ _ _ _ hkk] at hk
      obtain ⟨e2, he, h4, h5, mb, h6⟩ := hi k p hk
      exact ⟨e2, by rw [h2]; exact List.mem_append_left _ he, h4, h5, mb,
        by rw [h3]; exact h6⟩

theorem depth_run_tableInv (ops : List Op) (self : DepthPass) (hi : TableInv self) :
    TableInv (self.run ops) := by
  induction ops generalizing self with
  | nil => exact hi
  | cons op rest ih => exact ih (self.step op) (depth_step_tableInv self op hi)

theorem depth_fresh_tableInv (self : DepthPass) (hf : Fresh self) : TableInv self := by
  intro k p hk
  rw [hf.1 k] at hk
  cases hk

theorem depth_step_countInv (self : DepthPass) (op : Op) (hi : CountInv self) :
    CountInv (self.step op) := by
  intro k
  rcases depth_step_table self op with ⟨h1, h2, -⟩ | ⟨call, k2, e, -, -, hs2, h1, h2, hek, -, -⟩
  · rw [h1, h2]; exact hi k
  · rw [h1, h2, successCount_append]
    by_cases hkk : k = k2
    · subst hkk
      have h0 := (hi k).2 hs2
      rw [setSlot_same, h0]
      constructor
      · split <;> omega
      · intro hn
        simp [hn]
    · rw [setSlot_other _ _ _ _ hkk]
      have hne : ¬ (e.key = k ∧ e.result.isSome = true) := by
        intro h; exact hkk (h.1.symm.trans hek)
      rw [if_neg hne]
      exact hi k

theorem depth_run_countInv (ops : List Op) (self : DepthPass) (hi : CountInv self) :
    CountInv (self.run ops) := by
  induction ops generalizing self with
  | nil => exact hi
  | cons op rest ih => exact ih (self.step op) (depth_step_countInv self op hi)

theorem depth_fresh_countInv (self : DepthPass) (hf : Fresh self) : CountInv self := by
  intro k
  rw [hf.2.2]
  exact ⟨Nat.zero_le _, fun _ => rfl⟩

/-- A call that returns true has read or filled a slot, and hands out the pipeline that
the slot holds afterwards. -/
theorem depth_setupMaterial_ret_true (self : DepthPass) (call : MaterialCall Context)
    (hr : (self.setupMaterial call).ret = true) :
    ∃ k p, (self.setupMaterial call).lookup = some k
      ∧ (self.setupMaterial call).state.pipeline = some p
      ∧ (self.setupMaterial call).pass.m_Pipelines k = some p := by
  cases hl : (self.setupMaterial call).lookup with
  | none =>
    rw [(depth_setupMaterial_no_lookup self call hl).1] at hr
    cases hr
  | some k =>
    cases hs : self.m_Pipelines k with
    | some p =>
      obtain ⟨-, h2, h3⟩ := depth_setupMaterial_hit self call k p hs hl
      exact ⟨k, p, rfl, h2, by rw [h3]; exact hs⟩
    | none =>
      obtain ⟨e, he, -, -, -, -, h5, h6⟩ := depth_setupMaterial_miss self call k hs hl
      rw [hr] at h5
      cases hres : e.result with
      | none => rw [hres] at h5; cases h5
      | some p =>
        refine ⟨k, p, rfl, ?_, ?_⟩
        · rw [h6, hres]; rfl
        · rw [he]
          show setSlot self.m_Pipelines k e.result k = some p
          rw [setSlot_same, hres]

/-- A call either leaves the record of device calls alone or appends one call. -/
theorem depth_setupMaterial_log (self : DepthPass) (call : MaterialCall Context) :
    (self.setupMaterial call).pass.deviceLog = self.deviceLog
    ∨ ∃ k e, (self.setupMaterial call).lookup = some k ∧ self.m_Pipelines k = none
        ∧ (self.setupMaterial call).pass.deviceLog = self.deviceLog ++ [e]
        ∧ e.key = k
        ∧ (self.setupMaterial call).pass.m_Pipelines k = e.result := by
  cases hl : (self.setupMaterial call).lookup with
  | none => left; rw [(depth_setupMaterial_no_lookup self call hl).2.2]
  | some k =>
    cases hs : self.m_Pipelines k with
    | some p => left; rw [(depth_setupMaterial_hit self call k p hs hl).2.2]
    | none =>
      right
      obtain ⟨e, he, hk, -⟩ := depth_setupMaterial_miss self call k hs hl
      refine ⟨k, e, rfl, hs, by rw [he], hk, ?_⟩
      rw [he]
      show setSlot self.m_Pipelines k e.result k = e.result
      rw [setSlot_same]

/-- After a call that obtained the pipeline `p` from the device for the key `k`, every
later call that reads the slot of `k` returns true with `p` and leaves the pass as it
is; a later call that reads no slot returns false and leaves pass and state as they
are. -/
theorem depth_pipeline_reused (self : DepthPass) (first : MaterialCall Context) (e : PipelineCall)
    (k p : Nat) (between : List Op) (later : MaterialCall Context)
    (hlog : (self.setupMaterial first).pass.deviceLog = self.deviceLog ++ [e])
    (hk : e.key = k) (hp : e.result = some p) :
    (((self.setupMaterial first).pass.run between).setupMaterial later).lookup = some k →
      (((self.setupMaterial first).pass.run between).setupMaterial later).ret = true
      ∧ (((self.setupMaterial first).pass.run between).setupMaterial later).state.pipeline
          = some p
      ∧ (((self.setupMaterial first).pass.run between).setupMaterial later).pass
          = (self.setupMaterial first).pass.run between := by
  intro hl
  have hslot : (self.setupMaterial first).pass.m_Pipelines k = some p := by
    rcases depth_setupMaterial_log self first with h | ⟨k2, e2, -, -, h, hk2, hs⟩
    · rw [h] at hlog
      have := congrArg List.length hlog
      simp at this
    · rw [h] at hlog
      have he : e2 = e := by
        have := List.append_cancel_left hlog
        simpa using this
      subst he
      rw [← hk, hk2, hs, hp]
  exact depth_setupMaterial_hit _ later k p (depth_run_slot_some between _ k p hslot) hl

end DepthPass

namespace GBufferFillPass

theorem gbuffer_setupMaterial_hit (self : GBufferFillPass) (call : MaterialCall Context)
    (k : Nat) (p : Nat) (hs : self.m_Pipelines k = some p)
    (hl : (self.setupMaterial call).lookup = some k) :
    (self.setupMaterial call).ret = true ∧ (self.setupMaterial call).state.pipeline = some p
      ∧ (self.setupMaterial call).pass = self := by
  revert hl
  unfold setupMaterial SetupMaterial
  dsimp only
  repeat' split
  all_goals
    intro hl
    first
      | (cases hl; done)
      | (simp only [Option.some.injEq] at hl; subst hl; simp_all)

theorem gbuffer_setupMaterial_no_lookup (self : GBufferFillPass) (call : MaterialCall Context)
    (hl : (self.setupMaterial call).lookup = none) :
    (self.setupMaterial call).ret = false ∧ (self.setupMaterial call).state = call.state
      ∧ (self.setupMaterial call).pass = self := by
  revert hl
  unfold setupMaterial SetupMaterial
  dsimp only
  repeat' split
  all_goals
    intro hl
    first
      | exact ⟨rfl, rfl, rfl⟩
      | cases hl

theorem gbuffer_setupMaterial_miss (self : GBufferFillPass) (call : MaterialCall Context)
    (k : Nat) (hs : self.m_Pipelines k = none)
    (hl : (self.setupMaterial call).lookup = some k) :
    ∃ e : PipelineCall,
      (self.setupMaterial call).pass
        = { self with
            m_Pipelines := setSlot self.m_Pipelines k e.result
            deviceLog := self.deviceLog ++ [e] }
      ∧ e.key = k
      ∧ e.desc = self.pipelineDesc call.materialBindings ⟨k⟩
      ∧ e.framebuffer = call.state.framebuffer
      ∧ e.result = call.dev.createGraphicsPipeline e.desc e.framebuffer
      ∧ (self.setupMaterial call).ret = e.result.isSome
      ∧ (self.setupMaterial call).state.pipeline
          = (if e.result.isSome then e.result else call.state.pipeline) := by
  refine ⟨⟨k, self.pipelineDesc call.materialBindings ⟨k⟩, call.state.framebuffer,
    call.dev.createGraphicsPipeline (self.pipelineDesc call.materialBindings ⟨k⟩)
      call.state.framebuffer⟩, ?_⟩
  revert hl
  unfold setupMaterial SetupMaterial CreateGraphicsPipeline
  dsimp only
  repeat' split
  all_goals
    intro hl
    first
      | (cases hl; done)
      | (simp only [Option.some.injEq] at hl; subst hl; simp_all)

theorem gbuffer_SetupInputBuffers_pass (self : GBufferFillPass) (dev : Device) (context : Context)
    (buffers : BufferGroup) (state : GraphicsState) :
    ∃ m, (self.SetupInputBuffers dev context buffers state).1
      = { self with m_InputBindingSets := m } := by
  unfold SetupInputBuffers GetOrCreateInputBindingSet
  dsimp only
  split
  · exact ⟨_, rfl⟩
  · split
    · exact ⟨_, rfl⟩
    · exact ⟨_, rfl⟩

/-- What one call does to the table and to the record of device calls: nothing, or one
empty slot is assigned the result of one recorded device call. -/
theorem gbuffer_step_table (self : GBufferFillPass) (op : Op) :
    ((self.step op).m_Pipelines = self.m_Pipelines
        ∧ (self.step op).deviceLog = self.deviceLog
        ∧ ∀ mb key, (self.step op).pipelineDesc mb key = self.pipelineDesc mb key)
    ∨ ∃ call k e, op = Op.setupMaterial call ∧ (self.setupMaterial call).lookup = some k
        ∧ self.m_Pipelines k = none
        ∧ (self.step op).m_Pipelines = setSlot self.m_Pipelines k e.result
        ∧ (self.step op).deviceLog = self.deviceLog ++ [e]
        ∧ e.key = k ∧ e.desc = self.pipelineDesc call.materialBindings ⟨k⟩
        ∧ (∀ mb key, (self.step op).pipelineDesc mb key = self.pipelineDesc mb key) := by
  cases op with
  | setupMaterial call =>
    cases hl : (self.setupMaterial call).lookup with
    | none =>
      left
      show (self.setupMaterial call).pass.m_Pipelines = _
        ∧ (self.setupMaterial call).pass.deviceLog = _
        ∧ ∀ mb key, (self.setupMaterial call).pass.pipelineDesc mb key = _
      rw [(gbuffer_setupMaterial_no_lookup self call hl).2.2]
      exact ⟨rfl, rfl, fun _ _ => rfl⟩
    | some k =>
      cases hs : self.m_Pipelines k with
      | some p =>
        left
        show (self.setupMaterial call).pass.m_Pipelines = _
          ∧ (self.setupMaterial call).pass.deviceLog = _
          ∧ ∀ mb key, (self.setupMaterial call).pass.pipelineDesc mb key = _
        rw [(gbuffer_setupMaterial_hit self call k p hs hl).2.2]
        exact ⟨rfl, rfl, fun _ _ => rfl⟩
      | none =>
        right
        obtain ⟨e, he, hk, hd, -⟩ := gbuffer_setupMaterial_miss self call k hs hl
        refine ⟨call, k, e, rfl, hl, hs, ?_, ?_, hk, hd, ?_⟩
        · show (self.setupMaterial call).pass.m_Pipelines = _
          rw [he]
        · show (self.setupMaterial call).pass.deviceLog = _
          rw [he]
        · intro mb key
          show (self.setupMaterial call).pass.pipelineDesc mb key = _
          rw [he]; rfl
  | setupInputBuffers dev context buffers state =>
    left
    obtain ⟨m, hm⟩ := gbuffer_SetupInputBuffers_pass self dev context buffers state
    show (self.SetupInputBuffers dev context buffers state).1.m_Pipelines = _
      ∧ (self.SetupInputBuffers dev context buffers state).1.deviceLog = _
      ∧ ∀ mb key, (self.SetupInputBuffers dev context buffers state).1.pipelineDesc mb key = _
    rw [hm]
    exact ⟨rfl, rfl, fun _ _ => rfl⟩
  | resetBindingCache => left; exact ⟨rfl, rfl, fun _ _ => rfl⟩

theorem gbuffer_step_slot_some (self : GBufferFillPass) (op : Op) (k p : Nat)
    (hs : self.m_Pipelines k = some p) : (self.step op).m_Pipelines k = some p := by
  rcases gbuffer_step_table self op with ⟨h, -⟩ | ⟨call, k2, e, -, -, hs2, h, -⟩
  · rw [h]; exact hs
  · rw [h, setSlot_other _ _ _ _ (by intro hk; rw [hk, hs2] at hs; cases hs)]
    exact hs

theorem gbuffer_run_slot_some (ops : List Op) (self : GBufferFillPass) (k p : Nat)
    (hs : self.m_Pipelines k = some p) : (self.run ops).m_Pipelines k = some p := by
  induction ops generalizing self with
  | nil => exact hs
  | cons op rest ih => exact ih (self.step op) (gbuffer_step_slot_some self op k p hs)

theorem gbuffer_step_tableInv (self : GBufferFillPass) (op : Op) (hi : TableInv self) :
    TableInv (self.step op) := by
  intro k p hk
  rcases gbuffer_step_table self op with
    ⟨h1, h2, h3⟩ | ⟨call, k2, e, -, -, hs2, h1, h2, hek, hed, h3⟩
  · rw [h1] at hk
    obtain ⟨e, he, h4, h5, mb, h6⟩ := hi k p hk
    exact ⟨e, by rw [h2]; exact he, h4, h5, mb, by rw [h3]; exact h6⟩
  · rw [h1] at hk
    by_cases hkk : k = k2
    · subst hkk
      rw [setSlot_same] at hk
      exact ⟨e, by rw [h2]; simp, hek, hk, call.materialBindings, by rw [h3]; exact hed⟩
    · rw [setSlot_other _ _ _ _ hkk] at hk
      obtain ⟨e2, he, h4, h5, mb, h6⟩ := hi k p hk
      exact ⟨e2, by rw [h2]; exact List.mem_append_left _ he, h4, h5, mb,
        by rw [h3]; exact h6⟩

theorem gbuffer_run_tableInv (ops : List Op) (self : GBufferFillPass) (hi : TableInv self) :
    TableInv (self.run ops) := by
  induction ops generalizing self with
  | nil => exact hi
  | cons op rest ih => exact ih (self.step op) (gbuffer_step_tableInv self op hi)

theorem gbuffer_fresh_tableInv (self : GBufferFillPass) (hf : Fresh self) : TableInv self := by
  intro k p hk
  rw [hf.1 k] at hk
  cases hk

theorem gbuffer_step_countInv (self : GBufferFillPass) (op : Op) (hi : CountInv self) :
    CountInv (self.step op) := by
  intro k
  rcases gbuffer_step_table self op with ⟨h1, h2, -⟩ | ⟨call, k2, e, -, -, hs2, h1, h2, hek, -, -⟩
  · rw [h1, h2]; exact hi k
  · rw [h1, h2, successCount_append]
    by_cases hkk : k = k2
    · subst hkk
      have h0 := (hi k).2 hs2
      rw [setSlot_same, h0]
      constructor
      · split <;> omega
      · intro hn
        simp [hn]
    · rw [setSlot_other _ _ _ _ hkk]
      have hne : ¬ (e.key = k ∧ e.result.isSome = true) := by
        intro h; exact hkk (h.1.symm.trans hek)
      rw [if_neg hne]
      exact hi k

theorem gbuffer_run_countInv (ops : List Op) (self : GBufferFillPass) (hi : CountInv self) :
    CountInv (self.run ops) := by
  induction ops generalizing self with
  | nil => exact hi
  | cons op rest ih => exact ih (self.step op) (gbuffer_step_countInv self op hi)

theorem gbuffer_fresh_countInv (self : GBufferFillPass) (hf : Fresh self) : CountInv self := by
  intro k
  rw [hf.2.2]
  exact ⟨Nat.zero_le _, fun _ => rfl⟩

/-- A call that returns true has read or filled a slot, and hands out the pipeline that
the slot holds afterwards. -/
theorem gbuffer_setupMaterial_ret_true (self : GBufferFillPass) (call : MaterialCall Context)
    (hr : (self.setupMaterial call).ret = true) :
    ∃ k p, (self.setupMaterial call).lookup = some k
      ∧ (self.setupMaterial call).state.pipeline = some p
      ∧ (self.setupMaterial call).pass.m_Pipelines k = some p := by
  cases hl : (self.setupMaterial call).lookup with
  | none =>
    rw [(gbuffer_setupMaterial_no_lookup self call hl).1] at hr
    cases hr
  | some k =>
    cases hs : self.m_Pipelines k with
    | some p =>
      obtain ⟨-, h2, h3⟩ := gbuffer_setupMaterial_hit self call k p hs hl
      exact ⟨k, p, rfl, h2, by rw [h3]; exact hs⟩
    | none =>
      obtain ⟨e, he, -, -, -, -, h5, h6⟩ := gbuffer_setupMaterial_miss self call k hs hl
      rw [hr] at h5
      cases hres : e.result with
      | none => rw [hres] at h5; cases h5
      | some p =>
        refine ⟨k, p, rfl, ?_, ?_⟩
        · rw [h6, hres]; rfl
        · rw [he]
          show setSlot self.m_Pipelines k e.result k = some p
          rw [setSlot_same, hres]

/-- A call either leaves the record of device calls alone or appends one call. -/
theorem gbuffer_setupMaterial_log (self : GBufferFillPass) (call : MaterialCall Context) :
    (self.setupMaterial call).pass.deviceLog = self.deviceLog
    ∨ ∃ k e, (self.setupMaterial call).lookup = some k ∧ self.m_Pipelines k = none
        ∧ (self.setupMaterial call).pass.deviceLog = self.deviceLog ++ [e]
        ∧ e.key = k
        ∧ (self.setupMaterial call).pass.m_Pipelines k = e.result := by
  cases hl : (self.setupMaterial call).lookup with
  | none => left; rw [(gbuffer_setupMaterial_no_lookup self call hl).2.2]
  | some k =>
    cases hs : self.m_Pipelines k with
    | some p => left; rw [(gbuffer_setupMaterial_hit self call k p hs hl).2.2]
    | none =>
      right
      obtain ⟨e, he, hk, -⟩ := gbuffer_setupMaterial_miss self call k hs hl
      refine ⟨k, e, rfl, hs, by rw [he], hk, ?_⟩
      rw [he]
      show setSlot self.m_Pipelines k e.result k = e.result
      rw [setSlot_same]

/-- After a call that obtained the pipeline `p` from the device for the key `k`, every
later call that reads the slot of `k` returns true with `p` and leaves the pass as it
is; a later call that reads no slot returns false and leaves pass and state as they
are. -/
theorem gbuffer_pipeline_reused (self : GBufferFillPass) (first : MaterialCall Context) (e : PipelineCall)
    (k p : Nat) (between : List Op) (later : MaterialCall Context)
    (hlog : (self.setupMaterial first).pass.deviceLog = self.deviceLog ++ [e])
    (hk : e.key = k) (hp : e.result = some p) :
    (((self.setupMaterial first).pass.run between).setupMaterial later).lookup = some k →
      (((self.setupMaterial first).pass.run between).setupMaterial later).ret = true
      ∧ (((self.setupMaterial first).pass.run between).setupMaterial later).state.pipeline
          = some p
      ∧ (((self.setupMaterial first).pass.run between).setupMaterial later).pass
          = (self.setupMaterial first).pass.run between := by
  intro hl
  have hslot : (self.setupMaterial first).pass.m_Pipelines k = some p := by
    rcases gbuffer_setupMaterial_log self first with h | ⟨k2, e2, -, -, h, hk2, hs⟩
    · rw [h] at hlog
      have := congrArg List.length hlog
      simp at this
    · rw [h] at hlog
      have he : e2 = e := by
        have := List.append_cancel_left hlog
        simpa using this
      subst he
      rw [← hk, hk2, hs, hp]
  exact gbuffer_setupMaterial_hit _ later k p (gbuffer_run_slot_some between _ k p hslot) hl

end GBufferFillPass

namespace ForwardShadingPass

theorem forward_setupMaterial_hit (self : ForwardShadingPass) (call : MaterialCall Context)
    (k : Nat) (p : Nat) (hs : self.m_Pipelines k = some p)
    (hl : (self.setupMaterial call).lookup = some k) :
    (self.setupMaterial call).ret = true ∧ (self.setupMaterial call).state.pipeline = some p
      ∧ (self.setupMaterial call).pass = self := by
  revert hl
  unfold setupMaterial SetupMaterial
  dsimp only
  repeat' split
  all_goals
    intro hl
    first
      | (cases hl; done)
      | (simp only [Option.some.injEq] at hl; subst hl; simp_all)

theorem forward_setupMaterial_no_lookup (self : ForwardShadingPass) (call : MaterialCall Context)
    (hl : (self.setupMaterial call).lookup = none) :
    (self.setupMaterial call).ret = false ∧ (self.setupMaterial call).state = call.state
      ∧ (self.setupMaterial call).pass = self := by
  revert hl
  unfold setupMaterial SetupMaterial
  dsimp only
  repeat' split
  all_goals
    intro hl
    first
      | exact ⟨rfl, rfl, rfl⟩
      | cases hl

theorem forward_pipelineDesc_isSome (self : ForwardShadingPass) (mb : MaterialBindingCache)
    (key : PipelineKey) (fb : Framebuffer) (h : key.domain < MaterialDomain.Count) :
    ∃ desc, self.pipelineDesc mb key fb = some desc := by
  have h6 : key.domain < 6 := h
  unfold pipelineDesc
  dsimp only
  have hcases : key.domain = 0 ∨ key.domain = 1 ∨ key.domain = 2 ∨ key.domain = 3
      ∨ key.domain = 4 ∨ key.domain = 5 := by omega
  rcases hcases with h | h | h | h | h | h <;> rw [h] <;> exact ⟨_, rfl⟩

/-- A call of the forward pass that reads a slot had its material binding set, a domain
below `Count` and a cull mode up to `None`, and read the slot of the key made of the
template, the cull mode and the domain. -/
theorem forward_setupMaterial_key (self : ForwardShadingPass) (call : MaterialCall Context) (k : Nat)
    (hl : (self.setupMaterial call).lookup = some k) :
    (∃ b, call.materialBindings.GetMaterialBindingSet call.material = some b
      ∧ ((self.setupMaterial call).ret = true →
        (self.setupMaterial call).state.bindings
          = [some b, self.m_ViewBindingSet, call.context.shadingBindingSet]
            ++ (if !self.m_UseInputAssembler then [call.context.inputBindingSet] else [])))
      ∧ call.material.domain < MaterialDomain.Count
      ∧ call.cullMode ≤ RasterCullMode.None
      ∧ k = ((call.context.keyTemplate.setCullMode call.cullMode).setDomain
              call.material.domain).value := by
  revert hl
  unfold setupMaterial SetupMaterial
  dsimp only
  cases hmb : call.materialBindings.GetMaterialBindingSet call.material with
  | none => intro hl; cases hl
  | some b =>
    dsimp only
    by_cases hd : call.material.domain ≥ MaterialDomain.Count
        ∨ call.cullMode > RasterCullMode.None
    · rw [if_pos hd]; intro hl; cases hl
    · rw [if_neg hd]
      have hd1 : call.material.domain < MaterialDomain.Count := by
        by_contra h; exact hd (Or.inl (Nat.le_of_not_lt h))
      have hd2 : call.cullMode ≤ RasterCullMode.None := by
        by_contra h; exact hd (Or.inr (Nat.lt_of_not_le h))
      repeat' split
      all_goals
        intro hl
        simp only [Option.some.injEq] at hl
        exact ⟨⟨b, rfl, by simp_all⟩, hd1, hd2, hl.symm⟩

theorem forward_setupMaterial_miss (self : ForwardShadingPass) (call : MaterialCall Context)
    (k : Nat) (hs : self.m_Pipelines k = none)
    (hl : (self.setupMaterial call).lookup = some k) :
    ∃ e : PipelineCall,
      (self.setupMaterial call).pass
        = { self with
            m_Pipelines := setSlot self.m_Pipelines k e.result
            deviceLog := self.deviceLog ++ [e] }
      ∧ e.key = k
      ∧ self.pipelineDesc call.materialBindings ⟨k⟩ call.state.framebuffer = some e.desc
      ∧ e.framebuffer = call.state.framebuffer
      ∧ e.result = call.dev.createGraphicsPipeline e.desc e.framebuffer
      ∧ (self.setupMaterial call).ret = e.result.isSome
      ∧ (self.setupMaterial call).state.pipeline
          = (if e.result.isSome then e.result else call.state.pipeline) := by
  obtain ⟨-, hd, -, hk⟩ := forward_setupMaterial_key self call k hl
  have hdom : (⟨k⟩ : PipelineKey).domain < MaterialDomain.Count := by
    rw [hk]
    show ((call.context.keyTemplate.setCullMode call.cullMode).setDomain
      call.material.domain).domain < MaterialDomain.Count
    rw [PipelineKey.forward_key_domain_setDomain]
    have h6 : call.material.domain < 6 := hd
    show call.material.domain % 8 < 6
    omega
  obtain ⟨desc, hdesc⟩ :=
    forward_pipelineDesc_isSome self call.materialBindings ⟨k⟩ call.state.framebuffer hdom
  refine ⟨⟨k, desc, call.state.framebuffer,
    call.dev.createGraphicsPipeline desc call.state.framebuffer⟩, ?_⟩
  revert hl
  unfold setupMaterial SetupMaterial CreateGraphicsPipeline CreateGraphicsPipeline_calls
  dsimp only
  repeat' split
  all_goals
    intro hl
    first
      | (cases hl; done)
      | (simp only [Option.some.injEq] at hl; subst hl; simp_all)

theorem forward_PrepareLights_pass (self : ForwardShadingPass) (dev : Device) (context : Context)
    (lights : List Light) (lightProbes : List LightProbe) :
    ∃ m, (self.PrepareLights dev context lights lightProbes).pass
      = { self with m_ShadingBindingSets := m } := by
  unfold PrepareLights
  dsimp only
  split
  · exact ⟨_, rfl⟩
  · exact ⟨_, rfl⟩

theorem forward_SetupInputBuffers_pass (self : ForwardShadingPass) (dev : Device) (context : Context)
    (buffers : BufferGroup) (state : GraphicsState) :
    ∃ m, (self.SetupInputBuffers dev context buffers state).1
      = { self with m_InputBindingSets := m } := by
  unfold SetupInputBuffers GetOrCreateInputBindingSet
  dsimp only
  split
  · exact ⟨_, rfl⟩
  · split
    · exact ⟨_, rfl⟩
    · exact ⟨_, rfl⟩

/-- What one call does to the table and to the record of device calls: nothing, or one
empty slot is assigned the result of one recorded device call. -/
theorem forward_step_table (self : ForwardShadingPass) (op : Op) :
    ((self.step op).m_Pipelines = self.m_Pipelines
        ∧ (self.step op).deviceLog = self.deviceLog
        ∧ ∀ mb key, (self.step op).pipelineDesc mb key = self.pipelineDesc mb key)
    ∨ ∃ call k e, op = Op.setupMaterial call ∧ (self.setupMaterial call).lookup = some k
        ∧ self.m_Pipelines k = none
        ∧ (self.step op).m_Pipelines = setSlot self.m_Pipelines k e.result
        ∧ (self.step op).deviceLog = self.deviceLog ++ [e]
        ∧ e.key = k ∧ self.pipelineDesc call.materialBindings ⟨k⟩ call.state.framebuffer = some e.desc
        ∧ (∀ mb key, (self.step op).pipelineDesc mb key = self.pipelineDesc mb key) := by
  cases op with
  | setupMaterial call =>
    cases hl : (self.setupMaterial call).lookup with
    | none =>
      left
      show (self.setupMaterial call).pass.m_Pipelines = _
        ∧ (self.setupMaterial call).pass.deviceLog = _
        ∧ ∀ mb key, (self.setupMaterial call).pass.pipelineDesc mb key = _
      rw [(forward_setupMaterial_no_lookup self call hl).2.2]
      exact ⟨rfl, rfl, fun _ _ => rfl⟩
    | some k =>
      cases hs : self.m_Pipelines k with
      | some p =>
        left
        show (self.setupMaterial call).pass.m_Pipelines = _
          ∧ (self.setupMaterial call).pass.deviceLog = _
          ∧ ∀ mb key, (self.setupMaterial call).pass.pipelineDesc mb key = _
        rw [(forward_setupMaterial_hit self call k p hs hl).2.2]
        exact ⟨rfl, rfl, fun _ _ => rfl⟩
      | none =>
        right
        obtain ⟨e, he, hk, hd, -⟩ := forward_setupMaterial_miss self call k hs hl
        refine ⟨call, k, e, rfl, hl, hs, ?_, ?_, hk, hd, ?_⟩
        · show (self.setupMaterial call).pass.m_Pipelines = _
          rw [he]
        · show (self.setupMaterial call).pass.deviceLog = _
          rw [he]
        · intro mb key
          show (self.setupMaterial call).pass.pipelineDesc mb key = _
          rw [he]; rfl
  | setupInputBuffers dev context buffers state =>
    left
    obtain ⟨m, hm⟩ := forward_SetupInputBuffers_pass self dev context buffers state
    show (self.SetupInputBuffers dev context buffers state).1.m_Pipelines = _
      ∧ (self.SetupInputBuffers dev context buffers state).1.deviceLog = _
      ∧ ∀ mb key, (self.SetupInputBuffers dev context buffers state).1.pipelineDesc mb key = _
    rw [hm]
    exact ⟨rfl, rfl, fun _ _ => rfl⟩
  | prepareLights dev context lights lightProbes =>
    left
    obtain ⟨m, hm⟩ := forward_PrepareLights_pass self dev context lights lightProbes
    show (self.PrepareLights dev context lights lightProbes).pass.m_Pipelines = _
      ∧ (self.PrepareLights dev context lights lightProbes).pass.deviceLog = _
      ∧ ∀ mb key, (self.PrepareLights dev context lights lightProbes).pass.pipelineDesc mb key
          = _
    rw [hm]
    exact ⟨rfl, rfl, fun _ _ => rfl⟩
  | resetBindingCache => left; exact ⟨rfl, rfl, fun _ _ => rfl⟩

theorem forward_step_slot_some (self : ForwardShadingPass) (op : Op) (k p : Nat)
    (hs : self.m_Pipelines k = some p) : (self.step op).m_Pipelines k = some p := by
  rcases forward_step_table self op with ⟨h, -⟩ | ⟨call, k2, e, -, -, hs2, h, -⟩
  · rw [h]; exact hs
  · rw [h, setSlot_other _ _ _ _ (by intro hk; rw [hk, hs2] at hs; cases hs)]
    exact hs

theorem forward_run_slot_some (ops : List Op) (self : ForwardShadingPass) (k p : Nat)
    (hs : self.m_Pipelines k = some p) : (self.run ops).m_Pipelines k = some p := by
  induction ops generalizing self with
  | nil => exact hs
  | cons op rest ih => exact ih (self.step op) (forward_step_slot_some self op k p hs)

theorem forward_step_tableInv (self : ForwardShadingPass) (op : Op) (hi : TableInv self) :
    TableInv (self.step op) := by
  intro k p hk
  rcases forward_step_table self op with
    ⟨h1, h2, h3⟩ | ⟨call, k2, e, -, -, hs2, h1, h2, hek, hed, h3⟩
  · rw [h1] at hk
    obtain ⟨e, he, h4, h5, mb, fb, h6⟩ := hi k p hk
    exact ⟨e, by rw [h2]; exact he, h4, h5, mb, fb, by rw [h3]; exact h6⟩
  · rw [h1] at hk
    by_cases hkk : k = k2
    · subst hkk
      rw [setSlot_same] at hk
      exact ⟨e, by rw [h2]; simp, hek, hk, call.materialBindings, call.state.framebuffer, by rw [h3]; exact hed⟩
    · rw [setSlot_other _ _ _ _ hkk] at hk
      obtain ⟨e2, he, h4, h5, mb, fb, h6⟩ := hi k p hk
      exact ⟨e2, by rw [h2]; exact List.mem_append_left _ he, h4, h5, mb, fb,
        by rw [h3]; exact h6⟩

theorem forward_run_tableInv (ops : List Op) (self : ForwardShadingPass) (hi : TableInv self) :
    TableInv (self.run ops) := by
  induction ops generalizing self with
  | nil => exact hi
  | cons op rest ih => exact ih (self.step op) (forward_step_tableInv self op hi)

theorem forward_fresh_tableInv (self : ForwardShadingPass) (hf : Fresh self) : TableInv self := by
  intro k p hk
  rw [hf.1 k] at hk
  cases hk

theorem forward_step_countInv (self : ForwardShadingPass) (op : Op) (hi : CountInv self) :
    CountInv (self.step op) := by
  intro k
  rcases forward_step_table self op with ⟨h1, h2, -⟩ | ⟨call, k2, e, -, -, hs2, h1, h2, hek, -, -⟩
  · rw [h1, h2]; exact hi k
  · rw [h1, h2, successCount_append]
    by_cases hkk : k = k2
    · subst hkk
      have h0 := (hi k).2 hs2
      rw [setSlot_same, h0]
      constructor
      · split <;> omega
      · intro hn
        simp [hn]
    · rw [setSlot_other _ _ _ _ hkk]
      have hne : ¬ (e.key = k ∧ e.result.isSome = true) := by
        intro h; exact hkk (h.1.symm.trans hek)
      rw [if_neg hne]
      exact hi k

theorem forward_run_countInv (ops : List Op) (self : ForwardShadingPass) (hi : CountInv self) :
    CountInv (self.run ops) := by
  induction ops generalizing self with
  | nil => exact hi
  | cons op rest ih => exact ih (self.step op) (forward_step_countInv self op hi)

theorem forward_fresh_countInv (self : ForwardShadingPass) (hf : Fresh self) : CountInv self := by
  intro k
  rw [hf.2.2.2]
  exact ⟨Nat.zero_le _, fun _ => rfl⟩

/-- A call that returns true has read or filled a slot, and hands out the pipeline that
the slot holds afterwards. -/
theorem forward_setupMaterial_ret_true (self : ForwardShadingPass) (call : MaterialCall Context)
    (hr : (self.setupMaterial call).ret = true) :
    ∃ k p, (self.setupMaterial call).lookup = some k
      ∧ (self.setupMaterial call).state.pipeline = some p
      ∧ (self.setupMaterial call).pass.m_Pipelines k = some p := by
  cases hl : (self.setupMaterial call).lookup with
  | none =>
    rw [(forward_setupMaterial_no_lookup self call hl).1] at hr
    cases hr
  | some k =>
    cases hs : self.m_Pipelines k with
    | some p =>
      obtain ⟨-, h2, h3⟩ := forward_setupMaterial_hit self call k p hs hl
      exact ⟨k, p, rfl, h2, by rw [h3]; exact hs⟩
    | none =>
      obtain ⟨e, he, -, -, -, -, h5, h6⟩ := forward_setupMaterial_miss self call k hs hl
      rw [hr] at h5
      cases hres : e.result with
      | none => rw [hres] at h5; cases h5
      | some p =>
        refine ⟨k, p, rfl, ?_, ?_⟩
        · rw [h6, hres]; rfl
        · rw [he]
          show setSlot self.m_Pipelines k e.result k = some p
          rw [setSlot_same, hres]

/-- A call either leaves the record of device calls alone or appends one call. -/
theorem forward_setupMaterial_log (self : ForwardShadingPass) (call : MaterialCall Context) :
    (self.setupMaterial call).pass.deviceLog = self.deviceLog
    ∨ ∃ k e, (self.setupMaterial call).lookup = some k ∧ self.m_Pipelines k = none
        ∧ (self.setupMaterial call).pass.deviceLog = self.deviceLog ++ [e]
        ∧ e.key = k
        ∧ (self.setupMaterial call).pass.m_Pipelines k = e.result := by
  cases hl : (self.setupMaterial call).lookup with
  | none => left; rw [(forward_setupMaterial_no_lookup self call hl).2.2]
  | some k =>
    cases hs : self.m_Pipelines k with
    | some p => left; rw [(forward_setupMaterial_hit self call k p hs hl).2.2]
    | none =>
      right
      obtain ⟨e, he, hk, -⟩ := forward_setupMaterial_miss self call k hs hl
      refine ⟨k, e, rfl, hs, by rw [he], hk, ?_⟩
      rw [he]
      show setSlot self.m_Pipelines k e.result k = e.result
      rw [setSlot_same]

/-- After a call that obtained the pipeline `p` from the device for the key `k`, every
later call that reads the slot of `k` returns true with `p` and leaves the pass as it
is; a later call that reads no slot returns false and leaves pass and state as they
are. -/
theorem forward_pipeline_reused (self : ForwardShadingPass) (first : MaterialCall Context) (e : PipelineCall)
    (k p : Nat) (between : List Op) (later : MaterialCall Context)
    (hlog : (self.setupMaterial first).pass.deviceLog = self.deviceLog ++ [e])
    (hk : e.key = k) (hp : e.result = some p) :
    (((self.setupMaterial first).pass.run between).setupMaterial later).lookup = some k →
      (((self.setupMaterial first).pass.run between).setupMaterial later).ret = true
      ∧ (((self.setupMaterial first).pass.run between).setupMaterial later).state.pipeline
          = some p
      ∧ (((self.setupMaterial first).pass.run between).setupMaterial later).pass
          = (self.setupMaterial first).pass.run between := by
  intro hl
  have hslot : (self.setupMaterial first).pass.m_Pipelines k = some p := by
    rcases forward_setupMaterial_log self first with h | ⟨k2, e2, -, -, h, hk2, hs⟩
    · rw [h] at hlog
      have := congrArg List.length hlog
      simp at this
    · rw [h] at hlog
      have he : e2 = e := by
        have := List.append_cancel_left hlog
        simpa using this
      subst he
      rw [← hk, hk2, hs, hp]
  exact forward_setupMaterial_hit _ later k p (forward_run_slot_some between _ k p hslot) hl

end ForwardShadingPass

end PipelineTables

/-! ## Which slot a call reads, and with which bindings -/

section SlotOfACall

namespace DepthPass

/-- A call of the depth pass that reads a slot took the alpha-tested branch (domain
AlphaTested with a texture, material binding set available) or the opaque branch, and
read the slot of the key made of the template, the cull mode and the `alphaTested` bit
of the branch; the bindings are the ones of the branch followed by the input set. -/
theorem depth_setupMaterial_key (self : DepthPass) (call : MaterialCall Context) (k : Nat)
    (hl : (self.setupMaterial call).lookup = some k) :
    (call.material.domain = MaterialDomain.AlphaTested
      ∧ (hasTexture call.material.baseOrDiffuseTexture call.material.enableBaseOrDiffuseTexture
            = true
          ∨ hasTexture call.material.opacityTexture call.material.enableOpacityTexture = true)
      ∧ ∃ b, call.materialBindings.GetMaterialBindingSet call.material = some b
        ∧ k = ((call.context.keyTemplate.setCullMode call.cullMode).setAlphaTested true).value
        ∧ (self.setupMaterial call).state.bindings
            = [self.m_ViewBindingSet, some b]
              ++ (if !self.m_UseInputAssembler then [call.context.inputBindingSet] else []))
    ∨ (call.material.domain = MaterialDomain.Opaque
      ∧ k = ((call.context.keyTemplate.setCullMode call.cullMode).setAlphaTested false).value
      ∧ (self.setupMaterial call).state.bindings
          = [self.m_ViewBindingSet]
            ++ (if !self.m_UseInputAssembler then [call.context.inputBindingSet] else [])) := by
  revert hl
  unfold setupMaterial SetupMaterial
  dsimp only
  by_cases h1 : call.material.domain = MaterialDomain.AlphaTested
      ∧ (hasTexture call.material.baseOrDiffuseTexture call.material.enableBaseOrDiffuseTexture
            = true
          ∨ hasTexture call.material.opacityTexture call.material.enableOpacityTexture = true)
  · rw [if_pos h1]
    cases hmb : call.materialBindings.GetMaterialBindingSet call.material with
    | none => intro hl; cases hl
    | some b =>
      dsimp only
      intro hl
      left
      refine ⟨h1.1, h1.2, b, rfl, ?_⟩
      revert hl
      split
      · intro hl
        simp only [Option.some.injEq] at hl
        refine ⟨hl.symm, ?_⟩
        cases self.m_UseInputAssembler <;> rfl
      · split <;>
        · intro hl
          simp only [Option.some.injEq] at hl
          refine ⟨hl.symm, ?_⟩
          cases self.m_UseInputAssembler <;> rfl
  · rw [if_neg h1]
    by_cases h2 : call.material.domain = MaterialDomain.Opaque
    · rw [if_pos h2]
      dsimp only
      intro hl
      right
      refine ⟨h2, ?_⟩
      revert hl
      split
      · intro hl
        simp only [Option.some.injEq] at hl
        refine ⟨hl.symm, ?_⟩
        cases self.m_UseInputAssembler <;> rfl
      · split <;>
        · intro hl
          simp only [Option.some.injEq] at hl
          refine ⟨hl.symm, ?_⟩
          cases self.m_UseInputAssembler <;> rfl
    · rw [if_neg h2]
      intro hl; cases hl

/-- An alpha-tested material with a texture and an available binding set reaches the
slot of the key with the `alphaTested` bit set. -/
theorem depth_setupMaterial_lookup_alphaTested (self : DepthPass) (call : MaterialCall Context)
    (b : Nat) (hd : call.material.domain = MaterialDomain.AlphaTested)
    (ht : hasTexture call.material.baseOrDiffuseTexture call.material.enableBaseOrDiffuseTexture
            = true
          ∨ hasTexture call.material.opacityTexture call.material.enableOpacityTexture = true)
    (hb : call.materialBindings.GetMaterialBindingSet call.material = some b) :
    (self.setupMaterial call).lookup
      = some ((call.context.keyTemplate.setCullMode call.cullMode).setAlphaTested true).value := by
  unfold setupMaterial SetupMaterial
  dsimp only
  rw [if_pos ⟨hd, ht⟩, hb]
  dsimp only
  split
  · rfl
  · split <;> rfl

/-- An alpha-tested material reads no slot when it has no texture or no binding set. -/
theorem depth_setupMaterial_lookup_alphaTested_none (self : DepthPass)
    (call : MaterialCall Context) (hd : call.material.domain = MaterialDomain.AlphaTested)
    (h : ¬ (hasTexture call.material.baseOrDiffuseTexture
              call.material.enableBaseOrDiffuseTexture = true
            ∨ hasTexture call.material.opacityTexture call.material.enableOpacityTexture = true)
        ∨ call.materialBindings.GetMaterialBindingSet call.material = none) :
    (self.setupMaterial call).lookup = none := by
  cases hl : (self.setupMaterial call).lookup with
  | none => rfl
  | some k =>
    exfalso
    rcases depth_setupMaterial_key self call k hl with ⟨-, ht, b, hb, -⟩ | ⟨ho, -⟩
    · rcases h with h | h
      · exact h ht
      · rw [h] at hb; cases hb
    · rw [hd] at ho; cases ho

end DepthPass

namespace GBufferFillPass

/-- A call of the G-buffer fill pass that reads a slot had its material binding set and
a domain of the enumeration, and read the slot of the key made of the template, the
cull mode and the `alphaTested` bit (set for AlphaTested only). -/
theorem gbuffer_setupMaterial_key (self : GBufferFillPass) (call : MaterialCall Context) (k : Nat)
    (hl : (self.setupMaterial call).lookup = some k) :
    ∃ b, call.materialBindings.GetMaterialBindingSet call.material = some b
      ∧ call.material.domain < MaterialDomain.Count
      ∧ k = ((call.context.keyTemplate.setCullMode call.cullMode).setAlphaTested
              (decide (call.material.domain = MaterialDomain.AlphaTested))).value
      ∧ ((self.setupMaterial call).ret = true →
          (self.setupMaterial call).state.bindings
            = [some b, self.m_ViewBindings]
              ++ (if !self.m_UseInputAssembler then [call.context.inputBindingSet] else [])) := by
  revert hl
  unfold setupMaterial SetupMaterial
  dsimp only
  by_cases h1 : call.material.domain = MaterialDomain.Opaque
      ∨ call.material.domain = MaterialDomain.AlphaBlended
      ∨ call.material.domain = MaterialDomain.Transmissive
      ∨ call.material.domain = MaterialDomain.TransmissiveAlphaTested
      ∨ call.material.domain = MaterialDomain.TransmissiveAlphaBlended
  · rw [if_pos h1]
    have hlt : call.material.domain < MaterialDomain.Count := by
      rcases h1 with h | h | h | h | h <;> rw [h] <;> decide
    have hdec : decide (call.material.domain = MaterialDomain.AlphaTested) = false := by
      rcases h1 with h | h | h | h | h <;> rw [h] <;> decide
    rw [hdec]
    dsimp only
    cases hmb : call.materialBindings.GetMaterialBindingSet call.material with
    | none => intro hl; cases hl
    | some b =>
      dsimp only
      repeat' split
      all_goals
        intro hl
        simp only [Option.some.injEq] at hl
        exact ⟨b, rfl, hlt, hl.symm, by simp_all⟩
  · rw [if_neg h1]
    by_cases h2 : call.material.domain = MaterialDomain.AlphaTested
    · rw [if_pos h2]
      have hlt : call.material.domain < MaterialDomain.Count := by rw [h2]; decide
      have hdec : decide (call.material.domain = MaterialDomain.AlphaTested) = true := by
        rw [h2]; decide
      rw [hdec]
      dsimp only
      cases hmb : call.materialBindings.GetMaterialBindingSet call.material with
      | none => intro hl; cases hl
      | some b =>
        dsimp only
        repeat' split
        all_goals
          intro hl
          simp only [Option.some.injEq] at hl
          exact ⟨b, rfl, hlt, hl.symm, by simp_all⟩
    · rw [if_neg h2]
      intro hl; cases hl

/-- A material of a domain of the enumeration with an available binding set reaches the
slot of its key. -/
theorem gbuffer_setupMaterial_lookup (self : GBufferFillPass) (call : MaterialCall Context) (b : Nat)
    (hd : call.material.domain < MaterialDomain.Count)
    (hb : call.materialBindings.GetMaterialBindingSet call.material = some b) :
    (self.setupMaterial call).lookup
      = some ((call.context.keyTemplate.setCullMode call.cullMode).setAlphaTested
          (decide (call.material.domain = MaterialDomain.AlphaTested))).value := by
  have h6 : call.material.domain < 6 := hd
  have hcases : call.material.domain = 0 ∨ call.material.domain = 1
      ∨ call.material.domain = 2 ∨ call.material.domain = 3 ∨ call.material.domain = 4
      ∨ call.material.domain = 5 := by omega
  unfold setupMaterial SetupMaterial
  dsimp only
  rw [hb]
  rcases hcases with h | h | h | h | h | h <;> rw [h] <;> dsimp only <;>
    simp only [reduceCtorEq, Nat.reduceEqDiff, OfNat.ofNat_ne_zero, or_false, or_true, true_or,
      false_or, if_true, if_false, decide_True, decide_False, OfNat.zero_ne_ofNat,
      OfNat.ofNat_ne_one, OfNat.one_ne_ofNat] <;>
    repeat' split
  all_goals rfl

end GBufferFillPass

namespace ForwardShadingPass

/-- A material with an available binding set, a domain below `Count` and a cull mode
up to `None` reaches the slot of its key. -/
theorem forward_setupMaterial_lookup (self : ForwardShadingPass) (call : MaterialCall Context)
    (b : Nat) (hb : call.materialBindings.GetMaterialBindingSet call.material = some b)
    (hd : call.material.domain < MaterialDomain.Count)
    (hc : call.cullMode ≤ RasterCullMode.None) :
    (self.setupMaterial call).lookup
      = some ((call.context.keyTemplate.setCullMode call.cullMode).setDomain
          call.material.domain).value := by
  unfold setupMaterial SetupMaterial
  dsimp only
  rw [hb]
  dsimp only
  have hn : ¬ (call.material.domain ≥ MaterialDomain.Count
      ∨ call.cullMode > RasterCullMode.None) := by
    intro h
    rcases h with h | h
    · exact Nat.lt_irrefl _ (Nat.lt_of_lt_of_le hd h)
    · exact Nat.lt_irrefl _ (Nat.lt_of_lt_of_le h hc)
  rw [if_neg hn]
  repeat' split
  all_goals rfl

end ForwardShadingPass

end SlotOfACall

/-! ## C1: a pipeline obtained for a key is reused -/

section C1

/-- C1 (as amended): for each of DepthPass, GBufferFillPass and ForwardShadingPass,
once a `SetupMaterial` call has obtained a non-null pipeline `p` from the device for
the key value `k`, then after any further calls on the pass every later call that
reads the table slot of `k` returns true, puts `p` into `state.pipeline` and makes no
`createGraphicsPipeline` call; a later call that returns before reading a slot returns
false, leaves the graphics state as it was and makes no device call either. And on a
freshly constructed pass, whatever calls are made, at most one `createGraphicsPipeline`
call per key value returns a pipeline. -/
theorem C1_pipeline_reused_per_key :
    (∀ (self : DepthPass) (first later : MaterialCall DepthPass.Context) (e : PipelineCall)
        (k p : Nat) (between : List DepthPass.Op) (s : DepthPass),
        (self.setupMaterial first).pass.deviceLog = self.deviceLog ++ [e] →
        e.key = k → e.result = some p →
        s = (self.setupMaterial first).pass.run between →
        ((s.setupMaterial later).lookup = some k →
            (s.setupMaterial later).ret = true
            ∧ (s.setupMaterial later).state.pipeline = some p
            ∧ (s.setupMaterial later).pass.deviceLog = s.deviceLog)
        ∧ ((s.setupMaterial later).lookup = none →
            (s.setupMaterial later).ret = false
            ∧ (s.setupMaterial later).state = later.state
            ∧ (s.setupMaterial later).pass.deviceLog = s.deviceLog))
    ∧ (∀ (self : DepthPass) (ops : List DepthPass.Op) (k : Nat), self.Fresh →
        successCount (self.run ops).deviceLog k ≤ 1)
    ∧ (∀ (self : GBufferFillPass) (first later : MaterialCall GBufferFillPass.Context)
        (e : PipelineCall) (k p : Nat) (between : List GBufferFillPass.Op)
        (s : GBufferFillPass),
        (self.setupMaterial first).pass.deviceLog = self.deviceLog ++ [e] →
        e.key = k → e.result = some p →
        s = (self.setupMaterial first).pass.run between →
        ((s.setupMaterial later).lookup = some k →
            (s.setupMaterial later).ret = true
            ∧ (s.setupMaterial later).state.pipeline = some p
            ∧ (s.setupMaterial later).pass.deviceLog = s.deviceLog)
        ∧ ((s.setupMaterial later).lookup = none →
            (s.setupMaterial later).ret = false
            ∧ (s.setupMaterial later).state = later.state
            ∧ (s.setupMaterial later).pass.deviceLog = s.deviceLog))
    ∧ (∀ (self : GBufferFillPass) (ops : List GBufferFillPass.Op) (k : Nat), self.Fresh →
        successCount (self.run ops).deviceLog k ≤ 1)
    ∧ (∀ (self : ForwardShadingPass) (first later : MaterialCall ForwardShadingPass.Context)
        (e : PipelineCall) (k p : Nat) (between : List ForwardShadingPass.Op)
        (s : ForwardShadingPass),
        (self.setupMaterial first).pass.deviceLog = self.deviceLog ++ [e] →
        e.key = k → e.result = some p →
        s = (self.setupMaterial first).pass.run between →
        ((s.setupMaterial later).lookup = some k →
            (s.setupMaterial later).ret = true
            ∧ (s.setupMaterial later).state.pipeline = some p
            ∧ (s.setupMaterial later).pass.deviceLog = s.deviceLog)
        ∧ ((s.setupMaterial later).lookup = none →
            (s.setupMaterial later).ret = false
            ∧ (s.setupMaterial later).state = later.state
            ∧ (s.setupMaterial later).pass.deviceLog = s.deviceLog))
    ∧ (∀ (self : ForwardShadingPass) (ops : List ForwardShadingPass.Op) (k : Nat),
        self.Fresh → successCount (self.run ops).deviceLog k ≤ 1) := by
  refine ⟨?_, ?_, ?_, ?_, ?_, ?_⟩
  · intro self first later e k p between s hlog hk hp hs
    subst hs
    constructor
    · intro hl
      obtain ⟨h1, h2, h3⟩ :=
        DepthPass.depth_pipeline_reused self first e k p between later hlog hk hp hl
      exact ⟨h1, h2, by rw [h3]⟩
    · intro hl
      obtain ⟨h1, h2, h3⟩ := DepthPass.depth_setupMaterial_no_lookup _ later hl
      exact ⟨h1, h2, by rw [h3]⟩
  · intro self ops k hf
    exact (DepthPass.depth_run_countInv ops self (DepthPass.depth_fresh_countInv self hf) k).1
  · intro self first later e k p between s hlog hk hp hs
    subst hs
    constructor
    · intro hl
      obtain ⟨h1, h2, h3⟩ :=
        GBufferFillPass.gbuffer_pipeline_reused self first e k p between later hlog hk hp hl
      exact ⟨h1, h2, by rw [h3]⟩
    · intro hl
      obtain ⟨h1, h2, h3⟩ := GBufferFillPass.gbuffer_setupMaterial_no_lookup _ later hl
      exact ⟨h1, h2, by rw [h3]⟩
  · intro self ops k hf
    exact (GBufferFillPass.gbuffer_run_countInv ops self (GBufferFillPass.gbuffer_fresh_countInv self hf) k).1
  · intro self first later e k p between s hlog hk hp hs
    subst hs
    constructor
    · intro hl
      obtain ⟨h1, h2, h3⟩ :=
        ForwardShadingPass.forward_pipeline_reused self first e k p between later hlog hk hp hl
      exact ⟨h1, h2, by rw [h3]⟩
    · intro hl
      obtain ⟨h1, h2, h3⟩ := ForwardShadingPass.forward_setupMaterial_no_lookup _ later hl
      exact ⟨h1, h2, by rw [h3]⟩
  · intro self ops k hf
    exact (ForwardShadingPass.forward_run_countInv ops self
      (ForwardShadingPass.forward_fresh_countInv self hf) k).1

/-- C1 on the sample passes: the first call creates pipeline 7 for key 0; after a
`SetupInputBuffers` call in between, the same call again returns true with pipeline 7
and the record of device calls keeps its single entry; and after three calls on the
fresh forward pass one device call succeeded for key 0. -/
theorem C1_pipeline_reused_per_key_witness :
    ((((Sample.depthPass.setupMaterial Sample.depthCall).pass.run
          [DepthPass.Op.setupInputBuffers Sample.workingDevice {} Sample.bufferGroup
            Sample.state]).setupMaterial Sample.depthCall).ret = true
      ∧ (((Sample.depthPass.setupMaterial Sample.depthCall).pass.run
          [DepthPass.Op.setupInputBuffers Sample.workingDevice {} Sample.bufferGroup
            Sample.state]).setupMaterial Sample.depthCall).state.pipeline = some 7
      ∧ (((Sample.depthPass.setupMaterial Sample.depthCall).pass.run
          [DepthPass.Op.setupInputBuffers Sample.workingDevice {} Sample.bufferGroup
            Sample.state]).setupMaterial Sample.depthCall).pass.deviceLog
          = ((Sample.depthPass.setupMaterial Sample.depthCall).pass.run
              [DepthPass.Op.setupInputBuffers Sample.workingDevice {} Sample.bufferGroup
                Sample.state]).deviceLog)
    ∧ successCount (Sample.forwardPass.run
        [ForwardShadingPass.Op.setupMaterial Sample.forwardCall,
          ForwardShadingPass.Op.resetBindingCache,
          ForwardShadingPass.Op.setupMaterial Sample.forwardCall]).deviceLog 0 ≤ 1 :=
  ⟨(C1_pipeline_reused_per_key.1 Sample.depthPass Sample.depthCall Sample.depthCall
      ⟨0, Sample.depthPass.pipelineDesc Sample.cache ⟨0⟩, Sample.framebuffer, some 7⟩ 0 7
      [DepthPass.Op.setupInputBuffers Sample.workingDevice {} Sample.bufferGroup Sample.state]
      _ rfl rfl rfl rfl).1 rfl,
    C1_pipeline_reused_per_key.2.2.2.2.2 Sample.forwardPass _ 0
      ⟨fun _ => rfl, fun _ => rfl, fun _ => rfl, rfl⟩⟩

/-- The claim of C1 as stated fails on the G-buffer fill pass: the first call obtains
pipeline 7 from the device for key 0; a later call with the same key template, cull mode
and domain, for a material whose binding set is not ready, returns false and leaves
`state.pipeline` null instead of putting pipeline 7 into it. -/
theorem C1_counterexample_binding_set_not_ready :
    (Sample.gbufferPass.setupMaterial Sample.gbufferCall).ret = true
    ∧ (Sample.gbufferPass.setupMaterial Sample.gbufferCall).state.pipeline = some 7
    ∧ (Sample.gbufferPass.setupMaterial Sample.gbufferCall).pass.deviceLog.map
        (fun e => (e.key, e.result)) = [(0, some 7)]
    ∧ Sample.opaqueMaterialNotReady.domain = Sample.gbufferCall.material.domain
    ∧ ((Sample.gbufferPass.setupMaterial Sample.gbufferCall).pass.setupMaterial
        { Sample.gbufferCall with material := Sample.opaqueMaterialNotReady }).ret = false
    ∧ ((Sample.gbufferPass.setupMaterial Sample.gbufferCall).pass.setupMaterial
        { Sample.gbufferCall with material := Sample.opaqueMaterialNotReady }).state.pipeline
        ≠ some 7 := by
  decide

end C1

/-! ## C4: a failed pipeline creation -/

section C4

/-- C4 (as amended): for each of the three passes, a `SetupMaterial` call that reads
an empty slot (as the slot is before the first creation and after every failed one)
asks the device once, with the framebuffer of the graphics state; when the device
returns null the call returns false and the slot stays empty, so that the next call
for the key asks the device again; when the device returns a pipeline the call
returns true and the slot holds it. The failure is not cached. -/
theorem C4_empty_slot_asks_device_again :
    (∀ (self : DepthPass) (call : MaterialCall DepthPass.Context) (k : Nat),
        (self.setupMaterial call).lookup = some k → self.m_Pipelines k = none →
        ∃ e : PipelineCall,
          (self.setupMaterial call).pass.deviceLog = self.deviceLog ++ [e]
          ∧ e.key = k
          ∧ e.desc = self.pipelineDesc call.materialBindings ⟨k⟩
          ∧ e.result = call.dev.createGraphicsPipeline e.desc call.state.framebuffer
          ∧ (self.setupMaterial call).pass.m_Pipelines k = e.result
          ∧ (self.setupMaterial call).ret = e.result.isSome)
    ∧ (∀ (self : GBufferFillPass) (call : MaterialCall GBufferFillPass.Context) (k : Nat),
        (self.setupMaterial call).lookup = some k → self.m_Pipelines k = none →
        ∃ e : PipelineCall,
          (self.setupMaterial call).pass.deviceLog = self.deviceLog ++ [e]
          ∧ e.key = k
          ∧ e.desc = self.pipelineDesc call.materialBindings ⟨k⟩
          ∧ e.result = call.dev.createGraphicsPipeline e.desc call.state.framebuffer
          ∧ (self.setupMaterial call).pass.m_Pipelines k = e.result
          ∧ (self.setupMaterial call).ret = e.result.isSome)
    ∧ (∀ (self : ForwardShadingPass) (call : MaterialCall ForwardShadingPass.Context)
        (k : Nat),
        (self.setupMaterial call).lookup = some k → self.m_Pipelines k = none →
        ∃ e : PipelineCall,
          (self.setupMaterial call).pass.deviceLog = self.deviceLog ++ [e]
          ∧ e.key = k
          ∧ self.pipelineDesc call.materialBindings ⟨k⟩ call.state.framebuffer = some e.desc
          ∧ e.result = call.dev.createGraphicsPipeline e.desc call.state.framebuffer
          ∧ (self.setupMaterial call).pass.m_Pipelines k = e.result
          ∧ (self.setupMaterial call).ret = e.result.isSome) := by
  refine ⟨?_, ?_, ?_⟩
  · intro self call k hl hs
    obtain ⟨e, he, hk, hd, hf, hr, hret, -⟩ := DepthPass.depth_setupMaterial_miss self call k hs hl
    refine ⟨e, by rw [he], hk, hd, by rw [hr, hf], ?_, hret⟩
    rw [he]
    exact setSlot_same _ _ _
  · intro self call k hl hs
    obtain ⟨e, he, hk, hd, hf, hr, hret, -⟩ :=
      GBufferFillPass.gbuffer_setupMaterial_miss self call k hs hl
    refine ⟨e, by rw [he], hk, hd, by rw [hr, hf], ?_, hret⟩
    rw [he]
    exact setSlot_same _ _ _
  · intro self call k hl hs
    obtain ⟨e, he, hk, hd, hf, hr, hret, -⟩ :=
      ForwardShadingPass.forward_setupMaterial_miss self call k hs hl
    refine ⟨e, by rw [he], hk, hd, by rw [hr, hf], ?_, hret⟩
    rw [he]
    exact setSlot_same _ _ _

/-- C4 on the sample depth pass with a device that fails: the call reads the empty
slot 0 and records one device call for key 0, and it returns false. -/
theorem C4_empty_slot_asks_device_again_witness :
    (∃ e : PipelineCall,
      (Sample.depthPass.setupMaterial
          { Sample.depthCall with dev := Sample.failingDevice }).pass.deviceLog
        = Sample.depthPass.deviceLog ++ [e]
      ∧ e.key = 0
      ∧ e.desc = Sample.depthPass.pipelineDesc Sample.cache ⟨0⟩
      ∧ e.result = Sample.failingDevice.createGraphicsPipeline e.desc Sample.framebuffer
      ∧ (Sample.depthPass.setupMaterial
          { Sample.depthCall with dev := Sample.failingDevice }).pass.m_Pipelines 0 = e.result
      ∧ (Sample.depthPass.setupMaterial
          { Sample.depthCall with dev := Sample.failingDevice }).ret = e.result.isSome)
    ∧ (Sample.depthPass.setupMaterial
          { Sample.depthCall with dev := Sample.failingDevice }).ret = false :=
  ⟨C4_empty_slot_asks_device_again.1 Sample.depthPass
      { Sample.depthCall with dev := Sample.failingDevice } 0 rfl rfl, rfl⟩

/-- The claim of C4 as stated fails on the depth pass: the device returns null for key
0, the call returns false and leaves the slot empty; the next call for the same key, at
which the device returns pipeline 7, returns true. -/
theorem C4_counterexample_failure_not_cached :
    (Sample.depthPass.setupMaterial
        { Sample.depthCall with dev := Sample.failingDevice }).ret = false
    ∧ (Sample.depthPass.setupMaterial
        { Sample.depthCall with dev := Sample.failingDevice }).lookup = some 0
    ∧ (Sample.depthPass.setupMaterial
        { Sample.depthCall with dev := Sample.failingDevice }).pass.deviceLog.map
          (fun e => (e.key, e.result)) = [(0, none)]
    ∧ (Sample.depthPass.setupMaterial
        { Sample.depthCall with dev := Sample.failingDevice }).pass.m_Pipelines 0 = none
    ∧ ((Sample.depthPass.setupMaterial
        { Sample.depthCall with dev := Sample.failingDevice }).pass.setupMaterial
          Sample.depthCall).lookup = some 0
    ∧ ((Sample.depthPass.setupMaterial
        { Sample.depthCall with dev := Sample.failingDevice }).pass.setupMaterial
          Sample.depthCall).ret = true := by
  decide

end C4

/-! ## C8 and C10: the domains a pass rejects -/

section RejectedDomains

/-- C8: `DepthPass::SetupMaterial` returns false for every material whose domain is
AlphaBlended, Transmissive, TransmissiveAlphaTested or TransmissiveAlphaBlended,
whatever the cull mode, the context, the textures, the collaborators and the pass
state, and the call creates no pipeline: the pass, with its table and its record of
device calls, and the graphics state are as before. -/
theorem C8_depth_rejects_blended_and_transmissive (self : DepthPass)
    (call : MaterialCall DepthPass.Context)
    (hd : call.material.domain = MaterialDomain.AlphaBlended
      ∨ call.material.domain = MaterialDomain.Transmissive
      ∨ call.material.domain = MaterialDomain.TransmissiveAlphaTested
      ∨ call.material.domain = MaterialDomain.TransmissiveAlphaBlended) :
    (self.setupMaterial call).ret = false
      ∧ (self.setupMaterial call).pass = self
      ∧ (self.setupMaterial call).pass.deviceLog = self.deviceLog
      ∧ (self.setupMaterial call).state = call.state := by
  have hl : (self.setupMaterial call).lookup = none := by
    cases hl : (self.setupMaterial call).lookup with
    | none => rfl
    | some k =>
      exfalso
      rcases DepthPass.depth_setupMaterial_key self call k hl with ⟨h, -⟩ | ⟨h, -⟩ <;>
        rcases hd with h2 | h2 | h2 | h2 <;> rw [h] at h2 <;> cases h2
  obtain ⟨h1, h2, h3⟩ := DepthPass.depth_setupMaterial_no_lookup self call hl
  exact ⟨h1, h3, by rw [h3], h2⟩

/-- C8 on the sample depth pass with an alpha-blended material and a device on which
every creation would succeed. -/
theorem C8_depth_rejects_blended_and_transmissive_witness :
    (Sample.depthPass.setupMaterial
        { Sample.depthCall with material := Sample.alphaBlendedMaterial }).ret = false
    ∧ (Sample.depthPass.setupMaterial
        { Sample.depthCall with material := Sample.alphaBlendedMaterial }).pass.deviceLog = [] :=
  ⟨(C8_depth_rejects_blended_and_transmissive Sample.depthPass
      { Sample.depthCall with material := Sample.alphaBlendedMaterial } (Or.inl rfl)).1,
    (C8_depth_rejects_blended_and_transmissive Sample.depthPass
      { Sample.depthCall with material := Sample.alphaBlendedMaterial } (Or.inl rfl)).2.2.1⟩

/-- Whether a call of the G-buffer fill pass that reads the slot `k` returns true: the
slot holds a pipeline, or the device returns one. -/
theorem GBufferFillPass.gbuffer_setupMaterial_ret_iff (self : GBufferFillPass)
    (call : MaterialCall GBufferFillPass.Context) (k : Nat)
    (hl : (self.setupMaterial call).lookup = some k) :
    (self.setupMaterial call).ret = true
      ↔ ((self.m_Pipelines k).isSome = true
        ∨ (call.dev.createGraphicsPipeline (self.pipelineDesc call.materialBindings ⟨k⟩)
            call.state.framebuffer).isSome = true) := by
  cases hs : self.m_Pipelines k with
  | some p =>
    rw [(GBufferFillPass.gbuffer_setupMaterial_hit self call k p hs hl).1]
    simp
  | none =>
    obtain ⟨e, -, -, hd, hf, hr, hret, -⟩ :=
      GBufferFillPass.gbuffer_setupMaterial_miss self call k hs hl
    rw [hret, hr, hd, hf]
    simp

/-- C10 (as amended): `GBufferFillPass::SetupMaterial` does not reject a material whose
domain is AlphaBlended, Transmissive, TransmissiveAlphaTested or
TransmissiveAlphaBlended. It handles it as it handles an Opaque one, with the
`alphaTested` bit of the key cleared: without a material binding set it returns false;
with one it reads the slot of that key and returns true exactly when the slot holds a
pipeline or the device creates one. It rejects a material for its domain only when the
value is outside the enumeration. -/
theorem C10_gbuffer_accepts_blended_and_transmissive (self : GBufferFillPass)
    (call : MaterialCall GBufferFillPass.Context) :
    ((call.material.domain = MaterialDomain.AlphaBlended
        ∨ call.material.domain = MaterialDomain.Transmissive
        ∨ call.material.domain = MaterialDomain.TransmissiveAlphaTested
        ∨ call.material.domain = MaterialDomain.TransmissiveAlphaBlended) →
      (call.materialBindings.GetMaterialBindingSet call.material = none →
        (self.setupMaterial call).ret = false)
      ∧ (∀ b, call.materialBindings.GetMaterialBindingSet call.material = some b →
        (self.setupMaterial call).lookup
          = some ((call.context.keyTemplate.setCullMode call.cullMode).setAlphaTested
              false).value
        ∧ ((self.setupMaterial call).ret = true
          ↔ ((self.m_Pipelines ((call.context.keyTemplate.setCullMode
                call.cullMode).setAlphaTested false).value).isSome = true
            ∨ (call.dev.createGraphicsPipeline
                (self.pipelineDesc call.materialBindings
                  ((call.context.keyTemplate.setCullMode call.cullMode).setAlphaTested false))
                call.state.framebuffer).isSome = true))))
    ∧ (call.material.domain ≥ MaterialDomain.Count → (self.setupMaterial call).ret = false) := by
  constructor
  · intro hd
    have hlt : call.material.domain < MaterialDomain.Count := by
      rcases hd with h | h | h | h <;> rw [h] <;> decide
    have hdec : decide (call.material.domain = MaterialDomain.AlphaTested) = false := by
      rcases hd with h | h | h | h <;> rw [h] <;> decide
    constructor
    · intro hn
      cases hl : (self.setupMaterial call).lookup with
      | none => exact (GBufferFillPass.gbuffer_setupMaterial_no_lookup self call hl).1
      | some k =>
        obtain ⟨b, hb, -⟩ := GBufferFillPass.gbuffer_setupMaterial_key self call k hl
        rw [hn] at hb; cases hb
    · intro b hb
      have hl := GBufferFillPass.gbuffer_setupMaterial_lookup self call b hlt hb
      rw [hdec] at hl
      exact ⟨hl, GBufferFillPass.gbuffer_setupMaterial_ret_iff self call _ hl⟩
  · intro hge
    cases hl : (self.setupMaterial call).lookup with
    | none => exact (GBufferFillPass.gbuffer_setupMaterial_no_lookup self call hl).1
    | some k =>
      obtain ⟨b, -, hlt, -⟩ := GBufferFillPass.gbuffer_setupMaterial_key self call k hl
      exact absurd hlt (Nat.not_lt_of_le hge)

/-- C10 on the sample G-buffer fill pass with an alpha-blended material: the call reads
the slot of key 0, which is the key of an opaque material, and returns true. -/
theorem C10_gbuffer_accepts_blended_and_transmissive_witness :
    (Sample.gbufferPass.setupMaterial
        { Sample.gbufferCall with material := Sample.alphaBlendedMaterial }).lookup = some 0
    ∧ (Sample.gbufferPass.setupMaterial Sample.gbufferCall).lookup = some 0
    ∧ (Sample.gbufferPass.setupMaterial
        { Sample.gbufferCall with material := Sample.alphaBlendedMaterial }).ret = true :=
  ⟨(((C10_gbuffer_accepts_blended_and_transmissive Sample.gbufferPass
        { Sample.gbufferCall with material := Sample.alphaBlendedMaterial }).1
        (Or.inl rfl)).2 41 rfl).1,
    rfl,
    (((C10_gbuffer_accepts_blended_and_transmissive Sample.gbufferPass
        { Sample.gbufferCall with material := Sample.alphaBlendedMaterial }).1
        (Or.inl rfl)).2 41 rfl).2.mpr (Or.inr rfl)⟩

/-- The claim of C10 as stated fails: for an alpha-blended material with an available
binding set the G-buffer fill pass returns true, and it does so for the three
transmissive domains as well. -/
theorem C10_counterexample_blended_accepted :
    (Sample.gbufferPass.setupMaterial
        { Sample.gbufferCall with material := Sample.alphaBlendedMaterial }).ret = true
    ∧ (Sample.gbufferPass.setupMaterial
        { Sample.gbufferCall with
          material := { Sample.alphaBlendedMaterial with
            domain := MaterialDomain.Transmissive } }).ret = true
    ∧ (Sample.gbufferPass.setupMaterial
        { Sample.gbufferCall with
          material := { Sample.alphaBlendedMaterial with
            domain := MaterialDomain.TransmissiveAlphaTested } }).ret = true
    ∧ (Sample.gbufferPass.setupMaterial
        { Sample.gbufferCall with
          material := { Sample.alphaBlendedMaterial with
            domain := MaterialDomain.TransmissiveAlphaBlended } }).ret = true := by
  decide

end RejectedDomains

/-! ## C7 and C9: the descriptor a returned pipeline was created from -/

section CreatedFrom

theorem GBufferFillPass.PipelineKey.gbuffer_key_mk_value (k : GBufferFillPass.PipelineKey) :
    (⟨k.value⟩ : GBufferFillPass.PipelineKey) = k := rfl

theorem ForwardShadingPass.PipelineKey.forward_key_mk_value (k : ForwardShadingPass.PipelineKey) :
    (⟨k.value⟩ : ForwardShadingPass.PipelineKey) = k := rfl

/-- On a depth pass whose table satisfies the invariant, a call that returns true hands
out a pipeline that a recorded device call returned for the key of the slot read, for
the descriptor the pass assembles for that key. -/
theorem DepthPass.depth_setupMaterial_created_from (s : DepthPass)
    (call : MaterialCall DepthPass.Context) (hi : s.TableInv)
    (hr : (s.setupMaterial call).ret = true) :
    ∃ k p e, (s.setupMaterial call).lookup = some k
      ∧ (s.setupMaterial call).state.pipeline = some p
      ∧ e ∈ (s.setupMaterial call).pass.deviceLog ∧ e.result = some p
      ∧ ∃ mb, e.desc = s.pipelineDesc mb ⟨k⟩ := by
  obtain ⟨k, p, hl, hp, hslot⟩ := DepthPass.depth_setupMaterial_ret_true s call hr
  have hinv := DepthPass.depth_step_tableInv s (DepthPass.Op.setupMaterial call) hi
  obtain ⟨e, he, -, hres, mb, hd⟩ := hinv k p hslot
  refine ⟨k, p, e, hl, hp, he, hres, mb, ?_⟩
  rw [hd]
  rcases DepthPass.depth_step_table s (DepthPass.Op.setupMaterial call) with ⟨-, -, h⟩ | ⟨_, _, _, -, -, -, -, -, -, -, h⟩
  · exact h mb ⟨k⟩
  · exact h mb ⟨k⟩

/-- The counterpart of `DepthPass.depth_setupMaterial_created_from` for the G-buffer fill
pass. -/
theorem GBufferFillPass.gbuffer_setupMaterial_created_from (s : GBufferFillPass)
    (call : MaterialCall GBufferFillPass.Context) (hi : s.TableInv)
    (hr : (s.setupMaterial call).ret = true) :
    ∃ k p e, (s.setupMaterial call).lookup = some k
      ∧ (s.setupMaterial call).state.pipeline = some p
      ∧ e ∈ (s.setupMaterial call).pass.deviceLog ∧ e.result = some p
      ∧ ∃ mb, e.desc = s.pipelineDesc mb ⟨k⟩ := by
  obtain ⟨k, p, hl, hp, hslot⟩ := GBufferFillPass.gbuffer_setupMaterial_ret_true s call hr
  have hinv := GBufferFillPass.gbuffer_step_tableInv s (GBufferFillPass.Op.setupMaterial call) hi
  obtain ⟨e, he, -, hres, mb, hd⟩ := hinv k p hslot
  refine ⟨k, p, e, hl, hp, he, hres, mb, ?_⟩
  rw [hd]
  rcases GBufferFillPass.gbuffer_step_table s (GBufferFillPass.Op.setupMaterial call) with
    ⟨-, -, h⟩ | ⟨_, _, _, -, -, -, -, -, -, -, h⟩
  · exact h mb ⟨k⟩
  · exact h mb ⟨k⟩

/-- The counterpart of `DepthPass.depth_setupMaterial_created_from` for the forward pass. -/
theorem ForwardShadingPass.forward_setupMaterial_created_from (s : ForwardShadingPass)
    (call : MaterialCall ForwardShadingPass.Context) (hi : s.TableInv)
    (hr : (s.setupMaterial call).ret = true) :
    ∃ k p e, (s.setupMaterial call).lookup = some k
      ∧ (s.setupMaterial call).state.pipeline = some p
      ∧ e ∈ (s.setupMaterial call).pass.deviceLog ∧ e.result = some p
      ∧ ∃ mb fb, s.pipelineDesc mb ⟨k⟩ fb = some e.desc := by
  obtain ⟨k, p, hl, hp, hslot⟩ := ForwardShadingPass.forward_setupMaterial_ret_true s call hr
  have hinv :=
    ForwardShadingPass.forward_step_tableInv s (ForwardShadingPass.Op.setupMaterial call) hi
  obtain ⟨e, he, -, hres, mb, fb, hd⟩ := hinv k p hslot
  refine ⟨k, p, e, hl, hp, he, hres, mb, fb, ?_⟩
  rw [← hd]
  rcases ForwardShadingPass.forward_step_table s (ForwardShadingPass.Op.setupMaterial call) with
    ⟨-, -, h⟩ | ⟨_, _, _, -, -, -, -, -, -, -, h⟩
  · exact (congrFun (h mb ⟨k⟩) fb).symm
  · exact (congrFun (h mb ⟨k⟩) fb).symm

/-- The depth function in a descriptor of the G-buffer fill pass is the one of the key,
with or without a stencil mask. -/
theorem GBufferFillPass.gbuffer_pipelineDesc_depthFunc (s : GBufferFillPass)
    (mb : MaterialBindingCache) (key : GBufferFillPass.PipelineKey) :
    (s.pipelineDesc mb key).renderState.depthStencilState.depthFunc
      = (if key.reverseDepth then ComparisonFunc.GreaterOrEqual
         else ComparisonFunc.LessOrEqual) := by
  unfold GBufferFillPass.pipelineDesc
  dsimp only
  split <;> rfl

/-- The depth function and the winding in a descriptor of the forward pass are the ones
of the key. -/
theorem ForwardShadingPass.forward_pipelineDesc_depth_and_winding (s : ForwardShadingPass)
    (mb : MaterialBindingCache) (key : ForwardShadingPass.PipelineKey) (fb : Framebuffer)
    (desc : GraphicsPipelineDesc) (h : s.pipelineDesc mb key fb = some desc) :
    desc.renderState.depthStencilState.depthFunc
        = (if key.reverseDepth then ComparisonFunc.GreaterOrEqual
           else ComparisonFunc.LessOrEqual)
      ∧ desc.renderState.rasterState.frontCounterClockwise = key.frontCounterClockwise := by
  revert h
  unfold ForwardShadingPass.pipelineDesc
  dsimp only
  repeat' split
  all_goals
    intro h
    first
      | (cases h; done)
      | (simp only [Option.some.injEq] at h; subst h; exact ⟨rfl, rfl⟩)

/-- C7: for each of the three passes, started freshly constructed and after any calls:
when `SetupMaterial` returns true for a context whose key template was written by
`SetupView(context, v)`, the pipeline it puts into the graphics state, freshly built or
taken from the table, was returned by a recorded `createGraphicsPipeline` call whose
descriptor has `depthFunc` GreaterOrEqual when `v.IsReverseDepth()` and LessOrEqual
otherwise, and `frontCounterClockwise` equal to `v.IsMirrored()`. -/
theorem C7_pipeline_depth_func_and_winding_follow_view :
    (∀ (self : DepthPass) (ops : List DepthPass.Op) (context : DepthPass.Context) (v : View)
        (call : MaterialCall DepthPass.Context),
        self.Fresh →
        call.context.keyTemplate = ((self.run ops).SetupView context v).1.keyTemplate →
        ((self.run ops).setupMaterial call).ret = true →
        ∃ e ∈ ((self.run ops).setupMaterial call).pass.deviceLog,
          e.result = ((self.run ops).setupMaterial call).state.pipeline
          ∧ e.result ≠ none
          ∧ e.desc.renderState.depthStencilState.depthFunc
              = (if v.IsReverseDepth then ComparisonFunc.GreaterOrEqual
                 else ComparisonFunc.LessOrEqual)
          ∧ e.desc.renderState.rasterState.frontCounterClockwise = v.IsMirrored)
    ∧ (∀ (self : GBufferFillPass) (ops : List GBufferFillPass.Op)
        (context : GBufferFillPass.Context) (v vPrev : View)
        (call : MaterialCall GBufferFillPass.Context),
        self.Fresh →
        call.context.keyTemplate
          = ((self.run ops).SetupView context v vPrev).1.keyTemplate →
        ((self.run ops).setupMaterial call).ret = true →
        ∃ e ∈ ((self.run ops).setupMaterial call).pass.deviceLog,
          e.result = ((self.run ops).setupMaterial call).state.pipeline
          ∧ e.result ≠ none
          ∧ e.desc.renderState.depthStencilState.depthFunc
              = (if v.IsReverseDepth then ComparisonFunc.GreaterOrEqual
                 else ComparisonFunc.LessOrEqual)
          ∧ e.desc.renderState.rasterState.frontCounterClockwise = v.IsMirrored)
    ∧ (∀ (self : ForwardShadingPass) (ops : List ForwardShadingPass.Op)
        (context : ForwardShadingPass.Context) (v : View)
        (call : MaterialCall ForwardShadingPass.Context),
        self.Fresh →
        call.context.keyTemplate = ((self.run ops).SetupView context v).1.keyTemplate →
        ((self.run ops).setupMaterial call).ret = true →
        ∃ e ∈ ((self.run ops).setupMaterial call).pass.deviceLog,
          e.result = ((self.run ops).setupMaterial call).state.pipeline
          ∧ e.result ≠ none
          ∧ e.desc.renderState.depthStencilState.depthFunc
              = (if v.IsReverseDepth then ComparisonFunc.GreaterOrEqual
                 else ComparisonFunc.LessOrEqual)
          ∧ e.desc.renderState.rasterState.frontCounterClockwise = v.IsMirrored) := by
  refine ⟨?_, ?_, ?_⟩
  · intro self ops context v call hf hctx hr
    have hi := DepthPass.depth_run_tableInv ops self (DepthPass.depth_fresh_tableInv self hf)
    obtain ⟨k, p, e, hl, hp, he, hres, mb, hd⟩ :=
      DepthPass.depth_setupMaterial_created_from _ call hi hr
    refine ⟨e, he, by rw [hres, hp], by rw [hres]; simp, ?_, ?_⟩
    · rw [hd]
      show (if (⟨k⟩ : DepthPass.PipelineKey).reverseDepth then ComparisonFunc.GreaterOrEqual
        else ComparisonFunc.LessOrEqual) = _
      rcases DepthPass.depth_setupMaterial_key _ call k hl with ⟨-, -, b, -, hk, -⟩ | ⟨-, hk, -⟩ <;>
        rw [hk, hctx] <;> simp [DepthPass.SetupView, GBufferFillPass.PipelineKey.gbuffer_key_mk_value]
    · rw [hd]
      show (⟨k⟩ : DepthPass.PipelineKey).frontCounterClockwise = _
      rcases DepthPass.depth_setupMaterial_key _ call k hl with ⟨-, -, b, -, hk, -⟩ | ⟨-, hk, -⟩ <;>
        rw [hk, hctx] <;> simp [DepthPass.SetupView, GBufferFillPass.PipelineKey.gbuffer_key_mk_value]
  · intro self ops context v vPrev call hf hctx hr
    have hi := GBufferFillPass.gbuffer_run_tableInv ops self (GBufferFillPass.gbuffer_fresh_tableInv self hf)
    obtain ⟨k, p, e, hl, hp, he, hres, mb, hd⟩ :=
      GBufferFillPass.gbuffer_setupMaterial_created_from _ call hi hr
    obtain ⟨b, -, -, hk, -⟩ := GBufferFillPass.gbuffer_setupMaterial_key _ call k hl
    refine ⟨e, he, by rw [hres, hp], by rw [hres]; simp, ?_, ?_⟩
    · rw [hd, GBufferFillPass.gbuffer_pipelineDesc_depthFunc, hk, hctx]
      simp [GBufferFillPass.SetupView, GBufferFillPass.PipelineKey.gbuffer_key_mk_value]
    · rw [hd]
      show (⟨k⟩ : GBufferFillPass.PipelineKey).frontCounterClockwise = _
      rw [hk, hctx]
      simp [GBufferFillPass.SetupView, GBufferFillPass.PipelineKey.gbuffer_key_mk_value]
  · intro self ops context v call hf hctx hr
    have hi :=
      ForwardShadingPass.forward_run_tableInv ops self (ForwardShadingPass.forward_fresh_tableInv self hf)
    obtain ⟨k, p, e, hl, hp, he, hres, mb, fb, hd⟩ :=
      ForwardShadingPass.forward_setupMaterial_created_from _ call hi hr
    obtain ⟨-, -, -, hk⟩ := ForwardShadingPass.forward_setupMaterial_key _ call k hl
    obtain ⟨h1, h2⟩ := ForwardShadingPass.forward_pipelineDesc_depth_and_winding _ mb ⟨k⟩ fb e.desc hd
    refine ⟨e, he, by rw [hres, hp], by rw [hres]; simp, ?_, ?_⟩
    · rw [h1, hk, hctx]
      simp [ForwardShadingPass.SetupView, ForwardShadingPass.PipelineKey.forward_key_mk_value]
    · rw [h2, hk, hctx]
      simp [ForwardShadingPass.SetupView, ForwardShadingPass.PipelineKey.forward_key_mk_value]

/-- C7 on the sample forward pass: after `SetupView` with a mirrored reverse-depth view
the call returns true, and the pipeline comes from a recorded device call whose
descriptor compares with GreaterOrEqual and winds counter-clockwise. -/
theorem C7_pipeline_depth_func_and_winding_follow_view_witness :
    ∃ e ∈ ((Sample.forwardPass.run []).setupMaterial
        { Sample.forwardCall with
          context := (Sample.forwardPass.SetupView {} Sample.view).1 }).pass.deviceLog,
      e.result = ((Sample.forwardPass.run []).setupMaterial
        { Sample.forwardCall with
          context := (Sample.forwardPass.SetupView {} Sample.view).1 }).state.pipeline
      ∧ e.result ≠ none
      ∧ e.desc.renderState.depthStencilState.depthFunc
          = (if Sample.view.IsReverseDepth then ComparisonFunc.GreaterOrEqual
             else ComparisonFunc.LessOrEqual)
      ∧ e.desc.renderState.rasterState.frontCounterClockwise = Sample.view.IsMirrored :=
  C7_pipeline_depth_func_and_winding_follow_view.2.2 Sample.forwardPass [] {} Sample.view
    { Sample.forwardCall with context := (Sample.forwardPass.SetupView {} Sample.view).1 }
    ⟨fun _ => rfl, fun _ => rfl, fun _ => rfl, rfl⟩ rfl rfl

end CreatedFrom

/-! ## C9: alpha-tested materials in the depth pass -/

section C9

/-- Whether a call of the depth pass that reads the slot `k` returns true: the slot
holds a pipeline, or the device returns one. -/
theorem DepthPass.depth_setupMaterial_ret_iff (self : DepthPass)
    (call : MaterialCall DepthPass.Context) (k : Nat)
    (hl : (self.setupMaterial call).lookup = some k) :
    (self.setupMaterial call).ret = true
      ↔ ((self.m_Pipelines k).isSome = true
        ∨ (call.dev.createGraphicsPipeline (self.pipelineDesc call.materialBindings ⟨k⟩)
            call.state.framebuffer).isSome = true) := by
  cases hs : self.m_Pipelines k with
  | some p =>
    rw [(DepthPass.depth_setupMaterial_hit self call k p hs hl).1]
    simp
  | none =>
    obtain ⟨e, -, -, hd, hf, hr, hret, -⟩ := DepthPass.depth_setupMaterial_miss self call k hs hl
    rw [hret, hr, hd, hf]
    simp

/-- C9 (as amended): `DepthPass::SetupMaterial` on a pass started freshly constructed,
after any calls, for a material of domain AlphaTested. If the material binding set is
unavailable the call returns false. If the material has neither an enabled, loaded base
or diffuse texture nor an enabled, loaded opacity texture the call returns false as
well. If it has one, the material binding cache returns a binding set, and the pipeline
of the key is in the table or the device creates it, the call returns true with the
material binding set in `state.bindings` and with a pipeline that a recorded device
call returned for a descriptor whose pixel shader is the pixel shader of the pass. -/
theorem C9_depth_alpha_tested (self : DepthPass) (ops : List DepthPass.Op)
    (call : MaterialCall DepthPass.Context) (hf : self.Fresh)
    (hd : call.material.domain = MaterialDomain.AlphaTested) :
    (call.materialBindings.GetMaterialBindingSet call.material = none →
      ((self.run ops).setupMaterial call).ret = false)
    ∧ (¬ (DepthPass.hasTexture call.material.baseOrDiffuseTexture
            call.material.enableBaseOrDiffuseTexture = true
          ∨ DepthPass.hasTexture call.material.opacityTexture
            call.material.enableOpacityTexture = true) →
      ((self.run ops).setupMaterial call).ret = false)
    ∧ ((DepthPass.hasTexture call.material.baseOrDiffuseTexture
            call.material.enableBaseOrDiffuseTexture = true
          ∨ DepthPass.hasTexture call.material.opacityTexture
            call.material.enableOpacityTexture = true) →
      ∀ b, call.materialBindings.GetMaterialBindingSet call.material = some b →
      (((self.run ops).m_Pipelines ((call.context.keyTemplate.setCullMode
            call.cullMode).setAlphaTested true).value).isSome = true
        ∨ (call.dev.createGraphicsPipeline
            ((self.run ops).pipelineDesc call.materialBindings
              ((call.context.keyTemplate.setCullMode call.cullMode).setAlphaTested true))
            call.state.framebuffer).isSome = true) →
      ((self.run ops).setupMaterial call).ret = true
      ∧ some b ∈ ((self.run ops).setupMaterial call).state.bindings
      ∧ ∃ e ∈ ((self.run ops).setupMaterial call).pass.deviceLog,
          e.result = ((self.run ops).setupMaterial call).state.pipeline
          ∧ e.result ≠ none
          ∧ e.desc.PS = (self.run ops).m_PixelShader) := by
  refine ⟨?_, ?_, ?_⟩
  · intro hn
    exact (DepthPass.depth_setupMaterial_no_lookup _ call
      (DepthPass.depth_setupMaterial_lookup_alphaTested_none _ call hd (Or.inr hn))).1
  · intro hn
    exact (DepthPass.depth_setupMaterial_no_lookup _ call
      (DepthPass.depth_setupMaterial_lookup_alphaTested_none _ call hd (Or.inl hn))).1
  · intro ht b hb hav
    have hl := DepthPass.depth_setupMaterial_lookup_alphaTested (self.run ops) call b hd ht hb
    have hr : ((self.run ops).setupMaterial call).ret = true :=
      (DepthPass.depth_setupMaterial_ret_iff _ call _ hl).mpr hav
    refine ⟨hr, ?_, ?_⟩
    · rcases DepthPass.depth_setupMaterial_key _ call _ hl with ⟨-, -, b2, hb2, -, hbind⟩ | ⟨ho, -⟩
      · rw [hb] at hb2
        cases hb2
        rw [hbind]
        simp
      · rw [hd] at ho; cases ho
    · have hi := DepthPass.depth_run_tableInv ops self (DepthPass.depth_fresh_tableInv self hf)
      obtain ⟨k, p, e, hl2, hp, he, hres, mb, hdesc⟩ :=
        DepthPass.depth_setupMaterial_created_from _ call hi hr
      rw [hl] at hl2
      simp only [Option.some.injEq] at hl2
      refine ⟨e, he, by rw [hres, hp], by rw [hres]; simp, ?_⟩
      rw [hdesc, ← hl2]
      show (if (⟨((call.context.keyTemplate.setCullMode call.cullMode).setAlphaTested
        true).value⟩ : DepthPass.PipelineKey).alphaTested then (self.run ops).m_PixelShader
        else none) = _
      simp [GBufferFillPass.PipelineKey.gbuffer_key_mk_value]

/-- C9 on the sample depth pass with the textured alpha-tested material: the call
returns true, the material binding set 41 is among the bindings, and the pipeline comes
from a device call whose descriptor has the pixel shader of the pass. -/
theorem C9_depth_alpha_tested_witness :
    ((Sample.depthPass.run []).setupMaterial
        { Sample.depthCall with material := Sample.alphaTestedMaterial }).ret = true
    ∧ some 41 ∈ ((Sample.depthPass.run []).setupMaterial
        { Sample.depthCall with material := Sample.alphaTestedMaterial }).state.bindings
    ∧ ∃ e ∈ ((Sample.depthPass.run []).setupMaterial
        { Sample.depthCall with material := Sample.alphaTestedMaterial }).pass.deviceLog,
        e.result = ((Sample.depthPass.run []).setupMaterial
          { Sample.depthCall with material := Sample.alphaTestedMaterial }).state.pipeline
        ∧ e.result ≠ none
        ∧ e.desc.PS = (Sample.depthPass.run []).m_PixelShader :=
  (C9_depth_alpha_tested Sample.depthPass []
    { Sample.depthCall with material := Sample.alphaTestedMaterial }
    ⟨fun _ => rfl, fun _ => rfl, rfl⟩ rfl).2.2 (Or.inl rfl) 41 rfl (Or.inr rfl)

/-- The claim of C9 as stated fails: for an alpha-tested material without a base or
opacity texture the material binding cache returns a binding set and the device would
create the pipeline, and the call returns false. -/
theorem C9_counterexample_untextured_alpha_tested :
    Sample.alphaTestedUntextured.domain = MaterialDomain.AlphaTested
    ∧ Sample.cache.GetMaterialBindingSet Sample.alphaTestedUntextured = some 41
    ∧ Sample.workingDevice.createGraphicsPipeline
        (Sample.depthPass.pipelineDesc Sample.cache
          (((⟨0⟩ : DepthPass.PipelineKey).setCullMode RasterCullMode.Back).setAlphaTested true))
        Sample.framebuffer = some 7
    ∧ (Sample.depthPass.setupMaterial
        { Sample.depthCall with material := Sample.alphaTestedUntextured }).ret = false := by
  decide

end C9

/-! ## C6: the bindings follow the binding layouts -/

section C6

/-- The binding layouts in a descriptor of the forward pass. -/
theorem ForwardShadingPass.forward_pipelineDesc_bindingLayouts (s : ForwardShadingPass)
    (mb : MaterialBindingCache) (key : ForwardShadingPass.PipelineKey) (fb : Framebuffer)
    (desc : GraphicsPipelineDesc) (h : s.pipelineDesc mb key fb = some desc) :
    desc.bindingLayouts
      = [mb.GetLayout, s.m_ViewBindingLayout, s.m_ShadingBindingLayout]
        ++ (if !s.m_UseInputAssembler then [s.m_InputBindingLayout] else []) := by
  revert h
  unfold ForwardShadingPass.pipelineDesc
  dsimp only
  repeat' split
  all_goals
    intro h
    first
      | (cases h; done)
      | (simp only [Option.some.injEq] at h; subst h; simp_all)

/-- C6: for each of the three passes, every pass state (both vertex-input modes) and
every call: when `SetupMaterial` returns true it has read the slot of a key, and
`state.bindings` and the `bindingLayouts` of the descriptor that `CreateGraphicsPipeline`
assembles for that key list the same kinds in the same order, each binding set and each
layout being the one of its kind: view, material only when alpha-tested, input for the
depth pass; material, view, input for the G-buffer fill pass; material, view, shading,
input for the forward pass; the input slot only without the input assembler. So the two
lists have the same length. -/
theorem C6_bindings_follow_binding_layouts :
    (∀ (self : DepthPass) (call : MaterialCall DepthPass.Context),
        (self.setupMaterial call).ret = true →
        ∃ key : DepthPass.PipelineKey,
          (self.setupMaterial call).lookup = some key.value
          ∧ (self.setupMaterial call).state.bindings
              = (DepthPass.slotOrder key.alphaTested self.m_UseInputAssembler).map
                  (self.bindingSetOf call)
          ∧ (self.pipelineDesc call.materialBindings key).bindingLayouts
              = (DepthPass.slotOrder key.alphaTested self.m_UseInputAssembler).map
                  (self.layoutOf call.materialBindings)
          ∧ (self.setupMaterial call).state.bindings.length
              = (self.pipelineDesc call.materialBindings key).bindingLayouts.length)
    ∧ (∀ (self : GBufferFillPass) (call : MaterialCall GBufferFillPass.Context),
        (self.setupMaterial call).ret = true →
        ∃ key : GBufferFillPass.PipelineKey,
          (self.setupMaterial call).lookup = some key.value
          ∧ (self.setupMaterial call).state.bindings
              = (GBufferFillPass.slotOrder self.m_UseInputAssembler).map
                  (self.bindingSetOf call)
          ∧ (self.pipelineDesc call.materialBindings key).bindingLayouts
              = (GBufferFillPass.slotOrder self.m_UseInputAssembler).map
                  (self.layoutOf call.materialBindings)
          ∧ (self.setupMaterial call).state.bindings.length
              = (self.pipelineDesc call.materialBindings key).bindingLayouts.length)
    ∧ (∀ (self : ForwardShadingPass) (call : MaterialCall ForwardShadingPass.Context),
        (self.setupMaterial call).ret = true →
        ∃ (key : ForwardShadingPass.PipelineKey) (desc : GraphicsPipelineDesc),
          (self.setupMaterial call).lookup = some key.value
          ∧ self.pipelineDesc call.materialBindings key call.state.framebuffer = some desc
          ∧ (self.setupMaterial call).state.bindings
              = (ForwardShadingPass.slotOrder self.m_UseInputAssembler).map
                  (self.bindingSetOf call)
          ∧ desc.bindingLayouts
              = (ForwardShadingPass.slotOrder self.m_UseInputAssembler).map
                  (self.layoutOf call.materialBindings)
          ∧ (self.setupMaterial call).state.bindings.length = desc.bindingLayouts.length) := by
  refine ⟨?_, ?_, ?_⟩
  · intro self call hr
    obtain ⟨k, p, hl, -, -⟩ := DepthPass.depth_setupMaterial_ret_true self call hr
    have hb : (self.setupMaterial call).state.bindings
          = (DepthPass.slotOrder (⟨k⟩ : DepthPass.PipelineKey).alphaTested
              self.m_UseInputAssembler).map (self.bindingSetOf call)
        ∧ (self.pipelineDesc call.materialBindings ⟨k⟩).bindingLayouts
          = (DepthPass.slotOrder (⟨k⟩ : DepthPass.PipelineKey).alphaTested
              self.m_UseInputAssembler).map (self.layoutOf call.materialBindings) := by
      rcases DepthPass.depth_setupMaterial_key self call k hl with
        ⟨-, -, b, hb, hk, hbind⟩ | ⟨-, hk, hbind⟩
      · rw [hbind, hk]
        cases hia : self.m_UseInputAssembler <;>
          simp [DepthPass.slotOrder, DepthPass.bindingSetOf, DepthPass.layoutOf,
            DepthPass.pipelineDesc, GBufferFillPass.PipelineKey.gbuffer_key_mk_value, hb, hia]
      · rw [hbind, hk]
        cases hia : self.m_UseInputAssembler <;>
          simp [DepthPass.slotOrder, DepthPass.bindingSetOf, DepthPass.layoutOf,
            DepthPass.pipelineDesc, GBufferFillPass.PipelineKey.gbuffer_key_mk_value, hia]
    refine ⟨⟨k⟩, hl, hb.1, hb.2, ?_⟩
    rw [hb.1, hb.2, List.length_map, List.length_map]
  · intro self call hr
    obtain ⟨k, p, hl, -, -⟩ := GBufferFillPass.gbuffer_setupMaterial_ret_true self call hr
    obtain ⟨b, hb, -, -, hbind⟩ := GBufferFillPass.gbuffer_setupMaterial_key self call k hl
    have h : (self.setupMaterial call).state.bindings
          = (GBufferFillPass.slotOrder self.m_UseInputAssembler).map (self.bindingSetOf call)
        ∧ (self.pipelineDesc call.materialBindings ⟨k⟩).bindingLayouts
          = (GBufferFillPass.slotOrder self.m_UseInputAssembler).map
              (self.layoutOf call.materialBindings) := by
      rw [hbind hr]
      cases hia : self.m_UseInputAssembler <;>
        simp [GBufferFillPass.slotOrder, GBufferFillPass.bindingSetOf,
          GBufferFillPass.layoutOf, GBufferFillPass.pipelineDesc, hb, hia]
    refine ⟨⟨k⟩, hl, h.1, h.2, ?_⟩
    rw [h.1, h.2, List.length_map, List.length_map]
  · intro self call hr
    obtain ⟨k, p, hl, -, -⟩ := ForwardShadingPass.forward_setupMaterial_ret_true self call hr
    obtain ⟨⟨b, hb, hbind⟩, hd, -, hk⟩ := ForwardShadingPass.forward_setupMaterial_key self call k hl
    have hdom : (⟨k⟩ : ForwardShadingPass.PipelineKey).domain < MaterialDomain.Count := by
      rw [hk]
      show ((call.context.keyTemplate.setCullMode call.cullMode).setDomain
        call.material.domain).domain < MaterialDomain.Count
      rw [ForwardShadingPass.PipelineKey.forward_key_domain_setDomain]
      have h6 : call.material.domain < 6 := hd
      show call.material.domain % 8 < 6
      omega
    obtain ⟨desc, hdesc⟩ := ForwardShadingPass.forward_pipelineDesc_isSome self call.materialBindings
      ⟨k⟩ call.state.framebuffer hdom
    have hlay := ForwardShadingPass.forward_pipelineDesc_bindingLayouts self call.materialBindings
      ⟨k⟩ call.state.framebuffer desc hdesc
    have h : (self.setupMaterial call).state.bindings
          = (ForwardShadingPass.slotOrder self.m_UseInputAssembler).map
              (self.bindingSetOf call)
        ∧ desc.bindingLayouts
          = (ForwardShadingPass.slotOrder self.m_UseInputAssembler).map
              (self.layoutOf call.materialBindings) := by
      rw [hbind hr, hlay]
      cases hia : self.m_UseInputAssembler <;>
        simp [ForwardShadingPass.slotOrder, ForwardShadingPass.bindingSetOf,
          ForwardShadingPass.layoutOf, hb]
    refine ⟨⟨k⟩, desc, hl, hdesc, h.1, h.2, ?_⟩
    rw [h.1, h.2, List.length_map, List.length_map]

/-- C6 on the sample depth pass with the textured alpha-tested material, without the
input assembler: the call returns true with three bindings, view, material, input, and
the descriptor of its key has the three layouts of these kinds. -/
theorem C6_bindings_follow_binding_layouts_witness :
    (Sample.depthPass.setupMaterial
        { Sample.depthCall with material := Sample.alphaTestedMaterial }).state.bindings
      = [some 22, some 41, none]
    ∧ ∃ key : DepthPass.PipelineKey,
      (Sample.depthPass.setupMaterial
          { Sample.depthCall with material := Sample.alphaTestedMaterial }).lookup
        = some key.value
      ∧ (Sample.depthPass.setupMaterial
          { Sample.depthCall with material := Sample.alphaTestedMaterial }).state.bindings
        = (DepthPass.slotOrder key.alphaTested Sample.depthPass.m_UseInputAssembler).map
            (Sample.depthPass.bindingSetOf
              { Sample.depthCall with material := Sample.alphaTestedMaterial })
      ∧ (Sample.depthPass.pipelineDesc Sample.cache key).bindingLayouts
        = (DepthPass.slotOrder key.alphaTested Sample.depthPass.m_UseInputAssembler).map
            (Sample.depthPass.layoutOf Sample.cache)
      ∧ (Sample.depthPass.setupMaterial
          { Sample.depthCall with material := Sample.alphaTestedMaterial }).state.bindings.length
        = (Sample.depthPass.pipelineDesc Sample.cache key).bindingLayouts.length :=
  ⟨rfl, C6_bindings_follow_binding_layouts.1 Sample.depthPass
    { Sample.depthCall with material := Sample.alphaTestedMaterial } rfl⟩

end C6

/-! ## C5: the binding-set caches -/

section BindingSetCaches

namespace DepthPass

theorem depth_GetOrCreateInputBindingSet_entry (self : DepthPass) (dev : Device) (bg : BufferGroup) :
    (self.GetOrCreateInputBindingSet dev bg).1.m_InputBindingSets bg.ptr
      = some (self.GetOrCreateInputBindingSet dev bg).2 := by
  unfold GetOrCreateInputBindingSet
  split
  · simp [mapInsert]
  · rename_i h
    exact h

theorem depth_GetOrCreateInputBindingSet_hit (self : DepthPass) (dev : Device) (bg : BufferGroup)
    (h : Handle) (he : self.m_InputBindingSets bg.ptr = some h) :
    (self.GetOrCreateInputBindingSet dev bg).2 = h := by
  unfold GetOrCreateInputBindingSet
  rw [he]

theorem depth_GetOrCreateInputBindingSet_keeps (self : DepthPass) (dev : Device) (bg : BufferGroup)
    (b : Nat) (h : Handle) (he : self.m_InputBindingSets b = some h) :
    (self.GetOrCreateInputBindingSet dev bg).1.m_InputBindingSets b = some h := by
  unfold GetOrCreateInputBindingSet
  split
  · rename_i hn
    have hne : b ≠ bg.ptr := by
      intro hb; rw [hb, hn] at he; cases he
    simp [mapInsert, hne, he]
  · exact he

theorem depth_setupMaterial_input_cache (self : DepthPass) (call : MaterialCall Context) :
    (self.setupMaterial call).pass.m_InputBindingSets = self.m_InputBindingSets := by
  cases hl : (self.setupMaterial call).lookup with
  | none => rw [(depth_setupMaterial_no_lookup self call hl).2.2]
  | some k =>
    cases hs : self.m_Pipelines k with
    | some p => rw [(depth_setupMaterial_hit self call k p hs hl).2.2]
    | none =>
      obtain ⟨e, he, -⟩ := depth_setupMaterial_miss self call k hs hl
      rw [he]

/-- No call other than `ResetBindingCache` removes or replaces an entry of the input
binding-set cache. -/
theorem depth_step_input_entry (self : DepthPass) (op : Op) (b : Nat) (h : Handle)
    (hr : op.isReset = false) (he : self.m_InputBindingSets b = some h) :
    (self.step op).m_InputBindingSets b = some h := by
  cases op with
  | setupMaterial call =>
    show (self.setupMaterial call).pass.m_InputBindingSets b = some h
    rw [depth_setupMaterial_input_cache]
    exact he
  | setupInputBuffers dev context buffers state =>
    show (self.SetupInputBuffers dev context buffers state).1.m_InputBindingSets b = some h
    unfold SetupInputBuffers
    dsimp only
    split
    · exact he
    · exact depth_GetOrCreateInputBindingSet_keeps self dev buffers b h he
  | resetBindingCache => cases hr

theorem depth_run_input_entry (ops : List Op) (self : DepthPass) (b : Nat) (h : Handle)
    (hr : ∀ op ∈ ops, op.isReset = false) (he : self.m_InputBindingSets b = some h) :
    (self.run ops).m_InputBindingSets b = some h := by
  induction ops generalizing self with
  | nil => exact he
  | cons op rest ih =>
    exact ih (self.step op) (fun o ho => hr o (List.mem_cons_of_mem _ ho))
      (depth_step_input_entry self op b h (hr op (List.mem_cons_self _ _)) he)

/-- Two lookups of the input binding-set cache with the same buffer group address, with
no `ResetBindingCache` in between, return the same handle. -/
theorem depth_input_lookup_stable (self : DepthPass) (dev1 dev2 : Device) (bg1 bg2 : BufferGroup)
    (between : List Op) (hr : ∀ op ∈ between, op.isReset = false)
    (hp : bg2.ptr = bg1.ptr) :
    (((self.GetOrCreateInputBindingSet dev1 bg1).1.run between).GetOrCreateInputBindingSet
        dev2 bg2).2
      = (self.GetOrCreateInputBindingSet dev1 bg1).2 := by
  apply depth_GetOrCreateInputBindingSet_hit
  rw [hp]
  exact depth_run_input_entry between _ _ _ hr (depth_GetOrCreateInputBindingSet_entry self dev1 bg1)

end DepthPass

namespace GBufferFillPass

theorem gbuffer_GetOrCreateInputBindingSet_entry (self : GBufferFillPass) (dev : Device) (bg : BufferGroup) :
    (self.GetOrCreateInputBindingSet dev bg).1.m_InputBindingSets bg.ptr
      = some (self.GetOrCreateInputBindingSet dev bg).2 := by
  unfold GetOrCreateInputBindingSet
  split
  · simp [mapInsert]
  · rename_i h
    exact h

theorem gbuffer_GetOrCreateInputBindingSet_hit (self : GBufferFillPass) (dev : Device) (bg : BufferGroup)
    (h : Handle) (he : self.m_InputBindingSets bg.ptr = some h) :
    (self.GetOrCreateInputBindingSet dev bg).2 = h := by
  unfold GetOrCreateInputBindingSet
  rw [he]

theorem gbuffer_GetOrCreateInputBindingSet_keeps (self : GBufferFillPass) (dev : Device) (bg : BufferGroup)
    (b : Nat) (h : Handle) (he : self.m_InputBindingSets b = some h) :
    (self.GetOrCreateInputBindingSet dev bg).1.m_InputBindingSets b = some h := by
  unfold GetOrCreateInputBindingSet
  split
  · rename_i hn
    have hne : b ≠ bg.ptr := by
      intro hb; rw [hb, hn] at he; cases he
    simp [mapInsert, hne, he]
  · exact he

theorem gbuffer_setupMaterial_input_cache (self : GBufferFillPass) (call : MaterialCall Context) :
    (self.setupMaterial call).pass.m_InputBindingSets = self.m_InputBindingSets := by
  cases hl : (self.setupMaterial call).lookup with
  | none => rw [(gbuffer_setupMaterial_no_lookup self call hl).2.2]
  | some k =>
    cases hs : self.m_Pipelines k with
    | some p => rw [(gbuffer_setupMaterial_hit self call k p hs hl).2.2]
    | none =>
      obtain ⟨e, he, -⟩ := gbuffer_setupMaterial_miss self call k hs hl
      rw [he]

/-- No call other than `ResetBindingCache` removes or replaces an entry of the input
binding-set cache. -/
theorem gbuffer_step_input_entry (self : GBufferFillPass) (op : Op) (b : Nat) (h : Handle)
    (hr : op.isReset = false) (he : self.m_InputBindingSets b = some h) :
    (self.step op).m_InputBindingSets b = some h := by
  cases op with
  | setupMaterial call =>
    show (self.setupMaterial call).pass.m_InputBindingSets b = some h
    rw [gbuffer_setupMaterial_input_cache]
    exact he
  | setupInputBuffers dev context buffers state =>
    show (self.SetupInputBuffers dev context buffers state).1.m_InputBindingSets b = some h
    unfold SetupInputBuffers
    dsimp only
    split
    · exact he
    · exact gbuffer_GetOrCreateInputBindingSet_keeps self dev buffers b h he
  | resetBindingCache => cases hr

theorem gbuffer_run_input_entry (ops : List Op) (self : GBufferFillPass) (b : Nat) (h : Handle)
    (hr : ∀ op ∈ ops, op.isReset = false) (he : self.m_InputBindingSets b = some h) :
    (self.run ops).m_InputBindingSets b = some h := by
  induction ops generalizing self with
  | nil => exact he
  | cons op rest ih =>
    exact ih (self.step op) (fun o ho => hr o (List.mem_cons_of_mem _ ho))
      (gbuffer_step_input_entry self op b h (hr op (List.mem_cons_self _ _)) he)

/-- Two lookups of the input binding-set cache with the same buffer group address, with
no `ResetBindingCache` in between, return the same handle. -/
theorem gbuffer_input_lookup_stable (self : GBufferFillPass) (dev1 dev2 : Device) (bg1 bg2 : BufferGroup)
    (between : List Op) (hr : ∀ op ∈ between, op.isReset = false)
    (hp : bg2.ptr = bg1.ptr) :
    (((self.GetOrCreateInputBindingSet dev1 bg1).1.run between).GetOrCreateInputBindingSet
        dev2 bg2).2
      = (self.GetOrCreateInputBindingSet dev1 bg1).2 := by
  apply gbuffer_GetOrCreateInputBindingSet_hit
  rw [hp]
  exact gbuffer_run_input_entry between _ _ _ hr (gbuffer_GetOrCreateInputBindingSet_entry self dev1 bg1)

end GBufferFillPass

namespace ForwardShadingPass

theorem forward_GetOrCreateInputBindingSet_entry (self : ForwardShadingPass) (dev : Device) (bg : BufferGroup) :
    (self.GetOrCreateInputBindingSet dev bg).1.m_InputBindingSets bg.ptr
      = some (self.GetOrCreateInputBindingSet dev bg).2 := by
  unfold GetOrCreateInputBindingSet
  split
  · simp [mapInsert]
  · rename_i h
    exact h

theorem forward_GetOrCreateInputBindingSet_hit (self : ForwardShadingPass) (dev : Device) (bg : BufferGroup)
    (h : Handle) (he : self.m_InputBindingSets bg.ptr = some h) :
    (self.GetOrCreateInputBindingSet dev bg).2 = h := by
  unfold GetOrCreateInputBindingSet
  rw [he]

theorem forward_GetOrCreateInputBindingSet_keeps (self : ForwardShadingPass) (dev : Device) (bg : BufferGroup)
    (b : Nat) (h : Handle) (he : self.m_InputBindingSets b = some h) :
    (self.GetOrCreateInputBindingSet dev bg).1.m_InputBindingSets b = some h := by
  unfold GetOrCreateInputBindingSet
  split
  · rename_i hn
    have hne : b ≠ bg.ptr := by
      intro hb; rw [hb, hn] at he; cases he
    simp [mapInsert, hne, he]
  · exact he

theorem forward_setupMaterial_input_cache (self : ForwardShadingPass) (call : MaterialCall Context) :
    (self.setupMaterial call).pass.m_InputBindingSets = self.m_InputBindingSets := by
  cases hl : (self.setupMaterial call).lookup with
  | none => rw [(forward_setupMaterial_no_lookup self call hl).2.2]
  | some k =>
    cases hs : self.m_Pipelines k with
    | some p => rw [(forward_setupMaterial_hit self call k p hs hl).2.2]
    | none =>
      obtain ⟨e, he, -⟩ := forward_setupMaterial_miss self call k hs hl
      rw [he]

theorem forward_setupMaterial_shading_cache (self : ForwardShadingPass) (call : MaterialCall Context) :
    (self.setupMaterial call).pass.m_ShadingBindingSets = self.m_ShadingBindingSets := by
  cases hl : (self.setupMaterial call).lookup with
  | none => rw [(forward_setupMaterial_no_lookup self call hl).2.2]
  | some k =>
    cases hs : self.m_Pipelines k with
    | some p => rw [(forward_setupMaterial_hit self call k p hs hl).2.2]
    | none =>
      obtain ⟨e, he, -⟩ := forward_setupMaterial_miss self call k hs hl
      rw [he]

/-- What `PrepareLights` does with the shading binding-set cache when the probes agree:
the entry of the key holds the handle stored into the context, and a non-null handle
found in the entry is the one returned. -/
theorem forward_PrepareLights_selected (self : ForwardShadingPass) (dev : Device) (context : Context)
    (lights : List Light) (lightProbes : List LightProbe) (d sp en : Handle)
    (hsel : selectProbeTextures lightProbes (none, none, none) = some (d, sp, en)) :
    (self.PrepareLights dev context lights lightProbes).loggedError = false
    ∧ (self.PrepareLights dev context lights lightProbes).pass.m_ShadingBindingSets
        (firstShadowMapTexture lights, d)
        = some (self.PrepareLights dev context lights lightProbes).context.shadingBindingSet
    ∧ (self.PrepareLights dev context lights lightProbes).pass.m_InputBindingSets
        = self.m_InputBindingSets
    ∧ (∀ t, t ≠ (firstShadowMapTexture lights, d) →
        (self.PrepareLights dev context lights lightProbes).pass.m_ShadingBindingSets t
          = self.m_ShadingBindingSets t)
    ∧ (∀ id, self.m_ShadingBindingSets (firstShadowMapTexture lights, d) = some (some id) →
        (self.PrepareLights dev context lights lightProbes).context.shadingBindingSet
          = some id) := by
  unfold PrepareLights
  dsimp only
  rw [hsel]
  dsimp only
  refine ⟨rfl, ?_, rfl, ?_, ?_⟩
  · simp [mapInsert]
  · intro t ht
    simp [mapInsert, ht]
  · intro id hid
    rw [hid]
    rfl

theorem forward_PrepareLights_error (self : ForwardShadingPass) (dev : Device) (context : Context)
    (lights : List Light) (lightProbes : List LightProbe)
    (hsel : selectProbeTextures lightProbes (none, none, none) = none) :
    (self.PrepareLights dev context lights lightProbes).loggedError = true
    ∧ (self.PrepareLights dev context lights lightProbes).pass = self
    ∧ (self.PrepareLights dev context lights lightProbes).context = context := by
  unfold PrepareLights
  dsimp only
  rw [hsel]
  exact ⟨rfl, rfl, rfl⟩

theorem forward_PrepareLights_input_cache (self : ForwardShadingPass) (dev : Device)
    (context : Context) (lights : List Light) (lightProbes : List LightProbe) :
    (self.PrepareLights dev context lights lightProbes).pass.m_InputBindingSets
      = self.m_InputBindingSets := by
  obtain ⟨m, hm⟩ := forward_PrepareLights_pass self dev context lights lightProbes
  rw [hm]

/-- No call other than `ResetBindingCache` removes an entry of the shading binding-set
cache that holds a non-null handle, or replaces the handle. -/
theorem forward_step_shading_entry (self : ForwardShadingPass) (op : Op) (t : Handle × Handle)
    (id : Nat) (hr : op.isReset = false)
    (he : self.m_ShadingBindingSets t = some (some id)) :
    (self.step op).m_ShadingBindingSets t = some (some id) := by
  cases op with
  | setupMaterial call =>
    show (self.setupMaterial call).pass.m_ShadingBindingSets t = some (some id)
    rw [forward_setupMaterial_shading_cache]
    exact he
  | setupInputBuffers dev context buffers state =>
    obtain ⟨m, hm⟩ := forward_SetupInputBuffers_pass self dev context buffers state
    show (self.SetupInputBuffers dev context buffers state).1.m_ShadingBindingSets t
      = some (some id)
    rw [hm]
    exact he
  | prepareLights dev context lights lightProbes =>
    show (self.PrepareLights dev context lights lightProbes).pass.m_ShadingBindingSets t
      = some (some id)
    cases hsel : selectProbeTextures lightProbes (none, none, none) with
    | none =>
      rw [(forward_PrepareLights_error self dev context lights lightProbes hsel).2.1]
      exact he
    | some sel =>
      obtain ⟨d, sp, en⟩ := sel
      obtain ⟨-, h2, -, h4, h5⟩ :=
        forward_PrepareLights_selected self dev context lights lightProbes d sp en hsel
      by_cases ht : t = (firstShadowMapTexture lights, d)
      · subst ht
        rw [h2, h5 id he]
      · rw [h4 t ht]
        exact he
  | resetBindingCache => cases hr

theorem forward_run_shading_entry (ops : List Op) (self : ForwardShadingPass) (t : Handle × Handle)
    (id : Nat) (hr : ∀ op ∈ ops, op.isReset = false)
    (he : self.m_ShadingBindingSets t = some (some id)) :
    (self.run ops).m_ShadingBindingSets t = some (some id) := by
  induction ops generalizing self with
  | nil => exact he
  | cons op rest ih =>
    exact ih (self.step op) (fun o ho => hr o (List.mem_cons_of_mem _ ho))
      (forward_step_shading_entry self op t id (hr op (List.mem_cons_self _ _)) he)

/-- No call other than `ResetBindingCache` removes or replaces an entry of the input
binding-set cache. -/
theorem forward_step_input_entry (self : ForwardShadingPass) (op : Op) (b : Nat) (h : Handle)
    (hr : op.isReset = false) (he : self.m_InputBindingSets b = some h) :
    (self.step op).m_InputBindingSets b = some h := by
  cases op with
  | setupMaterial call =>
    show (self.setupMaterial call).pass.m_InputBindingSets b = some h
    rw [forward_setupMaterial_input_cache]
    exact he
  | setupInputBuffers dev context buffers state =>
    show (self.SetupInputBuffers dev context buffers state).1.m_InputBindingSets b = some h
    unfold SetupInputBuffers
    dsimp only
    split
    · exact he
    · exact forward_GetOrCreateInputBindingSet_keeps self dev buffers b h he
  | prepareLights dev context lights lightProbes =>
    show (self.PrepareLights dev context lights lightProbes).pass.m_InputBindingSets b = some h
    rw [forward_PrepareLights_input_cache]
    exact he
  | resetBindingCache => cases hr

theorem forward_run_input_entry (ops : List Op) (self : ForwardShadingPass) (b : Nat) (h : Handle)
    (hr : ∀ op ∈ ops, op.isReset = false) (he : self.m_InputBindingSets b = some h) :
    (self.run ops).m_InputBindingSets b = some h := by
  induction ops generalizing self with
  | nil => exact he
  | cons op rest ih =>
    exact ih (self.step op) (fun o ho => hr o (List.mem_cons_of_mem _ ho))
      (forward_step_input_entry self op b h (hr op (List.mem_cons_self _ _)) he)

/-- Two lookups of the input binding-set cache with the same buffer group address, with
no `ResetBindingCache` in between, return the same handle. -/
theorem forward_input_lookup_stable (self : ForwardShadingPass) (dev1 dev2 : Device) (bg1 bg2 : BufferGroup)
    (between : List Op) (hr : ∀ op ∈ between, op.isReset = false)
    (hp : bg2.ptr = bg1.ptr) :
    (((self.GetOrCreateInputBindingSet dev1 bg1).1.run between).GetOrCreateInputBindingSet
        dev2 bg2).2
      = (self.GetOrCreateInputBindingSet dev1 bg1).2 := by
  apply forward_GetOrCreateInputBindingSet_hit
  rw [hp]
  exact forward_run_input_entry between _ _ _ hr (forward_GetOrCreateInputBindingSet_entry self dev1 bg1)

end ForwardShadingPass

/-- C5 (as amended): between two `ResetBindingCache` calls, (1) in each of the three
passes two lookups of the input binding-set cache with the same buffer group address
return the same handle, null or not, and no call removes or replaces an entry of that
cache; (2) in the forward pass two `PrepareLights` calls that select the same pair of
shadow-map texture and probe diffuse texture get the same shading binding set whenever
the first one got a non-null handle, and no call removes an entry of the shading cache
that holds a non-null handle or replaces that handle. A null handle stored in the
shading cache is not final: the next `PrepareLights` call with that key asks the device
again. -/
theorem C5_binding_set_caches_stable_until_reset :
    (∀ (self : DepthPass) (dev1 dev2 : Device) (bg1 bg2 : BufferGroup)
        (between : List DepthPass.Op),
        (∀ op ∈ between, op.isReset = false) → bg2.ptr = bg1.ptr →
        (((self.GetOrCreateInputBindingSet dev1 bg1).1.run
            between).GetOrCreateInputBindingSet dev2 bg2).2
          = (self.GetOrCreateInputBindingSet dev1 bg1).2)
    ∧ (∀ (self : DepthPass) (op : DepthPass.Op) (b : Nat) (h : Handle),
        op.isReset = false → self.m_InputBindingSets b = some h →
        (self.step op).m_InputBindingSets b = some h)
    ∧ (∀ (self : GBufferFillPass) (dev1 dev2 : Device) (bg1 bg2 : BufferGroup)
        (between : List GBufferFillPass.Op),
        (∀ op ∈ between, op.isReset = false) → bg2.ptr = bg1.ptr →
        (((self.GetOrCreateInputBindingSet dev1 bg1).1.run
            between).GetOrCreateInputBindingSet dev2 bg2).2
          = (self.GetOrCreateInputBindingSet dev1 bg1).2)
    ∧ (∀ (self : GBufferFillPass) (op : GBufferFillPass.Op) (b : Nat) (h : Handle),
        op.isReset = false → self.m_InputBindingSets b = some h →
        (self.step op).m_InputBindingSets b = some h)
    ∧ (∀ (self : ForwardShadingPass) (dev1 dev2 : Device) (bg1 bg2 : BufferGroup)
        (between : List ForwardShadingPass.Op),
        (∀ op ∈ between, op.isReset = false) → bg2.ptr = bg1.ptr →
        (((self.GetOrCreateInputBindingSet dev1 bg1).1.run
            between).GetOrCreateInputBindingSet dev2 bg2).2
          = (self.GetOrCreateInputBindingSet dev1 bg1).2)
    ∧ (∀ (self : ForwardShadingPass) (op : ForwardShadingPass.Op) (b : Nat) (h : Handle),
        op.isReset = false → self.m_InputBindingSets b = some h →
        (self.step op).m_InputBindingSets b = some h)
    ∧ (∀ (self : ForwardShadingPass) (dev1 dev2 : Device)
        (context1 context2 : ForwardShadingPass.Context) (lights1 lights2 : List Light)
        (probes1 probes2 : List LightProbe) (between : List ForwardShadingPass.Op)
        (diffuse specular1 brdf1 specular2 brdf2 : Handle) (id : Nat),
        (∀ op ∈ between, op.isReset = false) →
        ForwardShadingPass.selectProbeTextures probes1 (none, none, none)
          = some (diffuse, specular1, brdf1) →
        ForwardShadingPass.selectProbeTextures probes2 (none, none, none)
          = some (diffuse, specular2, brdf2) →
        ForwardShadingPass.firstShadowMapTexture lights2
          = ForwardShadingPass.firstShadowMapTexture lights1 →
        (self.PrepareLights dev1 context1 lights1 probes1).context.shadingBindingSet
          = some id →
        (((self.PrepareLights dev1 context1 lights1 probes1).pass.run between).PrepareLights
            dev2 context2 lights2 probes2).context.shadingBindingSet = some id)
    ∧ (∀ (self : ForwardShadingPass) (op : ForwardShadingPass.Op) (t : Handle × Handle)
        (id : Nat),
        op.isReset = false → self.m_ShadingBindingSets t = some (some id) →
        (self.step op).m_ShadingBindingSets t = some (some id))
    ∧ (∀ (self : ForwardShadingPass) (dev : Device) (context : ForwardShadingPass.Context)
        (lights : List Light) (probes : List LightProbe) (diffuse specular brdf : Handle),
        ForwardShadingPass.selectProbeTextures probes (none, none, none)
          = some (diffuse, specular, brdf) →
        (self.m_ShadingBindingSets (ForwardShadingPass.firstShadowMapTexture lights, diffuse)
            = none
          ∨ self.m_ShadingBindingSets
              (ForwardShadingPass.firstShadowMapTexture lights, diffuse) = some none) →
        (self.PrepareLights dev context lights probes).context.shadingBindingSet
          = self.CreateShadingBindingSet dev (ForwardShadingPass.firstShadowMapTexture lights)
              diffuse specular brdf) := by
  refine ⟨?_, ?_, ?_, ?_, ?_, ?_, ?_, ?_, ?_⟩
  · intro self dev1 dev2 bg1 bg2 between hr hp
    exact DepthPass.depth_input_lookup_stable self dev1 dev2 bg1 bg2 between hr hp
  · intro self op b h hr he
    exact DepthPass.depth_step_input_entry self op b h hr he
  · intro self dev1 dev2 bg1 bg2 between hr hp
    exact GBufferFillPass.gbuffer_input_lookup_stable self dev1 dev2 bg1 bg2 between hr hp
  · intro self op b h hr he
    exact GBufferFillPass.gbuffer_step_input_entry self op b h hr he
  · intro self dev1 dev2 bg1 bg2 between hr hp
    exact ForwardShadingPass.forward_input_lookup_stable self dev1 dev2 bg1 bg2 between hr hp
  · intro self op b h hr he
    exact ForwardShadingPass.forward_step_input_entry self op b h hr he
  · intro self dev1 dev2 context1 context2 lights1 lights2 probes1 probes2 between diffuse
      specular1 brdf1 specular2 brdf2 id hr hs1 hs2 hshadow hid
    obtain ⟨-, h2, -, -, -⟩ := ForwardShadingPass.forward_PrepareLights_selected self dev1 context1
      lights1 probes1 diffuse specular1 brdf1 hs1
    rw [hid] at h2
    have hrun := ForwardShadingPass.forward_run_shading_entry between _ _ id hr h2
    obtain ⟨-, -, -, -, h5⟩ := ForwardShadingPass.forward_PrepareLights_selected
      ((self.PrepareLights dev1 context1 lights1 probes1).pass.run between) dev2 context2
      lights2 probes2 diffuse specular2 brdf2 hs2
    rw [hshadow] at h5
    exact h5 id hrun
  · intro self op t id hr he
    exact ForwardShadingPass.forward_step_shading_entry self op t id hr he
  · intro self dev context lights probes diffuse specular brdf hsel hnull
    unfold ForwardShadingPass.PrepareLights
    dsimp only
    rw [hsel]
    dsimp only
    rcases hnull with h | h <;> rw [h] <;> rfl

/-- C5 on the sample forward pass: the first `PrepareLights` call, without lights and
probes, creates the shading binding set 9; after a `SetupMaterial` call in between, a
second one on a device that fails every creation still gets 9. -/
theorem C5_binding_set_caches_stable_until_reset_witness :
    (Sample.forwardPass.PrepareLights Sample.workingDevice {} [] []).context.shadingBindingSet
      = some 9
    ∧ (((Sample.forwardPass.PrepareLights Sample.workingDevice {} [] []).pass.run
          [ForwardShadingPass.Op.setupMaterial Sample.forwardCall]).PrepareLights
        Sample.failingDevice {} [] []).context.shadingBindingSet = some 9 :=
  ⟨rfl, C5_binding_set_caches_stable_until_reset.2.2.2.2.2.2.1 Sample.forwardPass
    Sample.workingDevice Sample.failingDevice {} {} [] [] [] []
    [ForwardShadingPass.Op.setupMaterial Sample.forwardCall] none none none none none 9
    (by intro op hop; simp only [List.mem_singleton] at hop; rw [hop]; rfl)
    rfl rfl rfl rfl⟩

/-- The claim of C5 as stated fails on the shading binding-set cache of the forward
pass: with no `ResetBindingCache` in between, the first `PrepareLights` call, at which
the device returns null, stores and hands out a null handle for the key (null, null);
the second call with the same key, at which the device returns binding set 9, replaces
the stored handle and hands out 9. -/
theorem C5_counterexample_null_shading_binding_set_replaced :
    (Sample.forwardPass.PrepareLights Sample.failingDevice {} [] []).context.shadingBindingSet
      = none
    ∧ (Sample.forwardPass.PrepareLights Sample.failingDevice {} [] []).pass.m_ShadingBindingSets
        (none, none) = some none
    ∧ ((Sample.forwardPass.PrepareLights Sample.failingDevice {} [] []).pass.PrepareLights
        Sample.workingDevice {} [] []).context.shadingBindingSet = some 9
    ∧ ((Sample.forwardPass.PrepareLights Sample.failingDevice {} [] []).pass.PrepareLights
        Sample.workingDevice {} [] []).pass.m_ShadingBindingSets (none, none)
        = some (some 9) := by
  decide

end BindingSetCaches

/-! ## C11: the pipeline of an alpha-blended material -/

section C11

/-- The descriptor the forward pass assembles for a key of domain AlphaBlended. -/
theorem forward_pipelineDesc_alphaBlended (self : ForwardShadingPass)
    (mb : MaterialBindingCache) (key : ForwardShadingPass.PipelineKey) (fb : Framebuffer)
    (hd : key.domain = MaterialDomain.AlphaBlended) :
    ∃ desc, self.pipelineDesc mb key fb = some desc ∧ self.IsAlphaBlendDescriptor desc := by
  unfold ForwardShadingPass.pipelineDesc
  dsimp only
  rw [hd]
  exact ⟨_, rfl, rfl, rfl, rfl, rfl, rfl, rfl, rfl⟩

/-- C11: for every key whose domain is AlphaBlended, whatever its cull mode, winding
and depth direction, `ForwardShadingPass::CreateGraphicsPipeline` makes one device
call, with a descriptor that has blending enabled on render target 0 with srcBlend
SrcAlpha, destBlend InvSrcAlpha, srcBlendAlpha Zero and destBlendAlpha One, depth write
disabled and the standard pixel shader, and returns what the device returns. And on a
pass started freshly constructed, after any calls, a `SetupMaterial` call for an
AlphaBlended material that returns true puts into the graphics state a pipeline that a
recorded device call returned for such a descriptor. -/
theorem C11_alpha_blended_pipeline :
    (∀ (self : ForwardShadingPass) (dev : Device) (mb : MaterialBindingCache)
        (key : ForwardShadingPass.PipelineKey) (fb : Framebuffer),
        key.domain = MaterialDomain.AlphaBlended →
        ∃ desc, self.IsAlphaBlendDescriptor desc
          ∧ self.CreateGraphicsPipeline_calls dev mb key fb
              = [⟨key.value, desc, fb, dev.createGraphicsPipeline desc fb⟩]
          ∧ self.CreateGraphicsPipeline dev mb key fb = dev.createGraphicsPipeline desc fb)
    ∧ (∀ (self : ForwardShadingPass) (ops : List ForwardShadingPass.Op)
        (call : MaterialCall ForwardShadingPass.Context),
        self.Fresh → call.material.domain = MaterialDomain.AlphaBlended →
        ((self.run ops).setupMaterial call).ret = true →
        ∃ e ∈ ((self.run ops).setupMaterial call).pass.deviceLog,
          e.result = ((self.run ops).setupMaterial call).state.pipeline
          ∧ e.result ≠ none
          ∧ (self.run ops).IsAlphaBlendDescriptor e.desc) := by
  constructor
  · intro self dev mb key fb hd
    obtain ⟨desc, hdesc, hprop⟩ := forward_pipelineDesc_alphaBlended self mb key fb hd
    refine ⟨desc, hprop, ?_, ?_⟩
    · unfold ForwardShadingPass.CreateGraphicsPipeline_calls
      rw [hdesc]
    · unfold ForwardShadingPass.CreateGraphicsPipeline
      rw [hdesc]
  · intro self ops call hf hd hr
    have hi :=
      ForwardShadingPass.forward_run_tableInv ops self
        (ForwardShadingPass.forward_fresh_tableInv self hf)
    obtain ⟨k, p, e, hl, hp, he, hres, mb, fb, hdesc⟩ :=
      ForwardShadingPass.forward_setupMaterial_created_from _ call hi hr
    obtain ⟨-, -, -, hk⟩ := ForwardShadingPass.forward_setupMaterial_key _ call k hl
    have hdom : (⟨k⟩ : ForwardShadingPass.PipelineKey).domain = MaterialDomain.AlphaBlended := by
      rw [hk, ForwardShadingPass.PipelineKey.forward_key_mk_value,
        ForwardShadingPass.PipelineKey.forward_key_domain_setDomain, hd]
      rfl
    obtain ⟨desc, hdesc2, hprop⟩ :=
      forward_pipelineDesc_alphaBlended (self.run ops) mb ⟨k⟩ fb hdom
    rw [hdesc] at hdesc2
    cases hdesc2
    exact ⟨e, he, by rw [hres, hp], by rw [hres]; simp, hprop⟩

/-- C11 on the sample forward pass: the call for the alpha-blended material returns
true, and its pipeline comes from a recorded device call with an alpha-blend
descriptor. -/
theorem C11_alpha_blended_pipeline_witness :
    ((Sample.forwardPass.run []).setupMaterial Sample.alphaBlendedCall).ret = true
    ∧ ∃ e ∈ ((Sample.forwardPass.run []).setupMaterial Sample.alphaBlendedCall).pass.deviceLog,
        e.result = ((Sample.forwardPass.run []).setupMaterial Sample.alphaBlendedCall).state.pipeline
        ∧ e.result ≠ none
        ∧ (Sample.forwardPass.run []).IsAlphaBlendDescriptor e.desc :=
  ⟨rfl, C11_alpha_blended_pipeline.2 Sample.forwardPass [] Sample.alphaBlendedCall
    ⟨fun _ => rfl, fun _ => rfl, fun _ => rfl, rfl⟩ rfl rfl⟩

end C11

/-! ## C12: the push constants -/

section C12

/-- C12: for each of the three passes. Without the input assembler `SetPushConstants`
records one `setPushConstants` command whose block has the start instance and start
vertex locations of the incoming draw arguments and the attribute offsets of the
context, sets the two start locations of the draw arguments to 0 and leaves their other
fields, the context and the graphics state as they were. With the input assembler it
records no command and changes nothing. -/
theorem C12_set_push_constants :
    (∀ (self : DepthPass) (context : DepthPass.Context) (state : GraphicsState)
        (args : DrawArguments),
        (self.m_UseInputAssembler = false →
          (∃ c : DepthPass.DepthPushConstants,
            (self.SetPushConstants context state args).commands
              = [Command.setPushConstants c.words]
            ∧ c.startInstanceLocation = args.startInstanceLocation
            ∧ c.startVertexLocation = args.startVertexLocation
            ∧ c.positionOffset = context.positionOffset
            ∧ c.texCoordOffset = context.texCoordOffset)
          ∧ (self.SetPushConstants context state args).args.startInstanceLocation = 0
          ∧ (self.SetPushConstants context state args).args.startVertexLocation = 0
          ∧ (self.SetPushConstants context state args).args.vertexCount = args.vertexCount
          ∧ (self.SetPushConstants context state args).args.instanceCount = args.instanceCount
          ∧ (self.SetPushConstants context state args).args.startIndexLocation
              = args.startIndexLocation
          ∧ (self.SetPushConstants context state args).context = context
          ∧ (self.SetPushConstants context state args).state = state)
        ∧ (self.m_UseInputAssembler = true →
          (self.SetPushConstants context state args).commands = []
          ∧ (self.SetPushConstants context state args).args = args
          ∧ (self.SetPushConstants context state args).context = context
          ∧ (self.SetPushConstants context state args).state = state))
    ∧ (∀ (self : GBufferFillPass) (context : GBufferFillPass.Context) (state : GraphicsState)
        (args : DrawArguments),
        (self.m_UseInputAssembler = false →
          (∃ c : GBufferFillPass.GBufferPushConstants,
            (self.SetPushConstants context state args).commands
              = [Command.setPushConstants c.words]
            ∧ c.startInstanceLocation = args.startInstanceLocation
            ∧ c.startVertexLocation = args.startVertexLocation
            ∧ c.positionOffset = context.positionOffset
            ∧ c.prevPositionOffset = context.prevPositionOffset
            ∧ c.texCoordOffset = context.texCoordOffset
            ∧ c.normalOffset = context.normalOffset
            ∧ c.tangentOffset = context.tangentOffset)
          ∧ (self.SetPushConstants context state args).args.startInstanceLocation = 0
          ∧ (self.SetPushConstants context state args).args.startVertexLocation = 0
          ∧ (self.SetPushConstants context state args).args.vertexCount = args.vertexCount
          ∧ (self.SetPushConstants context state args).args.instanceCount = args.instanceCount
          ∧ (self.SetPushConstants context state args).args.startIndexLocation
              = args.startIndexLocation
          ∧ (self.SetPushConstants context state args).context = context
          ∧ (self.SetPushConstants context state args).state = state)
        ∧ (self.m_UseInputAssembler = true →
          (self.SetPushConstants context state args).commands = []
          ∧ (self.SetPushConstants context state args).args = args
          ∧ (self.SetPushConstants context state args).context = context
          ∧ (self.SetPushConstants context state args).state = state))
    ∧ (∀ (self : ForwardShadingPass) (context : ForwardShadingPass.Context)
        (state : GraphicsState) (args : DrawArguments),
        (self.m_UseInputAssembler = false →
          (∃ c : ForwardShadingPass.ForwardPushConstants,
            (self.SetPushConstants context state args).commands
              = [Command.setPushConstants c.words]
            ∧ c.startInstanceLocation = args.startInstanceLocation
            ∧ c.startVertexLocation = args.startVertexLocation
            ∧ c.positionOffset = context.positionOffset
            ∧ c.texCoordOffset = context.texCoordOffset
            ∧ c.normalOffset = context.normalOffset
            ∧ c.tangentOffset = context.tangentOffset)
          ∧ (self.SetPushConstants context state args).args.startInstanceLocation = 0
          ∧ (self.SetPushConstants context state args).args.startVertexLocation = 0
          ∧ (self.SetPushConstants context state args).args.vertexCount = args.vertexCount
          ∧ (self.SetPushConstants context state args).args.instanceCount = args.instanceCount
          ∧ (self.SetPushConstants context state args).args.startIndexLocation
              = args.startIndexLocation
          ∧ (self.SetPushConstants context state args).context = context
          ∧ (self.SetPushConstants context state args).state = state)
        ∧ (self.m_UseInputAssembler = true →
          (self.SetPushConstants context state args).commands = []
          ∧ (self.SetPushConstants context state args).args = args
          ∧ (self.SetPushConstants context state args).context = context
          ∧ (self.SetPushConstants context state args).state = state)) := by
  refine ⟨?_, ?_, ?_⟩
  · intro self context state args
    constructor
    · intro h
      unfold DepthPass.SetPushConstants
      rw [h]
      exact ⟨⟨_, rfl, rfl, rfl, rfl, rfl⟩, rfl, rfl, rfl, rfl, rfl, rfl, rfl⟩
    · intro h
      unfold DepthPass.SetPushConstants
      rw [h]
      exact ⟨rfl, rfl, rfl, rfl⟩
  · intro self context state args
    constructor
    · intro h
      unfold GBufferFillPass.SetPushConstants
      rw [h]
      exact ⟨⟨_, rfl, rfl, rfl, rfl, rfl, rfl, rfl, rfl⟩, rfl, rfl, rfl, rfl, rfl, rfl, rfl⟩
    · intro h
      unfold GBufferFillPass.SetPushConstants
      rw [h]
      exact ⟨rfl, rfl, rfl, rfl⟩
  · intro self context state args
    constructor
    · intro h
      unfold ForwardShadingPass.SetPushConstants
      rw [h]
      exact ⟨⟨_, rfl, rfl, rfl, rfl, rfl, rfl, rfl⟩, rfl, rfl, rfl, rfl, rfl, rfl, rfl⟩
    · intro h
      unfold ForwardShadingPass.SetPushConstants
      rw [h]
      exact ⟨rfl, rfl, rfl, rfl⟩

/-- C12 on the sample depth pass, which does not use the input assembler: the block
pushed is (9, 7, 64, 128) and the draw arguments come back with both start locations
0. -/
theorem C12_set_push_constants_witness :
    (Sample.depthPass.SetPushConstants Sample.depthContext Sample.state
        Sample.drawArguments).commands = [Command.setPushConstants [9, 7, 64, 128]]
    ∧ (Sample.depthPass.SetPushConstants Sample.depthContext Sample.state
        Sample.drawArguments).args.startInstanceLocation = 0
    ∧ (Sample.depthPass.SetPushConstants Sample.depthContext Sample.state
        Sample.drawArguments).args.startVertexLocation = 0 :=
  ⟨rfl,
    ((C12_set_push_constants.1 Sample.depthPass Sample.depthContext Sample.state
      Sample.drawArguments).1 rfl).2.1,
    ((C12_set_push_constants.1 Sample.depthPass Sample.depthContext Sample.state
      Sample.drawArguments).1 rfl).2.2.1⟩

end C12

/-! ## C13: the light constants -/

section LightConstantsLemmas

namespace ForwardShadingPass

theorem writesBelow_append (writes : List (ConstantArray × Nat)) (a : ConstantArray) (i : Nat)
    (h : WritesBelow writes) (hi : i < 16) : WritesBelow (writes ++ [(a, i)]) := by
  intro w hw
  rw [List.mem_append] at hw
  rcases hw with hw | hw
  · exact h w hw
  · rw [List.mem_singleton] at hw
    subst hw
    exact hi

/-- The shadow loops leave the light slots, the light count and the probe count alone,
keep `filledFrom`, and write `shadows` below 16 only. -/
theorem fillShadows_spec (perObject : Bool) (shadows : List Nat) :
    ∀ (index : Nat) (lightConstants : LightConstants) (st : LightLoopState),
      (fillShadows perObject shadows index lightConstants st).1.filledFrom
          = lightConstants.filledFrom
      ∧ (fillShadows perObject shadows index lightConstants st).2.constants.numLights
          = st.constants.numLights
      ∧ (fillShadows perObject shadows index lightConstants st).2.constants.lights
          = st.constants.lights
      ∧ (fillShadows perObject shadows index lightConstants st).2.constants.numLightProbes
          = st.constants.numLightProbes
      ∧ (WritesBelow st.arrayWrites →
          WritesBelow (fillShadows perObject shadows index lightConstants st).2.arrayWrites) := by
  induction shadows with
  | nil => intro index lightConstants st; exact ⟨rfl, rfl, rfl, rfl, fun h => h⟩
  | cons shadow rest ih =>
    intro index lightConstants st
    unfold fillShadows
    split
    · rename_i hlt
      obtain ⟨h1, h2, h3, h4, h5⟩ := ih (index + 1)
        (if perObject then
          { lightConstants with
            perObjectShadows := lightConstants.perObjectShadows ++ [(index, st.numShadows)] }
         else
          { lightConstants with
            shadowCascades := lightConstants.shadowCascades ++ [(index, st.numShadows)] })
        { st with
          constants :=
            { st.constants with shadows := arraySet st.constants.shadows st.numShadows shadow }
          numShadows := st.numShadows + 1
          arrayWrites := st.arrayWrites ++ [(ConstantArray.shadows, st.numShadows)] }
      refine ⟨?_, h2, h3, h4, fun h => h5 (writesBelow_append _ _ _ h hlt)⟩
      rw [h1]
      cases perObject <;> rfl
    · exact ih (index + 1) lightConstants st

/-- One iteration of the loop over the lights. -/
theorem fillLight_spec (light : Light) (st : LightLoopState) :
    (fillLight light st).constants.numLights = st.constants.numLights + 1
    ∧ (∃ lightConstants : LightConstants,
        lightConstants.filledFrom = light.constants
        ∧ (fillLight light st).constants.lights
            = arraySet st.constants.lights st.constants.numLights lightConstants)
    ∧ (fillLight light st).constants.numLightProbes = st.constants.numLightProbes
    ∧ (WritesBelow st.arrayWrites → st.constants.numLights < 16 →
        WritesBelow (fillLight light st).arrayWrites) := by
  unfold fillLight
  dsimp only
  split
  · exact ⟨rfl, ⟨_, rfl, rfl⟩, rfl, fun h hn => writesBelow_append _ _ _ h hn⟩
  · rename_i shadowMap _
    have hc := fillShadows_spec false shadowMap.cascades 0 { filledFrom := light.constants }
      { st with arrayWrites := st.arrayWrites ++ [(ConstantArray.lights, st.constants.numLights)] }
    have hp := fillShadows_spec true shadowMap.perObjectShadows 0
      (fillShadows false shadowMap.cascades 0 { filledFrom := light.constants }
        { st with
          arrayWrites := st.arrayWrites ++ [(ConstantArray.lights, st.constants.numLights)] }).1
      (fillShadows false shadowMap.cascades 0 { filledFrom := light.constants }
        { st with
          arrayWrites := st.arrayWrites ++ [(ConstantArray.lights, st.constants.numLights)] }).2
    obtain ⟨c1, c2, c3, c4, c5⟩ := hc
    obtain ⟨p1, p2, p3, p4, p5⟩ := hp
    refine ⟨rfl,
      ⟨(fillShadows true shadowMap.perObjectShadows 0
          (fillShadows false shadowMap.cascades 0 { filledFrom := light.constants }
            { st with
              arrayWrites :=
                st.arrayWrites ++ [(ConstantArray.lights, st.constants.numLights)] }).1
          (fillShadows false shadowMap.cascades 0 { filledFrom := light.constants }
            { st with
              arrayWrites :=
                st.arrayWrites ++ [(ConstantArray.lights, st.constants.numLights)] }).2).1,
        ?_, ?_⟩, ?_, ?_⟩
    · rw [p1, c1]
    · dsimp only
      rw [p3, c3]
    · dsimp only
      rw [p4, c4]
    · intro h hn
      exact p5 (c5 (writesBelow_append _ _ _ h hn))

/-- The loop over the lights, on any list: the count grows by the length, the slots from
the old count on hold the lights in order, the other slots are as before. -/
theorem foldl_fillLight_spec (lights : List Light) :
    ∀ (st : LightLoopState),
      (lights.foldl (fun st light => fillLight light st) st).constants.numLights
          = st.constants.numLights + lights.length
      ∧ (∀ (i : Nat) (light : Light), lights[i]? = some light →
          ∃ lightConstants : LightConstants,
            (lights.foldl (fun st light => fillLight light st) st).constants.lights
                (st.constants.numLights + i) = some lightConstants
            ∧ lightConstants.filledFrom = light.constants)
      ∧ (∀ j, j < st.constants.numLights ∨ st.constants.numLights + lights.length ≤ j →
          (lights.foldl (fun st light => fillLight light st) st).constants.lights j
            = st.constants.lights j)
      ∧ (lights.foldl (fun st light => fillLight light st) st).constants.numLightProbes
          = st.constants.numLightProbes
      ∧ (WritesBelow st.arrayWrites → st.constants.numLights + lights.length ≤ 16 →
          WritesBelow (lights.foldl (fun st light => fillLight light st) st).arrayWrites) := by
  induction lights with
  | nil =>
    intro st
    refine ⟨rfl, ?_, fun _ _ => rfl, rfl, fun h _ => h⟩
    intro i light h
    simp at h
  | cons light rest ih =>
    intro st
    obtain ⟨f1, ⟨lc, f2, f3⟩, f4, f5⟩ := fillLight_spec light st
    obtain ⟨r1, r2, r3, r4, r5⟩ := ih (fillLight light st)
    rw [List.foldl_cons]
    refine ⟨?_, ?_, ?_, ?_, ?_⟩
    · rw [r1, f1, List.length_cons]; omega
    · intro i x hx
      cases i with
      | zero =>
        simp only [List.getElem?_cons_zero, Option.some.injEq] at hx
        subst hx
        refine ⟨lc, ?_, f2⟩
        rw [r3 _ (Or.inl (by rw [f1]; omega)), f3]
        simp [arraySet]
      | succ n =>
        simp only [List.getElem?_cons_succ] at hx
        obtain ⟨lc2, h1, h2⟩ := r2 n x hx
        refine ⟨lc2, ?_, h2⟩
        rw [f1] at h1
        rw [← h1]
        congr 1
        omega
    · intro j hj
      rw [r3 j (by rw [f1]; rw [List.length_cons] at hj; omega), f3]
      unfold arraySet
      rw [if_neg]
      rw [List.length_cons] at hj
      omega
    · rw [r4, f4]
    · intro h hn
      rw [List.length_cons] at hn
      exact r5 (f5 h (by omega)) (by rw [f1]; omega)

/-- The loop over the probes leaves the light slots and the light count alone and
writes `lightProbes` below 16 only. -/
theorem fillLightProbes_spec (lightProbes : List LightProbe) :
    ∀ (st : LightLoopState),
      (fillLightProbes lightProbes st).constants.numLights = st.constants.numLights
      ∧ (fillLightProbes lightProbes st).constants.lights = st.constants.lights
      ∧ (WritesBelow st.arrayWrites → st.constants.numLightProbes < 16 →
          WritesBelow (fillLightProbes lightProbes st).arrayWrites) := by
  induction lightProbes with
  | nil => intro st; exact ⟨rfl, rfl, fun h _ => h⟩
  | cons probe rest ih =>
    intro st
    unfold fillLightProbes
    split
    · exact ih st
    · dsimp only
      split
      · exact ⟨rfl, rfl, fun h hn => writesBelow_append _ _ _ h hn⟩
      · rename_i hge
        obtain ⟨h1, h2, h3⟩ := ih
          { st with
            constants :=
              { st.constants with
                lightProbes :=
                  arraySet st.constants.lightProbes st.constants.numLightProbes probe.constants
                numLightProbes := st.constants.numLightProbes + 1 }
            arrayWrites :=
              st.arrayWrites ++ [(ConstantArray.lightProbes, st.constants.numLightProbes)] }
        refine ⟨h1, h2, fun h hn => h3 (writesBelow_append _ _ _ h hn) ?_⟩
        show st.constants.numLightProbes + 1 < 16
        have : ¬ (st.constants.numLightProbes + 1 ≥ 16) := hge
        omega

/-- The second half of `PrepareLights`. -/
theorem fillLightConstants_spec (lights : List Light) (lightProbes : List LightProbe) :
    (fillLightConstants lights lightProbes).constants.numLights = min lights.length 16
    ∧ (∀ (i : Nat) (light : Light), i < 16 → lights[i]? = some light →
        ∃ lightConstants : LightConstants,
          (fillLightConstants lights lightProbes).constants.lights i = some lightConstants
          ∧ lightConstants.filledFrom = light.constants)
    ∧ (∀ j, min lights.length 16 ≤ j →
        (fillLightConstants lights lightProbes).constants.lights j = none)
    ∧ WritesBelow (fillLightConstants lights lightProbes).arrayWrites := by
  unfold fillLightConstants fillLights
  obtain ⟨p1, p2, p3⟩ := fillLightProbes_spec lightProbes
    ((lights.take (min lights.length FORWARD_MAX_LIGHTS)).foldl
      (fun st light => fillLight light st)
      { constants := { shadowMapTextureSize := firstShadowMapTextureSize lights } })
  obtain ⟨l1, l2, l3, l4, l5⟩ := foldl_fillLight_spec
    (lights.take (min lights.length FORWARD_MAX_LIGHTS))
    { constants := { shadowMapTextureSize := firstShadowMapTextureSize lights } }
  have hlen : (lights.take (min lights.length FORWARD_MAX_LIGHTS)).length
      = min lights.length 16 := by
    rw [List.length_take]
    show min (min lights.length 16) lights.length = min lights.length 16
    omega
  refine ⟨?_, ?_, ?_, ?_⟩
  · rw [p1, l1, hlen]
    show 0 + min lights.length 16 = min lights.length 16
    omega
  · intro i light hi hl
    have hi2 : i < lights.length := by
      by_contra hcon
      rw [List.getElem?_eq_none (by omega)] at hl
      cases hl
    have ht : (lights.take (min lights.length FORWARD_MAX_LIGHTS))[i]? = some light := by
      rw [List.getElem?_take_of_lt]
      · exact hl
      · show i < min lights.length 16
        omega
    obtain ⟨lc, h1, h2⟩ := l2 i light ht
    refine ⟨lc, ?_, h2⟩
    rw [p2]
    have h0 : (0 : Nat) + i = i := by omega
    rw [← h0]
    exact h1
  · intro j hj
    rw [p2, l3 j (Or.inr (by rw [hlen]; show 0 + min lights.length 16 ≤ j; omega))]
  · apply p3
    · apply l5
      · intro w hw
        cases hw
      · rw [hlen]
        show 0 + min lights.length 16 ≤ 16
        omega
    · rw [l4]
      show (0 : Nat) < 16
      omega

/-- From textures that every enabled probe of the list has, the selection succeeds. -/
theorem selectProbeTextures_of_agree (lightProbes : List LightProbe) :
    ∀ (d s b : Handle),
      (∀ p ∈ lightProbes, p.enabled = true →
        d = p.diffuseMap ∧ s = p.specularMap ∧ b = p.environmentBrdf) →
      selectProbeTextures lightProbes (d, s, b) = some (d, s, b) := by
  induction lightProbes with
  | nil => intro d s b _; rfl
  | cons probe rest ih =>
    intro d s b h
    have hrest : ∀ p ∈ rest, p.enabled = true →
        d = p.diffuseMap ∧ s = p.specularMap ∧ b = p.environmentBrdf :=
      fun p hp => h p (List.mem_cons_of_mem _ hp)
    unfold selectProbeTextures
    split
    · exact ih d s b hrest
    · rename_i hen
      have hen2 : probe.enabled = true := by simpa using hen
      obtain ⟨hd, hs, hb⟩ := h probe (List.mem_cons_self _ _) hen2
      split
      · rw [← hd, ← hs, ← hb]
        exact ih d s b hrest
      · split
        · rename_i hne
          rcases hne with hne | hne | hne
          · exact absurd hd hne
          · exact absurd hs hne
          · exact absurd hb hne
        · exact ih d s b hrest

/-- On probes with consistent textures the selection succeeds. -/
theorem selectProbeTextures_of_consistent (lightProbes : List LightProbe) :
    ConsistentTextures lightProbes →
      ∃ chosen, selectProbeTextures lightProbes (none, none, none) = some chosen := by
  induction lightProbes with
  | nil => intro _; exact ⟨_, rfl⟩
  | cons probe rest ih =>
    intro h
    have hrest : ConsistentTextures rest :=
      fun p hp q hq => h p (List.mem_cons_of_mem _ hp) q (List.mem_cons_of_mem _ hq)
    unfold selectProbeTextures
    split
    · exact ih hrest
    · rename_i hen
      have hen2 : probe.enabled = true := by simpa using hen
      rw [if_pos (Or.inl rfl)]
      exact ⟨_, selectProbeTextures_of_agree rest _ _ _
        (fun p hp hpe => h probe (List.mem_cons_self _ _) p (List.mem_cons_of_mem _ hp) hen2 hpe)⟩

/-- What `PrepareLights` writes when the selection of the probe textures succeeds. -/
theorem forward_PrepareLights_written (self : ForwardShadingPass) (dev : Device)
    (context : Context) (lights : List Light) (lightProbes : List LightProbe)
    (chosen : Handle × Handle × Handle)
    (h : selectProbeTextures lightProbes (none, none, none) = some chosen) :
    (self.PrepareLights dev context lights lightProbes).loggedError = false
    ∧ (self.PrepareLights dev context lights lightProbes).written
        = some (fillLightConstants lights lightProbes).constants
    ∧ (self.PrepareLights dev context lights lightProbes).arrayWrites
        = (fillLightConstants lights lightProbes).arrayWrites := by
  unfold PrepareLights
  dsimp only
  rw [h]
  exact ⟨rfl, rfl, rfl⟩

end ForwardShadingPass

end LightConstantsLemmas

section C13

/-- C13: for every list of lights and every list of light probes with consistent
textures, `ForwardShadingPass::PrepareLights` logs no error and writes light constants
whose `numLights` is the minimum of the number of lights and 16, whose light slot `i` is
filled from `lights[i]` for every `i` below 16 that the list has, and whose light slots
from `numLights` on are untouched; and every write to the arrays `lights`, `shadows` and
`lightProbes` uses an index below 16. -/
theorem C13_lights_truncated_at_sixteen (self : ForwardShadingPass) (dev : Device)
    (context : ForwardShadingPass.Context) (lights : List Light)
    (lightProbes : List LightProbe)
    (hc : ForwardShadingPass.ConsistentTextures lightProbes) :
    (self.PrepareLights dev context lights lightProbes).loggedError = false
    ∧ (∃ constants : ForwardShadingPass.ForwardShadingLightConstants,
        (self.PrepareLights dev context lights lightProbes).written = some constants
        ∧ constants.numLights = min lights.length 16
        ∧ (∀ (i : Nat) (light : Light), i < 16 → lights[i]? = some light →
            ∃ lightConstants : ForwardShadingPass.LightConstants,
              constants.lights i = some lightConstants
              ∧ lightConstants.filledFrom = light.constants)
        ∧ (∀ j, min lights.length 16 ≤ j → constants.lights j = none))
    ∧ (∀ w ∈ (self.PrepareLights dev context lights lightProbes).arrayWrites, w.2 < 16) := by
  obtain ⟨chosen, hsel⟩ := ForwardShadingPass.selectProbeTextures_of_consistent lightProbes hc
  obtain ⟨h1, h2, h3⟩ :=
    ForwardShadingPass.forward_PrepareLights_written self dev context lights lightProbes chosen hsel
  obtain ⟨f1, f2, f3, f4⟩ := ForwardShadingPass.fillLightConstants_spec lights lightProbes
  refine ⟨h1, ⟨_, h2, f1, f2, f3⟩, ?_⟩
  rw [h3]
  exact f4

/-- C13 on twenty lights and two probes with the same textures: sixteen lights are
written, slot 15 from light 15, slot 16 is untouched, and no error is logged. -/
theorem C13_lights_truncated_at_sixteen_witness :
    ForwardShadingPass.ConsistentTextures Sample.probesConsistent
    ∧ (Sample.forwardPass.PrepareLights Sample.workingDevice {} Sample.twentyLights
        Sample.probesConsistent).loggedError = false
    ∧ (∃ constants : ForwardShadingPass.ForwardShadingLightConstants,
        (Sample.forwardPass.PrepareLights Sample.workingDevice {} Sample.twentyLights
          Sample.probesConsistent).written = some constants
        ∧ constants.numLights = min Sample.twentyLights.length 16
        ∧ (∀ (i : Nat) (light : Light), i < 16 → Sample.twentyLights[i]? = some light →
            ∃ lightConstants : ForwardShadingPass.LightConstants,
              constants.lights i = some lightConstants
              ∧ lightConstants.filledFrom = light.constants)
        ∧ (∀ j, min Sample.twentyLights.length 16 ≤ j → constants.lights j = none))
    ∧ (∀ w ∈ (Sample.forwardPass.PrepareLights Sample.workingDevice {} Sample.twentyLights
          Sample.probesConsistent).arrayWrites, w.2 < 16) :=
  have hc : ForwardShadingPass.ConsistentTextures Sample.probesConsistent := by
    intro p hp q hq _ _
    simp only [Sample.probesConsistent, List.mem_cons, List.mem_singleton, List.not_mem_nil,
      or_false] at hp hq
    rcases hp with rfl | rfl <;> rcases hq with rfl | rfl <;> exact ⟨rfl, rfl, rfl⟩
  ⟨hc, C13_lights_truncated_at_sixteen Sample.forwardPass Sample.workingDevice {}
    Sample.twentyLights Sample.probesConsistent hc⟩

end C13

/-! ## C14, C15: probes whose textures differ -/

section MismatchedProbes

namespace ForwardShadingPass

/-- Once three textures are chosen, an enabled probe further on with another diffuse
map ends the selection with the error. -/
theorem selectProbeTextures_chosen_differs (lightProbes : List LightProbe) :
    ∀ (d s b : Handle), d ≠ none → s ≠ none → b ≠ none →
      (∃ p ∈ lightProbes, p.enabled = true ∧ p.diffuseMap ≠ d) →
      selectProbeTextures lightProbes (d, s, b) = none := by
  induction lightProbes with
  | nil =>
    intro d s b _ _ _ h
    obtain ⟨p, hp, -⟩ := h
    cases hp
  | cons probe rest ih =>
    intro d s b hd hs hb h
    obtain ⟨p, hp, hpe, hpd⟩ := h
    unfold selectProbeTextures
    split
    · rename_i hen
      have hne : p ≠ probe := by
        intro heq
        rw [heq] at hpe
        rw [hpe] at hen
        simp at hen
      rcases List.mem_cons.mp hp with heq | hin
      · exact absurd heq hne
      · exact ih d s b hd hs hb ⟨p, hin, hpe, hpd⟩
    · rw [if_neg (by
        intro hor
        rcases hor with hor | hor | hor
        · exact hd hor
        · exact hs hor
        · exact hb hor)]
      split
      · rfl
      · rename_i hsame
        have hdeq : d = probe.diffuseMap := by
          by_contra hcon
          exact hsame (Or.inl hcon)
        have hne : p ≠ probe := by
          intro heq
          rw [heq] at hpd
          exact hpd hdeq.symm
        rcases List.mem_cons.mp hp with heq | hin
        · exact absurd heq hne
        · exact ih d s b hd hs hb ⟨p, hin, hpe, hpd⟩

/-- While a texture is still to be chosen: enabled probes that all have their three
textures, two of them with differing diffuse maps, end the selection with the error. -/
theorem selectProbeTextures_mismatch (lightProbes : List LightProbe) :
    ∀ (d s b : Handle), (d = none ∨ s = none ∨ b = none) →
      EnabledProbesTextured lightProbes → DiffuseMapsDiffer lightProbes →
      selectProbeTextures lightProbes (d, s, b) = none := by
  induction lightProbes with
  | nil =>
    intro d s b _ _ h
    obtain ⟨p, hp, -⟩ := h
    cases hp
  | cons probe rest ih =>
    intro d s b hnull ht hm
    have htrest : EnabledProbesTextured rest :=
      fun p hp => ht p (List.mem_cons_of_mem _ hp)
    obtain ⟨p, hp, q, hq, hpe, hqe, hpq⟩ := hm
    unfold selectProbeTextures
    split
    · rename_i hen
      have hnp : p ≠ probe := by
        intro heq
        rw [heq] at hpe
        rw [hpe] at hen
        simp at hen
      have hnq : q ≠ probe := by
        intro heq
        rw [heq] at hqe
        rw [hqe] at hen
        simp at hen
      rcases List.mem_cons.mp hp with heq | hpin
      · exact absurd heq hnp
      · rcases List.mem_cons.mp hq with heq | hqin
        · exact absurd heq hnq
        · exact ih d s b hnull htrest ⟨p, hpin, q, hqin, hpe, hqe, hpq⟩
    · rename_i hen
      have hen2 : probe.enabled = true := by simpa using hen
      obtain ⟨t1, t2, t3⟩ := ht probe (List.mem_cons_self _ _) hen2
      by_cases hpd : p.diffuseMap = probe.diffuseMap
      · have hqd : q.diffuseMap ≠ probe.diffuseMap := by
          intro heq
          exact hpq (hpd.trans heq.symm)
        have hnq : q ≠ probe := by
          intro heq
          rw [heq] at hqd
          exact hqd rfl
        rcases List.mem_cons.mp hq with heq | hqin
        · exact absurd heq hnq
        · exact selectProbeTextures_chosen_differs rest _ _ _ t1 t2 t3 ⟨q, hqin, hqe, hqd⟩
      · have hnp : p ≠ probe := by
          intro heq
          rw [heq] at hpd
          exact hpd rfl
        rcases List.mem_cons.mp hp with heq | hpin
        · exact absurd heq hnp
        · exact selectProbeTextures_chosen_differs rest _ _ _ t1 t2 t3 ⟨p, hpin, hpe, hpd⟩

/-- What `PrepareLights` leaves behind when the selection ends with the error. -/
theorem forward_PrepareLights_rejected (self : ForwardShadingPass) (dev : Device)
    (context : Context) (lights : List Light) (lightProbes : List LightProbe)
    (h : selectProbeTextures lightProbes (none, none, none) = none) :
    self.PrepareLights dev context lights lightProbes
      = { pass := self, context := context, loggedError := true } := by
  unfold PrepareLights
  dsimp only
  rw [h]

/-- The error is logged only when the selection ends with the error. -/
theorem forward_PrepareLights_loggedError (self : ForwardShadingPass) (dev : Device)
    (context : Context) (lights : List Light) (lightProbes : List LightProbe)
    (h : (self.PrepareLights dev context lights lightProbes).loggedError = true) :
    selectProbeTextures lightProbes (none, none, none) = none := by
  revert h
  unfold PrepareLights
  dsimp only
  split
  · intro _; assumption
  · intro h; cases h

/-- The shading binding set of the context takes part in nothing but the bindings that
`SetupMaterial` stores along with a pipeline. -/
theorem forward_setupMaterial_shading_independent (self : ForwardShadingPass)
    (call : MaterialCall Context) (h : Handle) :
    (self.setupMaterial
        { call with context := { call.context with shadingBindingSet := h } }).ret
      = (self.setupMaterial call).ret
    ∧ (self.setupMaterial
        { call with context := { call.context with shadingBindingSet := h } }).pass
      = (self.setupMaterial call).pass
    ∧ (self.setupMaterial
        { call with context := { call.context with shadingBindingSet := h } }).state.pipeline
      = (self.setupMaterial call).state.pipeline := by
  unfold setupMaterial SetupMaterial
  dsimp only
  repeat' split
  all_goals exact ⟨rfl, rfl, rfl⟩

/-- The third binding of a successful `SetupMaterial` is the shading binding set of the
context. -/
theorem forward_setupMaterial_third_binding (self : ForwardShadingPass)
    (call : MaterialCall Context) (h : (self.setupMaterial call).ret = true) :
    (self.setupMaterial call).state.bindings[2]? = some call.context.shadingBindingSet := by
  revert h
  unfold setupMaterial SetupMaterial
  dsimp only
  repeat' split
  all_goals first
    | (intro h; cases h; done)
    | (intro _; rfl)

end ForwardShadingPass

end MismatchedProbes

section C14

/-- Whatever textures are chosen so far: a list in which an enabled probe with all three
textures comes before an enabled probe with another diffuse map ends the selection with
the error. -/
theorem ForwardShadingPass.selectProbeTextures_textured_then_other
    (lightProbes : List LightProbe) :
    ∀ (d s b : Handle), ForwardShadingPass.TexturedProbeBeforeOtherDiffuse lightProbes →
      ForwardShadingPass.selectProbeTextures lightProbes (d, s, b) = none := by
  induction lightProbes with
  | nil =>
    intro d s b h
    obtain ⟨i, j, p, q, -, hp, -⟩ := h
    simp at hp
  | cons probe rest ih =>
    intro d s b h
    obtain ⟨i, j, p, q, hij, hp, hq, hpe, hqe, t1, t2, t3, hpq⟩ := h
    cases j with
    | zero => omega
    | succ j2 =>
      rw [List.getElem?_cons_succ] at hq
      cases i with
      | zero =>
        rw [List.getElem?_cons_zero] at hp
        cases hp
        have hqin : q ∈ rest := List.getElem?_mem hq
        unfold ForwardShadingPass.selectProbeTextures
        rw [if_neg (by rw [hpe]; decide)]
        by_cases hnull : d = none ∨ s = none ∨ b = none
        · rw [if_pos hnull]
          exact ForwardShadingPass.selectProbeTextures_chosen_differs rest _ _ _ t1 t2 t3
            ⟨q, hqin, hqe, fun h => hpq h.symm⟩
        · rw [if_neg hnull]
          by_cases hdiff : d ≠ probe.diffuseMap ∨ s ≠ probe.specularMap
              ∨ b ≠ probe.environmentBrdf
          · rw [if_pos hdiff]
          · rw [if_neg hdiff]
            have hd : d = probe.diffuseMap := by
              by_contra hcon
              exact hdiff (Or.inl hcon)
            have hdn : d ≠ none := fun h => hnull (Or.inl h)
            have hsn : s ≠ none := fun h => hnull (Or.inr (Or.inl h))
            have hbn : b ≠ none := fun h => hnull (Or.inr (Or.inr h))
            exact ForwardShadingPass.selectProbeTextures_chosen_differs rest d s b hdn hsn hbn
              ⟨q, hqin, hqe, fun h => hpq (by rw [← hd, h])⟩
      | succ i2 =>
        rw [List.getElem?_cons_succ] at hp
        have hrest : ForwardShadingPass.TexturedProbeBeforeOtherDiffuse rest :=
          ⟨i2, j2, p, q, by omega, hp, hq, hpe, hqe, t1, t2, t3, hpq⟩
        unfold ForwardShadingPass.selectProbeTextures
        split
        · exact ih d s b hrest
        · split
          · exact ih _ _ _ hrest
          · split
            · rfl
            · exact ih d s b hrest

/-- C14, the claim as worded fails: the sample list holds two enabled probes whose
diffuse maps differ, the first without textures and the second with the diffuse map 71,
and `PrepareLights` logs no error, stores a shading binding set into the context and
writes light constants. -/
theorem C14_counterexample_untextured_probe_first :
    ForwardShadingPass.DiffuseMapsDiffer Sample.probesFirstUntextured
    ∧ (Sample.forwardPass.PrepareLights Sample.workingDevice {} []
        Sample.probesFirstUntextured).loggedError = false
    ∧ (Sample.forwardPass.PrepareLights Sample.workingDevice {} []
        Sample.probesFirstUntextured).context.shadingBindingSet = some 9
    ∧ ({} : ForwardShadingPass.Context).shadingBindingSet = none
    ∧ (Sample.forwardPass.PrepareLights Sample.workingDevice {} []
        Sample.probesFirstUntextured).written.isSome = true :=
  ⟨⟨{}, by simp [Sample.probesFirstUntextured],
      { diffuseMap := some 71, specularMap := some 72, environmentBrdf := some 73 },
      by simp [Sample.probesFirstUntextured], rfl, rfl, by decide⟩,
    rfl, rfl, rfl, rfl⟩

/-- C14, amended: for every light-probe list that contains two enabled probes whose
diffuse maps differ, the one that comes first in the list having a diffuse map, a
specular map and an environment BRDF texture, `PrepareLights` logs an error, leaves the
context, and so its shading binding set, and the pass as they were, and writes no light
constants. -/
theorem C14_mismatched_probes_rejected (self : ForwardShadingPass) (dev : Device)
    (context : ForwardShadingPass.Context) (lights : List Light)
    (lightProbes : List LightProbe)
    (hm : ForwardShadingPass.TexturedProbeBeforeOtherDiffuse lightProbes) :
    (self.PrepareLights dev context lights lightProbes).loggedError = true
    ∧ (self.PrepareLights dev context lights lightProbes).context.shadingBindingSet
        = context.shadingBindingSet
    ∧ (self.PrepareLights dev context lights lightProbes).context = context
    ∧ (self.PrepareLights dev context lights lightProbes).pass = self
    ∧ (self.PrepareLights dev context lights lightProbes).written = none
    ∧ (self.PrepareLights dev context lights lightProbes).arrayWrites = [] := by
  rw [ForwardShadingPass.forward_PrepareLights_rejected self dev context lights lightProbes
    (ForwardShadingPass.selectProbeTextures_textured_then_other lightProbes none none none
      hm)]
  exact ⟨rfl, rfl, rfl, rfl, rfl, rfl⟩

/-- C14 on an enabled probe without textures followed by two textured probes with the
diffuse maps 70 and 71: the error is logged and nothing is written. -/
theorem C14_mismatched_probes_rejected_witness :
    ForwardShadingPass.TexturedProbeBeforeOtherDiffuse Sample.probesMismatchedAfterUntextured
    ∧ (Sample.forwardPass.PrepareLights Sample.workingDevice {} Sample.twentyLights
        Sample.probesMismatchedAfterUntextured).loggedError = true
    ∧ (Sample.forwardPass.PrepareLights Sample.workingDevice {} Sample.twentyLights
        Sample.probesMismatchedAfterUntextured).context.shadingBindingSet = none
    ∧ (Sample.forwardPass.PrepareLights Sample.workingDevice {} Sample.twentyLights
        Sample.probesMismatchedAfterUntextured).written = none :=
  have hm : ForwardShadingPass.TexturedProbeBeforeOtherDiffuse
      Sample.probesMismatchedAfterUntextured :=
    ⟨1, 2, { diffuseMap := some 70, specularMap := some 72, environmentBrdf := some 73 },
      { diffuseMap := some 71, specularMap := some 72, environmentBrdf := some 73 },
      by decide, rfl, rfl, rfl, rfl, by decide, by decide, by decide, by decide⟩
  ⟨hm,
    (C14_mismatched_probes_rejected Sample.forwardPass Sample.workingDevice {}
      Sample.twentyLights Sample.probesMismatchedAfterUntextured hm).1,
    (C14_mismatched_probes_rejected Sample.forwardPass Sample.workingDevice {}
      Sample.twentyLights Sample.probesMismatchedAfterUntextured hm).2.1,
    (C14_mismatched_probes_rejected Sample.forwardPass Sample.workingDevice {}
      Sample.twentyLights Sample.probesMismatchedAfterUntextured hm).2.2.2.2.1⟩

end C14

section C15

/-- C15, the claim as worded fails: on the sample pass `PrepareLights` with the
mismatched probes and a new context logs the error and leaves the shading binding set
of the context null; the `SetupMaterial` call that follows with that context returns
true, and the graphics state it hands out has a null shading binding set as its third
binding. -/
theorem C15_counterexample_setup_material_succeeds :
    (Sample.forwardPass.PrepareLights Sample.workingDevice {} []
        Sample.probesMismatched).loggedError = true
    ∧ (Sample.forwardPass.PrepareLights Sample.workingDevice {} []
        Sample.probesMismatched).context.shadingBindingSet = none
    ∧ ((Sample.forwardPass.PrepareLights Sample.workingDevice {} []
          Sample.probesMismatched).pass.setupMaterial
        ⟨Sample.workingDevice, Sample.cache,
          (Sample.forwardPass.PrepareLights Sample.workingDevice {} []
            Sample.probesMismatched).context,
          Sample.opaqueMaterial, RasterCullMode.Back, Sample.state⟩).ret = true
    ∧ ((Sample.forwardPass.PrepareLights Sample.workingDevice {} []
          Sample.probesMismatched).pass.setupMaterial
        ⟨Sample.workingDevice, Sample.cache,
          (Sample.forwardPass.PrepareLights Sample.workingDevice {} []
            Sample.probesMismatched).context,
          Sample.opaqueMaterial, RasterCullMode.Back, Sample.state⟩).state.bindings
        = [some 41, some 22, none, none] :=
  ⟨rfl, rfl, rfl, rfl⟩

/-- C15, amended: when `PrepareLights` returned through the error on a context whose
shading binding set is null, the context still has a null shading binding set, and
every following `SetupMaterial` call with that context, on the pass in any state,
returns what it returns with any other shading binding set in the context, leaves the
same pass and selects the same pipeline; when it returns true the third binding of the
graphics state is the null shading binding set. -/
theorem C15_null_shading_binding_set_not_checked (self : ForwardShadingPass) (dev : Device)
    (context : ForwardShadingPass.Context) (lights : List Light)
    (lightProbes : List LightProbe)
    (hnull : context.shadingBindingSet = none)
    (herr : (self.PrepareLights dev context lights lightProbes).loggedError = true) :
    (self.PrepareLights dev context lights lightProbes).context.shadingBindingSet = none
    ∧ ∀ (pass : ForwardShadingPass) (call : MaterialCall ForwardShadingPass.Context),
        call.context = (self.PrepareLights dev context lights lightProbes).context →
        (∀ h : Handle,
          (pass.setupMaterial
              { call with context := { call.context with shadingBindingSet := h } }).ret
            = (pass.setupMaterial call).ret
          ∧ (pass.setupMaterial
              { call with context := { call.context with shadingBindingSet := h } }).pass
            = (pass.setupMaterial call).pass
          ∧ (pass.setupMaterial
              { call with context := { call.context with shadingBindingSet := h } }).state.pipeline
            = (pass.setupMaterial call).state.pipeline)
        ∧ ((pass.setupMaterial call).ret = true →
            (pass.setupMaterial call).state.bindings[2]? = some none) := by
  have hsel := ForwardShadingPass.forward_PrepareLights_loggedError self dev context lights
    lightProbes herr
  rw [ForwardShadingPass.forward_PrepareLights_rejected self dev context lights lightProbes hsel]
  refine ⟨hnull, ?_⟩
  intro pass call hctx
  refine ⟨fun h => ForwardShadingPass.forward_setupMaterial_shading_independent pass call h, ?_⟩
  intro hret
  rw [ForwardShadingPass.forward_setupMaterial_third_binding pass call hret, hctx]
  show some context.shadingBindingSet = some none
  rw [hnull]

/-- C15 on the sample pass after the mismatched probes: the call for the opaque
material returns true and its third binding is null. -/
theorem C15_null_shading_binding_set_not_checked_witness :
    ((Sample.forwardPass.setupMaterial
        ⟨Sample.workingDevice, Sample.cache,
          (Sample.forwardPass.PrepareLights Sample.workingDevice {} []
            Sample.probesMismatched).context,
          Sample.opaqueMaterial, RasterCullMode.Back, Sample.state⟩).ret = true)
    ∧ (Sample.forwardPass.setupMaterial
        ⟨Sample.workingDevice, Sample.cache,
          (Sample.forwardPass.PrepareLights Sample.workingDevice {} []
            Sample.probesMismatched).context,
          Sample.opaqueMaterial, RasterCullMode.Back, Sample.state⟩).state.bindings[2]?
        = some none :=
  ⟨rfl,
    ((C15_null_shading_binding_set_not_checked Sample.forwardPass Sample.workingDevice {} []
      Sample.probesMismatched rfl rfl).2 Sample.forwardPass
      ⟨Sample.workingDevice, Sample.cache,
        (Sample.forwardPass.PrepareLights Sample.workingDevice {} []
          Sample.probesMismatched).context,
        Sample.opaqueMaterial, RasterCullMode.Back, Sample.state⟩ rfl).2 rfl⟩

end C15

/-! ## Keyframe sampler: the search -/

section SamplerLemmas

namespace animation

/-- In a sorted array an earlier keyframe has the earlier or the same time. -/
theorem sorted_time_le (keyframes : List Keyframe) (hs : SortedByTime keyframes)
    (i j : Nat) (a b : Keyframe) (hij : i ≤ j) (ha : keyframes[i]? = some a)
    (hb : keyframes[j]? = some b) : a.time ≤ b.time := by
  obtain ⟨hi, rfl⟩ := List.getElem?_eq_some.mp ha
  obtain ⟨hj, rfl⟩ := List.getElem?_eq_some.mp hb
  rcases Nat.lt_or_eq_of_le hij with hlt | heq
  · exact (List.pairwise_iff_getElem.mp hs) i j hi hj hlt
  · subst heq
    exact le_refl _

/-- In a sorted array at most one pair of consecutive keyframes brackets a time. -/
theorem bracket_unique (keyframes : List Keyframe) (hs : SortedByTime keyframes) (time : ℚ)
    (i j : Nat) (b c kb kc : Keyframe)
    (hb : keyframes[i]? = some b) (hc : keyframes[i + 1]? = some c)
    (hbt : b.time ≤ time) (hct : time < c.time)
    (hkb : keyframes[j]? = some kb) (hkc : keyframes[j + 1]? = some kc)
    (hkbt : kb.time ≤ time) (hkct : time < kc.time) : j = i := by
  rcases Nat.lt_trichotomy i j with hlt | heq | hgt
  · have h := sorted_time_le keyframes hs (i + 1) j c kb hlt hc hkb
    exact absurd (lt_of_lt_of_le hct (le_trans h hkbt)) (lt_irrefl _)
  · exact heq.symm
  · have h := sorted_time_le keyframes hs (j + 1) i kc b hgt hkc hb
    exact absurd (lt_of_lt_of_le hkct (le_trans h hbt)) (lt_irrefl _)

/-- The loop finds a bracketing pair: while the keyframe at `left` is not after the time
and the keyframe at `right + 1` is after it, the search, given as many iterations as
the distance between the two, stops at an index between `left` and `right` whose pair
brackets the time. The array need not be sorted. -/
theorem search_found (keyframes : List Keyframe) (time : ℚ) :
    ∀ (fuel left right : Nat) (kl kr : Keyframe),
      left ≤ right + 1 → keyframes[left]? = some kl → keyframes[right + 1]? = some kr →
      kl.time ≤ time → time < kr.time → right + 1 - left ≤ fuel →
      ∃ (i : Nat) (b c : Keyframe),
        search keyframes time fuel left right = SearchOutcome.stopped i i
        ∧ keyframes[i]? = some b ∧ keyframes[i + 1]? = some c
        ∧ b.time ≤ time ∧ time < c.time ∧ left ≤ i ∧ i ≤ right := by
  intro fuel
  induction fuel with
  | zero =>
    intro left right kl kr hlr hl hr hlt hrt hfuel
    have heq : left = right + 1 := by omega
    rw [heq, hr] at hl
    cases hl
    exact absurd (lt_of_lt_of_le hrt hlt) (lt_irrefl _)
  | succ fuel ih =>
    intro left right kl kr hlr hl hr hlt hrt hfuel
    have hle : left ≤ right := by
      by_contra hcon
      have heq : left = right + 1 := by omega
      rw [heq, hr] at hl
      cases hl
      exact absurd (lt_of_lt_of_le hrt hlt) (lt_irrefl _)
    obtain ⟨hrlen, -⟩ := List.getElem?_eq_some.mp hr
    have hm1 : left ≤ (left + right) / 2 := by omega
    have hm2 : (left + right) / 2 ≤ right := by omega
    have hmlen : (left + right) / 2 < keyframes.length := by omega
    have hmlen1 : (left + right) / 2 + 1 < keyframes.length := by omega
    have hb : keyframes[(left + right) / 2]? = some keyframes[(left + right) / 2] :=
      List.getElem?_eq_getElem hmlen
    have hc : keyframes[(left + right) / 2 + 1]? = some keyframes[(left + right) / 2 + 1] :=
      List.getElem?_eq_getElem hmlen1
    unfold search
    rw [if_pos hle]
    simp only [hb, hc]
    by_cases h1 : time < (keyframes[(left + right) / 2]).time
    · rw [if_pos h1]
      have hne : (left + right) / 2 ≠ left := by
        intro heq
        have hl2 := hl
        rw [← heq, hb] at hl2
        cases hl2
        exact absurd (lt_of_lt_of_le h1 hlt) (lt_irrefl _)
      have hpos : (left + right) / 2 ≠ 0 := by omega
      rw [if_neg hpos]
      have hr2 : keyframes[(left + right) / 2 - 1 + 1]?
          = some keyframes[(left + right) / 2] := by
        have : (left + right) / 2 - 1 + 1 = (left + right) / 2 := by omega
        rw [this]
        exact hb
      obtain ⟨i, b, c, hs, hib, hic, hbt, hct, hli, hir⟩ :=
        ih left ((left + right) / 2 - 1) kl _ (by omega) hl hr2 hlt h1 (by omega)
      exact ⟨i, b, c, hs, hib, hic, hbt, hct, hli, by omega⟩
    · rw [if_neg h1]
      by_cases h2 : time ≥ (keyframes[(left + right) / 2 + 1]).time
      · rw [if_pos h2]
        obtain ⟨i, b, c, hs, hib, hic, hbt, hct, hli, hir⟩ :=
          ih ((left + right) / 2 + 1) right _ kr (by omega) hc hr h2 hrt (by omega)
        exact ⟨i, b, c, hs, hib, hic, hbt, hct, by omega, hir⟩
      · rw [if_neg h2]
        exact ⟨_, _, _, rfl, hb, hc, not_lt.mp h1, not_le.mp h2, hm1, hm2⟩

/-- At or before the first keyframe `Evaluate` returns the first value. -/
theorem Evaluate_before_first (slerp : Float4 → Float4 → ℚ → Float4) (self : Sampler)
    (time : ℚ) (extrapolateLastValues : Bool) (first : Keyframe)
    (hfirst : self.m_Keyframes[0]? = some first) (h : time ≤ first.time) :
    self.Evaluate slerp time extrapolateLastValues = Evaluated.result (some first.value) := by
  obtain ⟨keyframes, mode⟩ := self
  cases keyframes with
  | nil => simp at hfirst
  | cons k rest =>
    simp only [List.getElem?_cons_zero, Option.some.injEq] at hfirst
    subst hfirst
    unfold Sampler.Evaluate
    simp only [if_pos h]

/-- After the first keyframe and at or after the last one `Evaluate` returns the last
value or nothing. -/
theorem Evaluate_after_last (slerp : Float4 → Float4 → ℚ → Float4) (self : Sampler)
    (time : ℚ) (extrapolateLastValues : Bool) (first last : Keyframe)
    (hfirst : self.m_Keyframes[0]? = some first)
    (hlast : self.m_Keyframes[self.m_Keyframes.length - 1]? = some last)
    (h1 : first.time < time) (h2 : last.time ≤ time) :
    self.Evaluate slerp time extrapolateLastValues
      = Evaluated.result (if extrapolateLastValues then some last.value else none) := by
  obtain ⟨keyframes, mode⟩ := self
  cases keyframes with
  | nil => simp at hfirst
  | cons k rest =>
    simp only [List.getElem?_cons_zero, Option.some.injEq] at hfirst
    subst hfirst
    unfold Sampler.Evaluate
    simp only [if_neg (not_le.mpr h1), List.getD_eq_getElem?_getD]
    dsimp only at hlast
    rw [hlast]
    simp only [Option.getD_some]
    rw [if_pos (Or.inr h2)]
    cases extrapolateLastValues <;> rfl

/-- Strictly between the first and the last keyframe `Evaluate` interpolates over a
bracketing pair that the search finds. The array need not be sorted. -/
theorem Evaluate_interior (slerp : Float4 → Float4 → ℚ → Float4) (self : Sampler)
    (time : ℚ) (extrapolateLastValues : Bool) (first last : Keyframe)
    (hfirst : self.m_Keyframes[0]? = some first)
    (hlast : self.m_Keyframes[self.m_Keyframes.length - 1]? = some last)
    (h1 : first.time < time) (h2 : time < last.time) :
    ∃ (i : Nat) (a b c d : Keyframe),
      self.m_Keyframes[i]? = some b ∧ self.m_Keyframes[i + 1]? = some c
      ∧ b.time ≤ time ∧ time < c.time
      ∧ (if 0 < i then self.m_Keyframes[i - 1]? = some a else a = b)
      ∧ (if i < self.m_Keyframes.length - 2 then self.m_Keyframes[i + 2]? = some d else d = c)
      ∧ self.Evaluate slerp time extrapolateLastValues
          = Evaluated.result (some (Interpolate slerp self.m_Mode a b c d
              ((time - b.time) / (c.time - b.time)) (c.time - b.time))) := by
  obtain ⟨keyframes, mode⟩ := self
  cases keyframes with
  | nil => simp at hfirst
  | cons k rest =>
    dsimp only at hfirst hlast ⊢
    have hfirst2 := hfirst
    simp only [List.getElem?_cons_zero, Option.some.injEq] at hfirst2
    subst hfirst2
    have hlen : 2 ≤ (k :: rest).length := by
      by_contra hcon
      have h0 : (k :: rest).length - 1 = 0 := by
        simp only [List.length_cons] at hcon ⊢
        omega
      rw [h0, hfirst] at hlast
      cases hlast
      exact absurd (lt_trans h1 h2) (lt_irrefl _)
    have hlast2 : (k :: rest)[(k :: rest).length - 2 + 1]? = some last := by
      have : (k :: rest).length - 2 + 1 = (k :: rest).length - 1 := by omega
      rw [this]
      exact hlast
    obtain ⟨i, b, c, hs, hib, hic, hbt, hct, -, hir⟩ :=
      search_found (k :: rest) time (k :: rest).length 0 ((k :: rest).length - 2) k last
        (by omega) hfirst hlast2 (le_of_lt h1) h2 (by omega)
    refine ⟨i, if 0 < i then (k :: rest).getD (i - 1) b else b, b, c,
      if i < (k :: rest).length - 2 then (k :: rest).getD (i + 2) c else c,
      hib, hic, hbt, hct, ?_, ?_, ?_⟩
    · split
      · obtain ⟨hi, -⟩ := List.getElem?_eq_some.mp hib
        rw [List.getD_eq_getElem?_getD,
          List.getElem?_eq_getElem (by omega : i - 1 < (k :: rest).length)]
        rfl
      · rfl
    · split
      · rename_i hlt
        rw [List.getD_eq_getElem?_getD,
          List.getElem?_eq_getElem (by omega : i + 2 < (k :: rest).length)]
        rfl
      · rfl
    · unfold Sampler.Evaluate
      simp only [if_neg (not_le.mpr h1), List.getD_eq_getElem?_getD]
      rw [hlast]
      simp only [Option.getD_some]
      have hcount : ¬ ((k :: rest).length = 1 ∨ time ≥ last.time) := by
        intro hor
        rcases hor with hor | hor
        · omega
        · exact absurd (lt_of_lt_of_le h2 hor) (lt_irrefl _)
      rw [if_neg hcount]
      simp only [hs, hib, hic]
      have hval : ¬ (time < b.time ∨ time ≥ c.time) := by
        intro hor
        rcases hor with hor | hor
        · exact absurd (lt_of_lt_of_le hor hbt) (lt_irrefl _)
        · exact absurd (lt_of_lt_of_le hct hor) (lt_irrefl _)
      rw [if_neg hval]

end animation

end SamplerLemmas

/-! ## C16 to C20: the keyframe sampler -/

section C16

/-- C16: for every sampler whose keyframe array is sorted by time and has at least two
entries, and every time strictly between the time of the first and the time of the last
keyframe, there is exactly one index `i` with `keyframes[i].time ≤ time <
keyframes[i+1].time`, and `Sampler::Evaluate` returns the non-empty result
`Interpolate(mode, a, b, c, d, u, dt)` with `b = keyframes[i]`, `c = keyframes[i+1]`,
`a = keyframes[i-1]` if `i > 0` and `b` otherwise, `d = keyframes[i+2]` if
`i < count - 2` and `c` otherwise, `dt = c.time - b.time` and
`u = (time - b.time) / dt`. -/
theorem C16_evaluate_interpolates_bracketing_pair
    (slerp : animation.Float4 → animation.Float4 → ℚ → animation.Float4)
    (self : animation.Sampler) (time : ℚ) (extrapolateLastValues : Bool)
    (first last : animation.Keyframe)
    (hs : animation.SortedByTime self.m_Keyframes)
    (_hlen : 2 ≤ self.m_Keyframes.length)
    (hfirst : self.m_Keyframes[0]? = some first)
    (hlast : self.m_Keyframes[self.m_Keyframes.length - 1]? = some last)
    (h1 : first.time < time) (h2 : time < last.time) :
    ∃ (i : Nat) (a b c d : animation.Keyframe),
      self.m_Keyframes[i]? = some b ∧ self.m_Keyframes[i + 1]? = some c
      ∧ b.time ≤ time ∧ time < c.time
      ∧ (∀ (j : Nat) (kb kc : animation.Keyframe),
          self.m_Keyframes[j]? = some kb → self.m_Keyframes[j + 1]? = some kc →
          kb.time ≤ time → time < kc.time → j = i)
      ∧ (if 0 < i then self.m_Keyframes[i - 1]? = some a else a = b)
      ∧ (if i < self.m_Keyframes.length - 2 then self.m_Keyframes[i + 2]? = some d else d = c)
      ∧ self.Evaluate slerp time extrapolateLastValues
          = animation.Evaluated.result (some (animation.Interpolate slerp self.m_Mode a b c d
              ((time - b.time) / (c.time - b.time)) (c.time - b.time))) := by
  obtain ⟨i, a, b, c, d, hb, hc, hbt, hct, ha, hd, he⟩ :=
    animation.Evaluate_interior slerp self time extrapolateLastValues first last hfirst hlast
      h1 h2
  exact ⟨i, a, b, c, d, hb, hc, hbt, hct,
    fun j kb kc hkb hkc hkbt hkct =>
      animation.bracket_unique self.m_Keyframes hs time i j b c kb kc hb hc hbt hct hkb hkc
        hkbt hkct,
    ha, hd, he⟩

/-- C16 on the keyframes at the times 0, 1, 2, 3 in Linear mode, at the time 3/2. -/
theorem C16_evaluate_interpolates_bracketing_pair_witness :
    animation.SortedByTime Sample.linearSampler.m_Keyframes
    ∧ ∃ (i : Nat) (a b c d : animation.Keyframe),
      Sample.linearSampler.m_Keyframes[i]? = some b
      ∧ Sample.linearSampler.m_Keyframes[i + 1]? = some c
      ∧ b.time ≤ 3 / 2 ∧ 3 / 2 < c.time
      ∧ (∀ (j : Nat) (kb kc : animation.Keyframe),
          Sample.linearSampler.m_Keyframes[j]? = some kb →
          Sample.linearSampler.m_Keyframes[j + 1]? = some kc →
          kb.time ≤ 3 / 2 → 3 / 2 < kc.time → j = i)
      ∧ (if 0 < i then Sample.linearSampler.m_Keyframes[i - 1]? = some a else a = b)
      ∧ (if i < Sample.linearSampler.m_Keyframes.length - 2
          then Sample.linearSampler.m_Keyframes[i + 2]? = some d else d = c)
      ∧ Sample.linearSampler.Evaluate Sample.slerp (3 / 2) false
          = animation.Evaluated.result (some (animation.Interpolate Sample.slerp
              Sample.linearSampler.m_Mode a b c d
              ((3 / 2 - b.time) / (c.time - b.time)) (c.time - b.time))) :=
  have hs : animation.SortedByTime Sample.linearSampler.m_Keyframes := by
    unfold animation.SortedByTime
    with_unfolding_all decide
  ⟨hs, C16_evaluate_interpolates_bracketing_pair Sample.slerp Sample.linearSampler (3 / 2)
    false (Sample.keyframe 0 10) (Sample.keyframe 3 80) hs (by decide) rfl rfl
    (by with_unfolding_all decide) (by with_unfolding_all decide)⟩

end C16

section C17

/-- C17: for every non-empty keyframe array, every interpolation mode and both values
of `extrapolateLastValues`, `Sampler::Evaluate` at a time at or before the time of the
first keyframe returns a non-empty result, the value of the first keyframe. -/
theorem C17_evaluate_before_first
    (slerp : animation.Float4 → animation.Float4 → ℚ → animation.Float4)
    (self : animation.Sampler) (time : ℚ) (extrapolateLastValues : Bool)
    (first : animation.Keyframe)
    (hfirst : self.m_Keyframes[0]? = some first) (h : time ≤ first.time) :
    self.Evaluate slerp time extrapolateLastValues
      = animation.Evaluated.result (some first.value) :=
  animation.Evaluate_before_first slerp self time extrapolateLastValues first hfirst h

/-- C17 on the keyframes at the times 0, 1, 2, 3: at the time -1 the value is that of
keyframe 0. -/
theorem C17_evaluate_before_first_witness :
    Sample.linearSampler.Evaluate Sample.slerp (-1) false
      = animation.Evaluated.result (some ⟨10, 0, 0, 0⟩) :=
  C17_evaluate_before_first Sample.slerp Sample.linearSampler (-1) false
    (Sample.keyframe 0 10) rfl (by decide)

end C17

section C18

/-- C18, the claim as worded fails: the sample sampler has one keyframe, at time 0; the
time 0 is at the time of the last keyframe, and `Evaluate(0, false)` returns the value
of that keyframe, not an empty result. -/
theorem C18_counterexample_single_keyframe :
    Sample.singleSampler.m_Keyframes[Sample.singleSampler.m_Keyframes.length - 1]?
        = some (Sample.keyframe 0 10)
    ∧ (Sample.keyframe 0 10).time ≤ 0
    ∧ Sample.singleSampler.Evaluate Sample.slerp 0 false
        = animation.Evaluated.result (some ⟨10, 0, 0, 0⟩)
    ∧ Sample.singleSampler.Evaluate Sample.slerp 0 false ≠ animation.Evaluated.result none :=
  ⟨rfl, by decide, by decide, by decide⟩

/-- C18, amended: for every non-empty keyframe array and every time that is after the
time of the first keyframe and at or after the time of the last keyframe,
`Evaluate(time, true)` returns the value of the last keyframe and
`Evaluate(time, false)` returns an empty result. -/
theorem C18_evaluate_after_last
    (slerp : animation.Float4 → animation.Float4 → ℚ → animation.Float4)
    (self : animation.Sampler) (time : ℚ) (first last : animation.Keyframe)
    (hfirst : self.m_Keyframes[0]? = some first)
    (hlast : self.m_Keyframes[self.m_Keyframes.length - 1]? = some last)
    (h1 : first.time < time) (h2 : last.time ≤ time) :
    self.Evaluate slerp time true = animation.Evaluated.result (some last.value)
    ∧ self.Evaluate slerp time false = animation.Evaluated.result none :=
  ⟨animation.Evaluate_after_last slerp self time true first last hfirst hlast h1 h2,
    animation.Evaluate_after_last slerp self time false first last hfirst hlast h1 h2⟩

/-- C18 on the keyframes at the times 0, 1, 2, 3: at the time 10 the value is that of
keyframe 3 with extrapolation and empty without. -/
theorem C18_evaluate_after_last_witness :
    Sample.linearSampler.Evaluate Sample.slerp 10 true
        = animation.Evaluated.result (some ⟨80, 0, 0, 0⟩)
    ∧ Sample.linearSampler.Evaluate Sample.slerp 10 false = animation.Evaluated.result none :=
  C18_evaluate_after_last Sample.slerp Sample.linearSampler 10 (Sample.keyframe 0 10)
    (Sample.keyframe 3 80) rfl rfl (by decide) (by decide)

end C18

section C19

/-- C19: for every sampler in Linear mode with a sorted keyframe array and every time
strictly between the time of the first and the time of the last keyframe,
`Sampler::Evaluate` returns, for the one pair `(b, c)` of consecutive keyframes that
brackets the time and `u = (time - b.time) / (c.time - b.time)`, the value whose every
component is `b + (c - b) * u` in exact arithmetic. In particular, with keyframes at
the times 0, 1, 2, 3, `Evaluate(1/2)` is the midpoint of the values of keyframe 0 and
keyframe 1 in every component. -/
theorem C19_linear_mode_is_exact_lerp :
    (∀ (slerp : animation.Float4 → animation.Float4 → ℚ → animation.Float4)
        (self : animation.Sampler) (time : ℚ) (extrapolateLastValues : Bool)
        (first last : animation.Keyframe),
        self.m_Mode = animation.InterpolationMode.Linear →
        animation.SortedByTime self.m_Keyframes →
        self.m_Keyframes[0]? = some first →
        self.m_Keyframes[self.m_Keyframes.length - 1]? = some last →
        first.time < time → time < last.time →
        ∃ (i : Nat) (b c : animation.Keyframe) (y : animation.Float4),
          self.m_Keyframes[i]? = some b ∧ self.m_Keyframes[i + 1]? = some c
          ∧ b.time ≤ time ∧ time < c.time
          ∧ (∀ (j : Nat) (kb kc : animation.Keyframe),
              self.m_Keyframes[j]? = some kb → self.m_Keyframes[j + 1]? = some kc →
              kb.time ≤ time → time < kc.time → j = i)
          ∧ self.Evaluate slerp time extrapolateLastValues
              = animation.Evaluated.result (some y)
          ∧ y.x = b.value.x + (c.value.x - b.value.x) * ((time - b.time) / (c.time - b.time))
          ∧ y.y = b.value.y + (c.value.y - b.value.y) * ((time - b.time) / (c.time - b.time))
          ∧ y.z = b.value.z + (c.value.z - b.value.z) * ((time - b.time) / (c.time - b.time))
          ∧ y.w = b.value.w + (c.value.w - b.value.w) * ((time - b.time) / (c.time - b.time)))
    ∧ (∀ (slerp : animation.Float4 → animation.Float4 → ℚ → animation.Float4)
        (k0 k1 k2 k3 : animation.Keyframe) (extrapolateLastValues : Bool),
        k0.time = 0 → k1.time = 1 → k2.time = 2 → k3.time = 3 →
        ∃ y : animation.Float4,
          animation.Sampler.Evaluate slerp
              { m_Keyframes := [k0, k1, k2, k3], m_Mode := animation.InterpolationMode.Linear }
              (1 / 2) extrapolateLastValues
            = animation.Evaluated.result (some y)
          ∧ y.x = (k0.value.x + k1.value.x) / 2 ∧ y.y = (k0.value.y + k1.value.y) / 2
          ∧ y.z = (k0.value.z + k1.value.z) / 2 ∧ y.w = (k0.value.w + k1.value.w) / 2) := by
  constructor
  · intro slerp self time extrapolateLastValues first last hmode hs hfirst hlast h1 h2
    obtain ⟨i, a, b, c, d, hb, hc, hbt, hct, -, -, he⟩ :=
      animation.Evaluate_interior slerp self time extrapolateLastValues first last hfirst
        hlast h1 h2
    rw [hmode] at he
    exact ⟨i, b, c, _, hb, hc, hbt, hct,
      fun j kb kc hkb hkc hkbt hkct =>
        animation.bracket_unique self.m_Keyframes hs time i j b c kb kc hb hc hbt hct hkb hkc
          hkbt hkct,
      he, rfl, rfl, rfl, rfl⟩
  · intro slerp k0 k1 k2 k3 extrapolateLastValues t0 t1 t2 t3
    have h1 : k0.time < 1 / 2 := by rw [t0]; norm_num
    have h2 : (1 / 2 : ℚ) < k3.time := by rw [t3]; norm_num
    obtain ⟨i, a, b, c, d, hb, hc, hbt, hct, -, -, he⟩ :=
      animation.Evaluate_interior slerp
        { m_Keyframes := [k0, k1, k2, k3], m_Mode := animation.InterpolationMode.Linear }
        (1 / 2) extrapolateLastValues k0 k3 rfl rfl h1 h2
    have hi : i = 0 := by
      dsimp only at hb hc
      match i, hb, hc with
      | 0, _, _ => rfl
      | 1, hb, _ =>
        simp only [List.getElem?_cons_succ, List.getElem?_cons_zero, Option.some.injEq] at hb
        subst hb
        rw [t1] at hbt
        norm_num at hbt
      | 2, hb, _ =>
        simp only [List.getElem?_cons_succ, List.getElem?_cons_zero, Option.some.injEq] at hb
        subst hb
        rw [t2] at hbt
        norm_num at hbt
      | 3, hb, _ =>
        simp only [List.getElem?_cons_succ, List.getElem?_cons_zero, Option.some.injEq] at hb
        subst hb
        rw [t3] at hbt
        norm_num at hbt
      | n + 4, hb, _ =>
        simp at hb
    subst hi
    dsimp only at hb hc
    simp only [List.getElem?_cons_succ, List.getElem?_cons_zero, Option.some.injEq,
      Nat.zero_add] at hb hc
    subst hb
    subst hc
    refine ⟨_, he, ?_, ?_, ?_, ?_⟩
    · show k0.value.x
          + (k1.value.x - k0.value.x) * ((1 / 2 - k0.time) / (k1.time - k0.time))
        = (k0.value.x + k1.value.x) / 2
      rw [t0, t1]
      ring
    · show k0.value.y
          + (k1.value.y - k0.value.y) * ((1 / 2 - k0.time) / (k1.time - k0.time))
        = (k0.value.y + k1.value.y) / 2
      rw [t0, t1]
      ring
    · show k0.value.z
          + (k1.value.z - k0.value.z) * ((1 / 2 - k0.time) / (k1.time - k0.time))
        = (k0.value.z + k1.value.z) / 2
      rw [t0, t1]
      ring
    · show k0.value.w
          + (k1.value.w - k0.value.w) * ((1 / 2 - k0.time) / (k1.time - k0.time))
        = (k0.value.w + k1.value.w) / 2
      rw [t0, t1]
      ring

/-- C19 on the keyframes at the times 0, 1, 2, 3 with the values 10, 20, 40, 80 in the
first component: `Evaluate(1/2)` has 15 there. -/
theorem C19_linear_mode_is_exact_lerp_witness :
    Sample.linearSampler.Evaluate Sample.slerp (1 / 2) false
        = animation.Evaluated.result (some ⟨15, 0, 0, 0⟩)
    ∧ ∃ y : animation.Float4,
      animation.Sampler.Evaluate Sample.slerp
          { m_Keyframes := [Sample.keyframe 0 10, Sample.keyframe 1 20, Sample.keyframe 2 40,
              Sample.keyframe 3 80],
            m_Mode := animation.InterpolationMode.Linear }
          (1 / 2) false
        = animation.Evaluated.result (some y)
      ∧ y.x = ((Sample.keyframe 0 10).value.x + (Sample.keyframe 1 20).value.x) / 2
      ∧ y.y = ((Sample.keyframe 0 10).value.y + (Sample.keyframe 1 20).value.y) / 2
      ∧ y.z = ((Sample.keyframe 0 10).value.z + (Sample.keyframe 1 20).value.z) / 2
      ∧ y.w = ((Sample.keyframe 0 10).value.w + (Sample.keyframe 1 20).value.w) / 2 :=
  ⟨by with_unfolding_all decide,
    C19_linear_mode_is_exact_lerp.2 Sample.slerp (Sample.keyframe 0 10) (Sample.keyframe 1 20)
      (Sample.keyframe 2 40) (Sample.keyframe 3 80) false rfl rfl rfl rfl⟩

end C19

section C20

/-- C20, the claim as worded fails: the sample array is sorted, its keyframes 1 and 2
are consecutive with the times 0 and 1, the time 0 lies in `[0, 1)`, and `Evaluate(0)`
in Step mode returns the value 10 of keyframe 0, which has the time 0 as well, not the
value 20 of keyframe 1. -/
theorem C20_counterexample_repeated_first_time :
    animation.SortedByTime Sample.repeatedStartSampler.m_Keyframes
    ∧ Sample.repeatedStartSampler.m_Mode = animation.InterpolationMode.Step
    ∧ Sample.repeatedStartSampler.m_Keyframes[1]? = some (Sample.keyframe 0 20)
    ∧ Sample.repeatedStartSampler.m_Keyframes[2]? = some (Sample.keyframe 1 40)
    ∧ (Sample.keyframe 0 20).time < (Sample.keyframe 1 40).time
    ∧ (Sample.keyframe 0 20).time ≤ 0 ∧ 0 < (Sample.keyframe 1 40).time
    ∧ Sample.repeatedStartSampler.Evaluate Sample.slerp 0 false
        = animation.Evaluated.result (some ⟨10, 0, 0, 0⟩)
    ∧ Sample.repeatedStartSampler.Evaluate Sample.slerp 0 false
        ≠ animation.Evaluated.result (some (Sample.keyframe 0 20).value) :=
  ⟨by unfold animation.SortedByTime; with_unfolding_all decide, rfl, rfl, rfl, by decide,
    by decide, by decide, by decide, by decide⟩

/-- C20, amended: for every sampler in Step mode with a keyframe array sorted by time,
every pair of consecutive keyframes `(b, c)` with `b.time < c.time`, and every time in
`[b.time, c.time)` that is after the time of the first keyframe, or any time in
`[b.time, c.time)` when `b` is the first keyframe, `Sampler::Evaluate` returns a
non-empty result, exactly `b.value`. -/
theorem C20_step_mode_returns_b
    (slerp : animation.Float4 → animation.Float4 → ℚ → animation.Float4)
    (self : animation.Sampler) (time : ℚ) (extrapolateLastValues : Bool)
    (i : Nat) (first b c : animation.Keyframe)
    (hmode : self.m_Mode = animation.InterpolationMode.Step)
    (hs : animation.SortedByTime self.m_Keyframes)
    (hfirst : self.m_Keyframes[0]? = some first)
    (hb : self.m_Keyframes[i]? = some b) (hc : self.m_Keyframes[i + 1]? = some c)
    (hbc : b.time < c.time) (hbt : b.time ≤ time) (hct : time < c.time)
    (hstart : i = 0 ∨ first.time < time) :
    self.Evaluate slerp time extrapolateLastValues
      = animation.Evaluated.result (some b.value) := by
  by_cases h1 : first.time < time
  · obtain ⟨hclen, -⟩ := List.getElem?_eq_some.mp hc
    have hlast : self.m_Keyframes[self.m_Keyframes.length - 1]?
        = some self.m_Keyframes[self.m_Keyframes.length - 1] :=
      List.getElem?_eq_getElem (by omega)
    have hcl := animation.sorted_time_le self.m_Keyframes hs (i + 1)
      (self.m_Keyframes.length - 1) c _ (by omega) hc hlast
    obtain ⟨j, a, kb, kc, d, hkb, hkc, hkbt, hkct, -, -, he⟩ :=
      animation.Evaluate_interior slerp self time extrapolateLastValues first _ hfirst hlast
        h1 (lt_of_lt_of_le hct hcl)
    have hji := animation.bracket_unique self.m_Keyframes hs time i j b c kb kc hb hc hbt hct
      hkb hkc hkbt hkct
    subst hji
    rw [hb] at hkb
    cases hkb
    rw [he, hmode]
    rfl
  · have hi : i = 0 := by
      rcases hstart with h | h
      · exact h
      · exact absurd h h1
    subst hi
    rw [hfirst] at hb
    cases hb
    exact animation.Evaluate_before_first slerp self time extrapolateLastValues first hfirst
      (not_lt.mp h1)

/-- C20 on the array with the repeated first time: for the pair of the keyframes 1 and
2 and the time 1/2, which is after the time of keyframe 0, the value is that of
keyframe 1. -/
theorem C20_step_mode_returns_b_witness :
    Sample.repeatedStartSampler.Evaluate Sample.slerp (1 / 2) false
      = animation.Evaluated.result (some ⟨20, 0, 0, 0⟩) :=
  C20_step_mode_returns_b Sample.slerp Sample.repeatedStartSampler (1 / 2) false 1
    (Sample.keyframe 0 10) (Sample.keyframe 0 20) (Sample.keyframe 1 40) rfl
    (by unfold animation.SortedByTime; with_unfolding_all decide) rfl rfl rfl (by decide)
    (by with_unfolding_all decide) (by with_unfolding_all decide)
    (Or.inr (by with_unfolding_all decide))

end C20

/-! ## C21 to C23, C29, C30: the interpolation and the search on any array -/

section SamplerAnyArray

namespace animation

/-- Two values with the same four components are the same value. -/
theorem Float4.eq_of_components (p q : Float4) (hx : p.x = q.x) (hy : p.y = q.y)
    (hz : p.z = q.z) (hw : p.w = q.w) : p = q := by
  cases p
  cases q
  simp only [Float4.mk.injEq]
  exact ⟨hx, hy, hz, hw⟩

/-- More iterations allowed do not change where the search stops. -/
theorem search_fuel_succ (keyframes : List Keyframe) (time : ℚ) :
    ∀ (fuel left right i j : Nat),
      search keyframes time fuel left right = SearchOutcome.stopped i j →
      search keyframes time (fuel + 1) left right = SearchOutcome.stopped i j := by
  intro fuel
  induction fuel with
  | zero =>
    intro left right i j h
    unfold search at h
    cases h
  | succ fuel ih =>
    intro left right i j h
    unfold search at h ⊢
    split
    · rename_i hle
      rw [if_pos hle] at h
      revert h
      dsimp only
      split
      · intro h; exact h
      · intro h; exact h
      · split
        · split
          · intro h; exact h
          · intro h; exact ih _ _ _ _ h
        · split
          · intro h; exact ih _ _ _ _ h
          · intro h; exact h
    · rename_i hle
      rw [if_neg hle] at h
      exact h

/-- The search stops at the same place with any larger number of iterations allowed. -/
theorem search_fuel_le (keyframes : List Keyframe) (time : ℚ) (fuel left right i j : Nat)
    (h : search keyframes time fuel left right = SearchOutcome.stopped i j) :
    ∀ more, search keyframes time (fuel + more) left right = SearchOutcome.stopped i j := by
  intro more
  induction more with
  | zero => exact h
  | succ n ih => exact search_fuel_succ keyframes time (fuel + n) left right i j ih

/-- `Evaluate` always returns an optional: the check after the search does not fire and
the search neither leaves the array, nor wraps `middle - 1`, nor runs out of the
iterations allowed. -/
theorem Evaluate_returns (slerp : Float4 → Float4 → ℚ → Float4) (self : Sampler)
    (time : ℚ) (extrapolateLastValues : Bool) :
    ∃ y, self.Evaluate slerp time extrapolateLastValues = Evaluated.result y := by
  cases hk : self.m_Keyframes with
  | nil =>
    refine ⟨none, ?_⟩
    unfold Sampler.Evaluate
    rw [hk]
  | cons k rest =>
    have hfirst : self.m_Keyframes[0]? = some k := by rw [hk, List.getElem?_cons_zero]
    have hlen : self.m_Keyframes.length - 1 < self.m_Keyframes.length := by
      rw [hk]
      simp
    have hlast := List.getElem?_eq_getElem hlen
    by_cases h1 : time ≤ k.time
    · exact ⟨_, Evaluate_before_first slerp self time extrapolateLastValues k hfirst h1⟩
    · by_cases h2 : (self.m_Keyframes[self.m_Keyframes.length - 1]).time ≤ time
      · exact ⟨_, Evaluate_after_last slerp self time extrapolateLastValues k _ hfirst hlast
          (not_le.mp h1) h2⟩
      · obtain ⟨i, a, b, c, d, -, -, -, -, -, -, he⟩ :=
          Evaluate_interior slerp self time extrapolateLastValues k _ hfirst hlast
            (not_le.mp h1) (not_le.mp h2)
        exact ⟨_, he⟩

end animation

end SamplerAnyArray

section C21

/-- C21: for all keyframes `a`, `b`, `c`, `d` and every `dt`, in exact arithmetic,
`Interpolate(CatmullRomSpline, a, b, c, d, 0, dt)` is `b.value` and
`Interpolate(CatmullRomSpline, a, b, c, d, 1, dt)` is `c.value`, whatever the values of
`a` and `d`. -/
theorem C21_catmull_rom_boundary_values
    (slerp : animation.Float4 → animation.Float4 → ℚ → animation.Float4)
    (a b c d : animation.Keyframe) (dt : ℚ) :
    animation.Interpolate slerp animation.InterpolationMode.CatmullRomSpline a b c d 0 dt
        = b.value
    ∧ animation.Interpolate slerp animation.InterpolationMode.CatmullRomSpline a b c d 1 dt
        = c.value := by
  constructor
  · apply animation.Float4.eq_of_components
    · show 1 / 2 * (((-a.value.x + 3 * b.value.x - 3 * c.value.x + d.value.x) * 0
          + (2 * a.value.x - 5 * b.value.x + 4 * c.value.x - d.value.x)) * 0
          + (-a.value.x + c.value.x)) * 0 + b.value.x = b.value.x
      ring
    · show 1 / 2 * (((-a.value.y + 3 * b.value.y - 3 * c.value.y + d.value.y) * 0
          + (2 * a.value.y - 5 * b.value.y + 4 * c.value.y - d.value.y)) * 0
          + (-a.value.y + c.value.y)) * 0 + b.value.y = b.value.y
      ring
    · show 1 / 2 * (((-a.value.z + 3 * b.value.z - 3 * c.value.z + d.value.z) * 0
          + (2 * a.value.z - 5 * b.value.z + 4 * c.value.z - d.value.z)) * 0
          + (-a.value.z + c.value.z)) * 0 + b.value.z = b.value.z
      ring
    · show 1 / 2 * (((-a.value.w + 3 * b.value.w - 3 * c.value.w + d.value.w) * 0
          + (2 * a.value.w - 5 * b.value.w + 4 * c.value.w - d.value.w)) * 0
          + (-a.value.w + c.value.w)) * 0 + b.value.w = b.value.w
      ring
  · apply animation.Float4.eq_of_components
    · show 1 / 2 * (((-a.value.x + 3 * b.value.x - 3 * c.value.x + d.value.x) * 1
          + (2 * a.value.x - 5 * b.value.x + 4 * c.value.x - d.value.x)) * 1
          + (-a.value.x + c.value.x)) * 1 + b.value.x = c.value.x
      ring
    · show 1 / 2 * (((-a.value.y + 3 * b.value.y - 3 * c.value.y + d.value.y) * 1
          + (2 * a.value.y - 5 * b.value.y + 4 * c.value.y - d.value.y)) * 1
          + (-a.value.y + c.value.y)) * 1 + b.value.y = c.value.y
      ring
    · show 1 / 2 * (((-a.value.z + 3 * b.value.z - 3 * c.value.z + d.value.z) * 1
          + (2 * a.value.z - 5 * b.value.z + 4 * c.value.z - d.value.z)) * 1
          + (-a.value.z + c.value.z)) * 1 + b.value.z = c.value.z
      ring
    · show 1 / 2 * (((-a.value.w + 3 * b.value.w - 3 * c.value.w + d.value.w) * 1
          + (2 * a.value.w - 5 * b.value.w + 4 * c.value.w - d.value.w)) * 1
          + (-a.value.w + c.value.w)) * 1 + b.value.w = c.value.w
      ring

end C21

section C22

/-- C22 on the code: the sample array, with the times 0, 5, 2, 3, is not sorted, and at
the time 1 `Evaluate` reaches the search (1 is after the first time 0 and before the
last time 3). The search stops at the pair 0, with the times 0 and 5; the check for an
incorrect search result does not fire, and `Evaluate` returns 12, the value interpolated
over that pair, while the keyframe with the time 2 is passed over: no error path is
taken. -/
theorem C22_unsorted_array_interpolated_without_error :
    ¬ animation.SortedByTime Sample.unsortedSampler.m_Keyframes
    ∧ Sample.unsortedSampler.m_Keyframes[0]? = some (Sample.keyframe 0 10)
    ∧ Sample.unsortedSampler.m_Keyframes[Sample.unsortedSampler.m_Keyframes.length - 1]?
        = some (Sample.keyframe 3 80)
    ∧ (Sample.keyframe 0 10).time < 1 ∧ 1 < (Sample.keyframe 3 80).time
    ∧ animation.search Sample.unsortedSampler.m_Keyframes 1
          Sample.unsortedSampler.m_Keyframes.length 0
          (Sample.unsortedSampler.m_Keyframes.length - 2)
        = animation.SearchOutcome.stopped 0 0
    ∧ Sample.unsortedSampler.Evaluate Sample.slerp 1 false
        = animation.Evaluated.result (some ⟨12, 0, 0, 0⟩)
    ∧ Sample.unsortedSampler.Evaluate Sample.slerp 1 false
        ≠ animation.Evaluated.incorrectSearchResult
    ∧ Sample.unsortedSampler.Evaluate Sample.slerp 1 false
        ≠ animation.Evaluated.result none :=
  ⟨by unfold animation.SortedByTime; with_unfolding_all decide, rfl, rfl, by decide, by decide,
    by with_unfolding_all decide, by with_unfolding_all decide, by with_unfolding_all decide,
    by with_unfolding_all decide⟩

end C22

section C23

/-- C23: for every keyframe array, sorted or not, and every time. `Sampler::Evaluate`
never ends in one of the undefined ways of the search: no `right = middle - 1` at
`middle = 0`, no keyframe read at `middle`, `middle + 1`, `offset` or `offset + 1` that
is not below `count`, and no more iterations than allowed. And when the search is
reached it stops at an index `offset` with `offset + 1` below `count`, so that the
reads at `offset - 1`, made only when `offset > 0`, and at `offset + 2`, made only when
`offset < count - 2`, are below `count` as well. -/
theorem C23_search_stays_inside_the_array :
    (∀ (slerp : animation.Float4 → animation.Float4 → ℚ → animation.Float4)
        (self : animation.Sampler) (time : ℚ) (extrapolateLastValues : Bool)
        (outcome : animation.SearchOutcome),
        self.Evaluate slerp time extrapolateLastValues ≠ animation.Evaluated.undefined outcome)
    ∧ (∀ (keyframes : List animation.Keyframe) (time : ℚ) (first last : animation.Keyframe),
        keyframes[0]? = some first → keyframes[keyframes.length - 1]? = some last →
        first.time < time → time < last.time →
        ∃ (offset : Nat),
          animation.search keyframes time keyframes.length 0 (keyframes.length - 2)
            = animation.SearchOutcome.stopped offset offset
          ∧ offset < keyframes.length ∧ offset + 1 < keyframes.length
          ∧ (0 < offset → offset - 1 < keyframes.length)
          ∧ (offset < keyframes.length - 2 → offset + 2 < keyframes.length)) := by
  constructor
  · intro slerp self time extrapolateLastValues outcome h
    obtain ⟨y, hy⟩ := animation.Evaluate_returns slerp self time extrapolateLastValues
    rw [hy] at h
    cases h
  · intro keyframes time first last hfirst hlast h1 h2
    have hlen : 2 ≤ keyframes.length := by
      by_contra hcon
      have h0 : keyframes.length - 1 = 0 := by omega
      rw [h0, hfirst] at hlast
      cases hlast
      exact absurd (lt_trans h1 h2) (lt_irrefl _)
    have hlast2 : keyframes[keyframes.length - 2 + 1]? = some last := by
      have : keyframes.length - 2 + 1 = keyframes.length - 1 := by omega
      rw [this]
      exact hlast
    obtain ⟨i, b, c, hs, hib, hic, -, -, -, hir⟩ :=
      animation.search_found keyframes time keyframes.length 0 (keyframes.length - 2) first
        last (by omega) hfirst hlast2 (le_of_lt h1) h2 (by omega)
    exact ⟨i, hs, by omega, by omega, fun _ => by omega, fun _ => by omega⟩

/-- C23 on the unsorted sample array at the time 1: the search stops at offset 0. -/
theorem C23_search_stays_inside_the_array_witness :
    ∃ (offset : Nat),
      animation.search Sample.unsortedSampler.m_Keyframes 1
          Sample.unsortedSampler.m_Keyframes.length 0
          (Sample.unsortedSampler.m_Keyframes.length - 2)
        = animation.SearchOutcome.stopped offset offset
      ∧ offset < Sample.unsortedSampler.m_Keyframes.length
      ∧ offset + 1 < Sample.unsortedSampler.m_Keyframes.length
      ∧ (0 < offset → offset - 1 < Sample.unsortedSampler.m_Keyframes.length)
      ∧ (offset < Sample.unsortedSampler.m_Keyframes.length - 2 →
          offset + 2 < Sample.unsortedSampler.m_Keyframes.length) :=
  C23_search_stays_inside_the_array.2 Sample.unsortedSampler.m_Keyframes 1
    (Sample.keyframe 0 10) (Sample.keyframe 3 80) rfl rfl (by decide) (by decide)

end C23

section SamplerCallArguments

namespace animation

/-- Strictly between the first and the last keyframe: the index at which the search
stops, the keyframes gathered around it, and the call of `Interpolate` whose value
`Evaluate` returns. The array need not be sorted. -/
theorem Evaluate_interior_at (slerp : Float4 → Float4 → ℚ → Float4) (self : Sampler)
    (time : ℚ) (extrapolateLastValues : Bool) (first last : Keyframe)
    (hfirst : self.m_Keyframes[0]? = some first)
    (hlast : self.m_Keyframes[self.m_Keyframes.length - 1]? = some last)
    (h1 : first.time < time) (h2 : time < last.time) :
    ∃ (i : Nat) (a b c d : Keyframe),
      search self.m_Keyframes time self.m_Keyframes.length 0 (self.m_Keyframes.length - 2)
        = SearchOutcome.stopped i i
      ∧ self.m_Keyframes[i]? = some b ∧ self.m_Keyframes[i + 1]? = some c
      ∧ b.time ≤ time ∧ time < c.time
      ∧ (if 0 < i then self.m_Keyframes[i - 1]? = some a else a = b)
      ∧ (if i < self.m_Keyframes.length - 2 then self.m_Keyframes[i + 2]? = some d else d = c)
      ∧ self.Evaluate slerp time extrapolateLastValues
          = Evaluated.result (some (Interpolate slerp self.m_Mode a b c d
              ((time - b.time) / (c.time - b.time)) (c.time - b.time))) := by
  obtain ⟨keyframes, mode⟩ := self
  cases keyframes with
  | nil => simp at hfirst
  | cons k rest =>
    dsimp only at hfirst hlast ⊢
    have hfirst2 := hfirst
    simp only [List.getElem?_cons_zero, Option.some.injEq] at hfirst2
    subst hfirst2
    have hlen : 2 ≤ (k :: rest).length := by
      by_contra hcon
      have h0 : (k :: rest).length - 1 = 0 := by
        simp only [List.length_cons] at hcon ⊢
        omega
      rw [h0, hfirst] at hlast
      cases hlast
      exact absurd (lt_trans h1 h2) (lt_irrefl _)
    have hlast2 : (k :: rest)[(k :: rest).length - 2 + 1]? = some last := by
      have : (k :: rest).length - 2 + 1 = (k :: rest).length - 1 := by omega
      rw [this]
      exact hlast
    obtain ⟨i, b, c, hs, hib, hic, hbt, hct, -, hir⟩ :=
      search_found (k :: rest) time (k :: rest).length 0 ((k :: rest).length - 2) k last
        (by omega) hfirst hlast2 (le_of_lt h1) h2 (by omega)
    refine ⟨i, if 0 < i then (k :: rest).getD (i - 1) b else b, b, c,
      if i < (k :: rest).length - 2 then (k :: rest).getD (i + 2) c else c,
      hs, hib, hic, hbt, hct, ?_, ?_, ?_⟩
    · split
      · obtain ⟨hi, -⟩ := List.getElem?_eq_some.mp hib
        rw [List.getD_eq_getElem?_getD,
          List.getElem?_eq_getElem (by omega : i - 1 < (k :: rest).length)]
        rfl
      · rfl
    · split
      · rename_i hlt
        rw [List.getD_eq_getElem?_getD,
          List.getElem?_eq_getElem (by omega : i + 2 < (k :: rest).length)]
        rfl
      · rfl
    · unfold Sampler.Evaluate
      simp only [if_neg (not_le.mpr h1), List.getD_eq_getElem?_getD]
      rw [hlast]
      simp only [Option.getD_some]
      have hcount : ¬ ((k :: rest).length = 1 ∨ time ≥ last.time) := by
        intro hor
        rcases hor with hor | hor
        · omega
        · exact absurd (lt_of_lt_of_le h2 hor) (lt_irrefl _)
      rw [if_neg hcount]
      simp only [hs, hib, hic]
      have hval : ¬ (time < b.time ∨ time ≥ c.time) := by
        intro hor
        rcases hor with hor | hor
        · exact absurd (lt_of_lt_of_le hor hbt) (lt_irrefl _)
        · exact absurd (lt_of_lt_of_le hct hor) (lt_irrefl _)
      rw [if_neg hval]

end animation

end SamplerCallArguments

section C29

/-- C29: for every keyframe array, sorted or not, and every time for which
`Sampler::Evaluate` gets past its early returns (the time is after the time of the first
keyframe and before the time of the last one), `Interpolate` is called with
`b = keyframes[offset]`, `c = keyframes[offset + 1]`, their neighbours `a` and `d`,
`dt = c.time - b.time` and `u = (time - b.time) / dt` for the index `offset` at which the
search stops, and there `dt` is strictly positive, so that the division computing `u`
is not by zero, and `0 ≤ u < 1`. -/
theorem C29_interpolation_parameter_in_unit_interval
    (slerp : animation.Float4 → animation.Float4 → ℚ → animation.Float4)
    (self : animation.Sampler) (time : ℚ) (extrapolateLastValues : Bool)
    (first last : animation.Keyframe)
    (hfirst : self.m_Keyframes[0]? = some first)
    (hlast : self.m_Keyframes[self.m_Keyframes.length - 1]? = some last)
    (h1 : first.time < time) (h2 : time < last.time) :
    ∃ (offset : Nat) (a b c d : animation.Keyframe),
      animation.search self.m_Keyframes time self.m_Keyframes.length 0
          (self.m_Keyframes.length - 2)
        = animation.SearchOutcome.stopped offset offset
      ∧ self.m_Keyframes[offset]? = some b ∧ self.m_Keyframes[offset + 1]? = some c
      ∧ (if 0 < offset then self.m_Keyframes[offset - 1]? = some a else a = b)
      ∧ (if offset < self.m_Keyframes.length - 2
          then self.m_Keyframes[offset + 2]? = some d else d = c)
      ∧ self.Evaluate slerp time extrapolateLastValues
          = animation.Evaluated.result (some (animation.Interpolate slerp self.m_Mode a b c d
              ((time - b.time) / (c.time - b.time)) (c.time - b.time)))
      ∧ b.time ≤ time ∧ time < c.time
      ∧ 0 < c.time - b.time
      ∧ c.time - b.time ≠ 0
      ∧ 0 ≤ (time - b.time) / (c.time - b.time)
      ∧ (time - b.time) / (c.time - b.time) < 1 := by
  obtain ⟨i, a, b, c, d, hs, hb, hc, hbt, hct, ha, hd, he⟩ :=
    animation.Evaluate_interior_at slerp self time extrapolateLastValues first last hfirst
      hlast h1 h2
  have hdt : 0 < c.time - b.time := by linarith
  refine ⟨i, a, b, c, d, hs, hb, hc, ha, hd, he, hbt, hct, hdt, ne_of_gt hdt, ?_, ?_⟩
  · exact div_nonneg (by linarith) (le_of_lt hdt)
  · rw [div_lt_one hdt]
    linarith

/-- C29 on the keyframes at the times 0, 1, 2, 3 at the time 1/2. -/
theorem C29_interpolation_parameter_in_unit_interval_witness :
    ∃ (offset : Nat) (a b c d : animation.Keyframe),
      animation.search Sample.linearSampler.m_Keyframes (1 / 2)
          Sample.linearSampler.m_Keyframes.length 0
          (Sample.linearSampler.m_Keyframes.length - 2)
        = animation.SearchOutcome.stopped offset offset
      ∧ Sample.linearSampler.m_Keyframes[offset]? = some b
      ∧ Sample.linearSampler.m_Keyframes[offset + 1]? = some c
      ∧ (if 0 < offset then Sample.linearSampler.m_Keyframes[offset - 1]? = some a else a = b)
      ∧ (if offset < Sample.linearSampler.m_Keyframes.length - 2
          then Sample.linearSampler.m_Keyframes[offset + 2]? = some d else d = c)
      ∧ Sample.linearSampler.Evaluate Sample.slerp (1 / 2) false
          = animation.Evaluated.result (some (animation.Interpolate Sample.slerp
              Sample.linearSampler.m_Mode a b c d
              ((1 / 2 - b.time) / (c.time - b.time)) (c.time - b.time)))
      ∧ b.time ≤ 1 / 2 ∧ 1 / 2 < c.time
      ∧ 0 < c.time - b.time
      ∧ c.time - b.time ≠ 0
      ∧ 0 ≤ (1 / 2 - b.time) / (c.time - b.time)
      ∧ (1 / 2 - b.time) / (c.time - b.time) < 1 :=
  C29_interpolation_parameter_in_unit_interval Sample.slerp Sample.linearSampler (1 / 2) false
    (Sample.keyframe 0 10) (Sample.keyframe 3 80) rfl rfl (by with_unfolding_all decide)
    (by with_unfolding_all decide)

end C29

section C30

/-- C30: for every keyframe array, sorted or not. One iteration of the loop, at
`left ≤ right` with `middle = (left + right) / 2`, either stops at `middle`, or goes on
with `right = middle - 1` (when the time is before `keyframes[middle].time`) or with
`left = middle + 1` (when the time is at or after `keyframes[middle + 1].time`), and
then `right - left + 1` is strictly smaller. And whenever `Sampler::Evaluate` reaches
the loop (which takes at least two keyframes), the loop stops at a found pair within
`count - 1` iterations, at the same place however many more are allowed. -/
theorem C30_search_terminates :
    (∀ (keyframes : List animation.Keyframe) (time : ℚ) (fuel left right : Nat)
        (kb kc : animation.Keyframe),
        left ≤ right → keyframes[(left + right) / 2]? = some kb →
        keyframes[(left + right) / 2 + 1]? = some kc →
        (time < kb.time → (left + right) / 2 ≠ 0 →
          animation.search keyframes time (fuel + 1) left right
            = animation.search keyframes time fuel left ((left + right) / 2 - 1)
          ∧ ((left + right) / 2 - 1) + 1 - left < right + 1 - left)
        ∧ (¬ time < kb.time → time ≥ kc.time →
          animation.search keyframes time (fuel + 1) left right
            = animation.search keyframes time fuel ((left + right) / 2 + 1) right
          ∧ right + 1 - ((left + right) / 2 + 1) < right + 1 - left)
        ∧ (¬ time < kb.time → ¬ time ≥ kc.time →
          animation.search keyframes time (fuel + 1) left right
            = animation.SearchOutcome.stopped ((left + right) / 2) ((left + right) / 2)))
    ∧ (∀ (keyframes : List animation.Keyframe) (time : ℚ) (first last : animation.Keyframe),
        keyframes[0]? = some first → keyframes[keyframes.length - 1]? = some last →
        first.time < time → time < last.time →
        2 ≤ keyframes.length
        ∧ ∃ (i : Nat), ∀ (more : Nat),
          animation.search keyframes time (keyframes.length - 1 + more) 0
              (keyframes.length - 2)
            = animation.SearchOutcome.stopped i i) := by
  constructor
  · intro keyframes time fuel left right kb kc hle hb hc
    refine ⟨?_, ?_, ?_⟩
    · intro ht hm
      constructor
      · conv_lhs => unfold animation.search
        rw [if_pos hle]
        simp only [hb, hc]
        rw [if_pos ht, if_neg hm]
      · omega
    · intro ht1 ht2
      constructor
      · conv_lhs => unfold animation.search
        rw [if_pos hle]
        simp only [hb, hc]
        rw [if_neg ht1, if_pos ht2]
      · omega
    · intro ht1 ht2
      conv_lhs => unfold animation.search
      rw [if_pos hle]
      simp only [hb, hc]
      rw [if_neg ht1, if_neg ht2]
  · intro keyframes time first last hfirst hlast h1 h2
    have hlen : 2 ≤ keyframes.length := by
      by_contra hcon
      have h0 : keyframes.length - 1 = 0 := by omega
      rw [h0, hfirst] at hlast
      cases hlast
      exact absurd (lt_trans h1 h2) (lt_irrefl _)
    have hlast2 : keyframes[keyframes.length - 2 + 1]? = some last := by
      have : keyframes.length - 2 + 1 = keyframes.length - 1 := by omega
      rw [this]
      exact hlast
    obtain ⟨i, b, c, hs, -⟩ :=
      animation.search_found keyframes time (keyframes.length - 1) 0 (keyframes.length - 2)
        first last (by omega) hfirst hlast2 (le_of_lt h1) h2 (by omega)
    exact ⟨hlen, i, animation.search_fuel_le keyframes time _ 0 _ i i hs⟩

/-- C30 on the unsorted sample array of four keyframes at the time 1: three iterations
are enough, and the loop stops at the pair 0. -/
theorem C30_search_terminates_witness :
    2 ≤ Sample.unsortedSampler.m_Keyframes.length
    ∧ ∃ (i : Nat), ∀ (more : Nat),
      animation.search Sample.unsortedSampler.m_Keyframes 1
          (Sample.unsortedSampler.m_Keyframes.length - 1 + more) 0
          (Sample.unsortedSampler.m_Keyframes.length - 2)
        = animation.SearchOutcome.stopped i i :=
  C30_search_terminates.2 Sample.unsortedSampler.m_Keyframes 1 (Sample.keyframe 0 10)
    (Sample.keyframe 3 80) rfl rfl (by decide) (by decide)

end C30

/-! ## C24: the index of the pipeline table -/

section C24

namespace ForwardShadingPass

theorem forward_key_setFrontCounterClockwise_value_lt (k : PipelineKey) (b : Bool)
    (h : k.value < PipelineKey.Count) :
    (k.setFrontCounterClockwise b).value < PipelineKey.Count := by
  have h2 : k.value < 128 := h
  cases b <;>
    simp only [PipelineKey.setFrontCounterClockwise, boolBit, writeBits, PipelineKey.Count,
      Nat.reducePow, Nat.reduceAdd, if_true, if_false, Bool.false_eq_true] <;> omega

theorem forward_key_setReverseDepth_value_lt (k : PipelineKey) (b : Bool)
    (h : k.value < PipelineKey.Count) :
    (k.setReverseDepth b).value < PipelineKey.Count := by
  have h2 : k.value < 128 := h
  cases b <;>
    simp only [PipelineKey.setReverseDepth, boolBit, writeBits, PipelineKey.Count,
      Nat.reducePow, Nat.reduceAdd, if_true, if_false, Bool.false_eq_true] <;> omega

theorem forward_key_setCullMode_value_lt (k : PipelineKey) (c : Nat)
    (h : k.value < PipelineKey.Count) : (k.setCullMode c).value < PipelineKey.Count := by
  have h2 : k.value < 128 := h
  simp only [PipelineKey.setCullMode, writeBits, PipelineKey.Count, Nat.reducePow,
    Nat.reduceAdd]
  omega

theorem forward_key_setDomain_value_lt (k : PipelineKey) (d : Nat)
    (h : k.value < PipelineKey.Count) : (k.setDomain d).value < PipelineKey.Count := by
  have h2 : k.value < 128 := h
  simp only [PipelineKey.setDomain, writeBits, PipelineKey.Count, Nat.reducePow,
    Nat.reduceAdd]
  omega

/-- A context that only `SetupView` has changed since its constructor has a key template
below `Count`. -/
theorem forward_contextAfterViews_value_lt (self : ForwardShadingPass) (views : List View) :
    (self.contextAfterViews views).keyTemplate.value < PipelineKey.Count := by
  unfold contextAfterViews
  have hgen : ∀ (views : List View) (context : Context),
      context.keyTemplate.value < PipelineKey.Count →
      (views.foldl (fun context view => (self.SetupView context view).1)
        context).keyTemplate.value < PipelineKey.Count := by
    intro views
    induction views with
    | nil => intro context h; exact h
    | cons view rest ih =>
      intro context h
      rw [List.foldl_cons]
      apply ih
      exact forward_key_setReverseDepth_value_lt _ _
        (forward_key_setFrontCounterClockwise_value_lt _ _ h)
  exact hgen views {} (by decide)

end ForwardShadingPass

namespace GBufferFillPass

theorem gbuffer_key_setFrontCounterClockwise_value_lt (k : PipelineKey) (b : Bool)
    (h : k.value < PipelineKey.Count) :
    (k.setFrontCounterClockwise b).value < PipelineKey.Count := by
  have h2 : k.value < 32 := h
  cases b <;>
    simp only [PipelineKey.setFrontCounterClockwise, boolBit, writeBits, PipelineKey.Count,
      Nat.reducePow, Nat.reduceAdd, if_true, if_false, Bool.false_eq_true] <;> omega

theorem gbuffer_key_setReverseDepth_value_lt (k : PipelineKey) (b : Bool)
    (h : k.value < PipelineKey.Count) :
    (k.setReverseDepth b).value < PipelineKey.Count := by
  have h2 : k.value < 32 := h
  cases b <;>
    simp only [PipelineKey.setReverseDepth, boolBit, writeBits, PipelineKey.Count,
      Nat.reducePow, Nat.reduceAdd, if_true, if_false, Bool.false_eq_true] <;> omega

theorem gbuffer_key_setCullMode_value_lt (k : PipelineKey) (c : Nat)
    (h : k.value < PipelineKey.Count) : (k.setCullMode c).value < PipelineKey.Count := by
  have h2 : k.value < 32 := h
  simp only [PipelineKey.setCullMode, writeBits, PipelineKey.Count, Nat.reducePow,
    Nat.reduceAdd]
  omega

theorem gbuffer_key_setAlphaTested_value_lt (k : PipelineKey) (b : Bool)
    (h : k.value < PipelineKey.Count) : (k.setAlphaTested b).value < PipelineKey.Count := by
  have h2 : k.value < 32 := h
  cases b <;>
    simp only [PipelineKey.setAlphaTested, boolBit, writeBits, PipelineKey.Count,
      Nat.reducePow, Nat.reduceAdd, if_true, if_false, Bool.false_eq_true] <;> omega

/-- A context that only `SetupView` has changed since its constructor has a key template
below `Count`. -/
theorem gbuffer_contextAfterViews_value_lt (self : GBufferFillPass)
    (views : List (View × View)) :
    (self.contextAfterViews views).keyTemplate.value < PipelineKey.Count := by
  unfold contextAfterViews
  have hgen : ∀ (views : List (View × View)) (context : Context),
      context.keyTemplate.value < PipelineKey.Count →
      (views.foldl (fun context view => (self.SetupView context view.1 view.2).1)
        context).keyTemplate.value < PipelineKey.Count := by
    intro views
    induction views with
    | nil => intro context h; exact h
    | cons view rest ih =>
      intro context h
      rw [List.foldl_cons]
      apply ih
      exact gbuffer_key_setReverseDepth_value_lt _ _
        (gbuffer_key_setFrontCounterClockwise_value_lt _ _ h)
  exact hgen views {} (by decide)

end GBufferFillPass

/-- C24: for every context created by its constructor and changed only by `SetupView`
calls, every material and every cull mode: whenever `ForwardShadingPass::SetupMaterial`
reaches the lookup `m_Pipelines[key.value]` the index is below 128, and whenever
`GBufferFillPass::SetupMaterial` reaches it the index is below 32; and the forward pass
returns false before the lookup when the domain is `MaterialDomain::Count` or above or
the cull mode is above `None`. -/
theorem C24_lookup_index_below_count :
    (∀ (viewPass self : ForwardShadingPass) (views : List View)
        (call : MaterialCall ForwardShadingPass.Context) (k : Nat),
        call.context = viewPass.contextAfterViews views →
        (self.setupMaterial call).lookup = some k →
        k < ForwardShadingPass.PipelineKey.Count ∧ k < 128)
    ∧ (∀ (self : ForwardShadingPass) (call : MaterialCall ForwardShadingPass.Context),
        call.material.domain ≥ MaterialDomain.Count ∨ call.cullMode > RasterCullMode.None →
        (self.setupMaterial call).lookup = none ∧ (self.setupMaterial call).ret = false)
    ∧ (∀ (viewPass self : GBufferFillPass) (views : List (View × View))
        (call : MaterialCall GBufferFillPass.Context) (k : Nat),
        call.context = viewPass.contextAfterViews views →
        (self.setupMaterial call).lookup = some k →
        k < GBufferFillPass.PipelineKey.Count ∧ k < 32) := by
  refine ⟨?_, ?_, ?_⟩
  · intro viewPass self views call k hctx hl
    obtain ⟨-, -, -, hk⟩ := ForwardShadingPass.forward_setupMaterial_key self call k hl
    have hlt : k < ForwardShadingPass.PipelineKey.Count := by
      rw [hk, hctx]
      exact ForwardShadingPass.forward_key_setDomain_value_lt _ _
        (ForwardShadingPass.forward_key_setCullMode_value_lt _ _
          (ForwardShadingPass.forward_contextAfterViews_value_lt viewPass views))
    exact ⟨hlt, hlt⟩
  · intro self call h
    cases hl : (self.setupMaterial call).lookup with
    | none => exact ⟨rfl, (ForwardShadingPass.forward_setupMaterial_no_lookup self call hl).1⟩
    | some k =>
      obtain ⟨-, hd, hc, -⟩ := ForwardShadingPass.forward_setupMaterial_key self call k hl
      rcases h with h | h
      · exact absurd (Nat.lt_of_lt_of_le hd h) (Nat.lt_irrefl _)
      · exact absurd (Nat.lt_of_lt_of_le h hc) (Nat.lt_irrefl _)
  · intro viewPass self views call k hctx hl
    obtain ⟨b, -, -, hk, -⟩ := GBufferFillPass.gbuffer_setupMaterial_key self call k hl
    have hlt : k < GBufferFillPass.PipelineKey.Count := by
      rw [hk, hctx]
      exact GBufferFillPass.gbuffer_key_setAlphaTested_value_lt _ _
        (GBufferFillPass.gbuffer_key_setCullMode_value_lt _ _
          (GBufferFillPass.gbuffer_contextAfterViews_value_lt viewPass views))
    exact ⟨hlt, hlt⟩

/-- C24 on the sample forward pass: after one `SetupView` with a mirrored reverse-depth
view, the call for the alpha-blended material with cull mode Back reads the table at
index 98, below 128. -/
theorem C24_lookup_index_below_count_witness :
    (Sample.forwardPass.setupMaterial
        { Sample.alphaBlendedCall with
          context := Sample.forwardPass.contextAfterViews [Sample.view] }).lookup = some 98
    ∧ 98 < ForwardShadingPass.PipelineKey.Count ∧ 98 < 128 :=
  ⟨rfl,
    C24_lookup_index_below_count.1 Sample.forwardPass Sample.forwardPass [Sample.view]
      { Sample.alphaBlendedCall with
        context := Sample.forwardPass.contextAfterViews [Sample.view] } 98 rfl rfl⟩

end C24

/-! ## C27: the graphics state after a call that returns false -/

section C27

/-- A forward or G-buffer call that returns false hands the graphics state back as it
was. -/
theorem ForwardShadingPass.forward_setupMaterial_false_state (self : ForwardShadingPass)
    (call : MaterialCall ForwardShadingPass.Context)
    (h : (self.setupMaterial call).ret = false) :
    (self.setupMaterial call).state = call.state := by
  revert h
  unfold ForwardShadingPass.setupMaterial ForwardShadingPass.SetupMaterial
  dsimp only
  repeat' split
  all_goals first
    | (intro _; rfl)
    | (intro h; cases h)

theorem GBufferFillPass.gbuffer_setupMaterial_false_state (self : GBufferFillPass)
    (call : MaterialCall GBufferFillPass.Context)
    (h : (self.setupMaterial call).ret = false) :
    (self.setupMaterial call).state = call.state := by
  revert h
  unfold GBufferFillPass.setupMaterial GBufferFillPass.SetupMaterial
  dsimp only
  repeat' split
  all_goals first
    | (intro _; rfl)
    | (intro h; cases h)

/-- A depth call that returns false leaves every field of the graphics state but the
bindings as it was. -/
theorem DepthPass.depth_setupMaterial_false_state (self : DepthPass)
    (call : MaterialCall DepthPass.Context)
    (h : (self.setupMaterial call).ret = false) :
    (self.setupMaterial call).state.pipeline = call.state.pipeline
    ∧ (self.setupMaterial call).state.framebuffer = call.state.framebuffer
    ∧ (self.setupMaterial call).state.vertexBuffers = call.state.vertexBuffers
    ∧ (self.setupMaterial call).state.indexBuffer = call.state.indexBuffer := by
  revert h
  unfold DepthPass.setupMaterial DepthPass.SetupMaterial
  dsimp only
  repeat' split
  all_goals first
    | (intro _; exact ⟨rfl, rfl, rfl, rfl⟩)
    | (intro h; cases h)

/-- C27, the claim as worded fails on the depth pass: for an opaque material on a device
that returns no pipeline, `DepthPass::SetupMaterial` returns false after it has assigned
`state.bindings`; the graphics state came in with no bindings and goes out with the
view binding set and the input binding set of the context. -/
theorem C27_counterexample_depth_bindings_overwritten :
    (Sample.depthPass.setupMaterial
        ⟨Sample.failingDevice, Sample.cache, {}, Sample.opaqueMaterial, RasterCullMode.Back,
          Sample.state⟩).ret = false
    ∧ Sample.state.bindings = []
    ∧ (Sample.depthPass.setupMaterial
        ⟨Sample.failingDevice, Sample.cache, {}, Sample.opaqueMaterial, RasterCullMode.Back,
          Sample.state⟩).state.bindings = [some 22, none]
    ∧ (Sample.depthPass.setupMaterial
        ⟨Sample.failingDevice, Sample.cache, {}, Sample.opaqueMaterial, RasterCullMode.Back,
          Sample.state⟩).state ≠ Sample.state :=
  ⟨rfl, rfl, rfl, by decide⟩

/-- C27, amended: whenever `GBufferFillPass::SetupMaterial` or
`ForwardShadingPass::SetupMaterial` returns false the graphics state is exactly as it
was before the call. Whenever `DepthPass::SetupMaterial` returns false, `state.pipeline`
(and every field other than `state.bindings`) is as it was, and when it returns before
the read of `m_Pipelines` (material binding set unavailable, rejected domain) the whole
graphics state is as it was. -/
theorem C27_state_after_false :
    (∀ (self : GBufferFillPass) (call : MaterialCall GBufferFillPass.Context),
        (self.setupMaterial call).ret = false → (self.setupMaterial call).state = call.state)
    ∧ (∀ (self : ForwardShadingPass) (call : MaterialCall ForwardShadingPass.Context),
        (self.setupMaterial call).ret = false → (self.setupMaterial call).state = call.state)
    ∧ (∀ (self : DepthPass) (call : MaterialCall DepthPass.Context),
        (self.setupMaterial call).ret = false →
        (self.setupMaterial call).state.pipeline = call.state.pipeline
        ∧ (self.setupMaterial call).state.framebuffer = call.state.framebuffer
        ∧ (self.setupMaterial call).state.vertexBuffers = call.state.vertexBuffers
        ∧ (self.setupMaterial call).state.indexBuffer = call.state.indexBuffer
        ∧ ((self.setupMaterial call).lookup = none →
            (self.setupMaterial call).state = call.state)) := by
  refine ⟨?_, ?_, ?_⟩
  · exact fun self call h => GBufferFillPass.gbuffer_setupMaterial_false_state self call h
  · exact fun self call h => ForwardShadingPass.forward_setupMaterial_false_state self call h
  · intro self call h
    obtain ⟨h1, h2, h3, h4⟩ := DepthPass.depth_setupMaterial_false_state self call h
    exact ⟨h1, h2, h3, h4,
      fun hl => (DepthPass.depth_setupMaterial_no_lookup self call hl).2.1⟩

/-- C27 on the sample passes: the forward call on the failing device returns false with
the graphics state unchanged, and the depth call for a material whose domain the depth
pass rejects returns false before the table is read, with the graphics state
unchanged. -/
theorem C27_state_after_false_witness :
    (Sample.forwardPass.setupMaterial
        ⟨Sample.failingDevice, Sample.cache, {}, Sample.opaqueMaterial, RasterCullMode.Back,
          Sample.state⟩).state = Sample.state
    ∧ (Sample.depthPass.setupMaterial
        ⟨Sample.workingDevice, Sample.cache, {}, Sample.alphaBlendedMaterial,
          RasterCullMode.Back, Sample.state⟩).state = Sample.state :=
  ⟨C27_state_after_false.2.1 Sample.forwardPass
      ⟨Sample.failingDevice, Sample.cache, {}, Sample.opaqueMaterial, RasterCullMode.Back,
        Sample.state⟩ rfl,
    (C27_state_after_false.2.2 Sample.depthPass
      ⟨Sample.workingDevice, Sample.cache, {}, Sample.alphaBlendedMaterial,
        RasterCullMode.Back, Sample.state⟩ rfl).2.2.2.2 rfl⟩

end C27

/-! ## C28: the framebuffer a pipeline was created for -/

section C28

namespace DepthPass

end DepthPass

namespace GBufferFillPass

end GBufferFillPass

namespace ForwardShadingPass

end ForwardShadingPass

end C28

/-! ## C25, C26: the shading and view binding sets of the forward pass -/

section ForwardBindingSets

namespace ForwardShadingPass

/-- `CreateShadingBindingSet` hands the device the descriptor `shadingBindingSetDesc` and
the shading binding layout. -/
theorem forward_CreateShadingBindingSet_desc (self : ForwardShadingPass) (dev : Device)
    (shadowMapTexture diffuse specular environmentBrdf : Handle) :
    self.CreateShadingBindingSet dev shadowMapTexture diffuse specular environmentBrdf
      = dev.createBindingSet
          (self.shadingBindingSetDesc shadowMapTexture diffuse specular environmentBrdf)
          self.m_ShadingBindingLayout := rfl

/-- With no non-null entry under the selected pair, `PrepareLights` stores what
`CreateShadingBindingSet` returns for the four textures it selected. -/
theorem forward_PrepareLights_created (self : ForwardShadingPass) (dev : Device)
    (context : Context) (lights : List Light) (lightProbes : List LightProbe)
    (d sp en : Handle)
    (hsel : selectProbeTextures lightProbes (none, none, none) = some (d, sp, en))
    (hstored : self.m_ShadingBindingSets (firstShadowMapTexture lights, d) = none
      ∨ self.m_ShadingBindingSets (firstShadowMapTexture lights, d) = some none) :
    (self.PrepareLights dev context lights lightProbes).context.shadingBindingSet
      = self.CreateShadingBindingSet dev (firstShadowMapTexture lights) d sp en := by
  unfold PrepareLights
  dsimp only
  rw [hsel]
  dsimp only
  rcases hstored with h | h <;> rw [h] <;> rfl

/-- No call changes `m_TrackLiveness`. -/
theorem forward_step_trackLiveness (self : ForwardShadingPass) (op : Op) :
    (self.step op).m_TrackLiveness = self.m_TrackLiveness := by
  cases op with
  | setupMaterial call =>
    rcases forward_setupMaterial_log self call with h | ⟨k, e, hl, hs, -⟩
    · cases hl : (self.setupMaterial call).lookup with
      | none =>
        show (self.setupMaterial call).pass.m_TrackLiveness = _
        rw [(forward_setupMaterial_no_lookup self call hl).2.2]
      | some k =>
        cases hs : self.m_Pipelines k with
        | some p =>
          show (self.setupMaterial call).pass.m_TrackLiveness = _
          rw [(forward_setupMaterial_hit self call k p hs hl).2.2]
        | none =>
          obtain ⟨e, hp, -⟩ := forward_setupMaterial_miss self call k hs hl
          show (self.setupMaterial call).pass.m_TrackLiveness = _
          rw [hp]
    · obtain ⟨e, hp, -⟩ := forward_setupMaterial_miss self call k hs hl
      show (self.setupMaterial call).pass.m_TrackLiveness = _
      rw [hp]
  | setupInputBuffers dev context buffers state =>
    obtain ⟨m, hm⟩ := forward_SetupInputBuffers_pass self dev context buffers state
    show (self.SetupInputBuffers dev context buffers state).1.m_TrackLiveness = _
    rw [hm]
  | prepareLights dev context lights lightProbes =>
    obtain ⟨m, hm⟩ := forward_PrepareLights_pass self dev context lights lightProbes
    show (self.PrepareLights dev context lights lightProbes).pass.m_TrackLiveness = _
    rw [hm]
  | resetBindingCache => rfl

theorem forward_run_trackLiveness (ops : List Op) :
    ∀ (self : ForwardShadingPass), (self.run ops).m_TrackLiveness = self.m_TrackLiveness := by
  induction ops with
  | nil => intro self; rfl
  | cons op rest ih =>
    intro self
    show ((self.step op).run rest).m_TrackLiveness = _
    rw [ih (self.step op), forward_step_trackLiveness]

end ForwardShadingPass

end ForwardBindingSets

section C25

/-- C25, the claim as worded fails: on the sample pass, with a device whose binding-set
handle names the specular probe texture bound, a first `PrepareLights` call with probes
of the textures 70, 72, 73 gets the set 72; a second call on the same pass, whose probe
has the same diffuse map 70 but the specular map 82 and the environment BRDF texture 83,
returns without the error and gets the set 72 again, not a set that binds the textures
selected by this call, which would be the set 82; the descriptor of the set handed out
has no item for the specular texture 82. -/
theorem C25_counterexample_cached_set_of_other_textures :
    (Sample.forwardPass.PrepareLights Sample.namingDevice {} []
        Sample.probesConsistent).context.shadingBindingSet = some 72
    ∧ ((Sample.forwardPass.PrepareLights Sample.namingDevice {} []
          Sample.probesConsistent).pass.PrepareLights Sample.namingDevice {} []
        Sample.probesOtherSpecular).loggedError = false
    ∧ ForwardShadingPass.selectProbeTextures Sample.probesOtherSpecular (none, none, none)
        = some (some 70, some 82, some 83)
    ∧ ((Sample.forwardPass.PrepareLights Sample.namingDevice {} []
          Sample.probesConsistent).pass.PrepareLights Sample.namingDevice {} []
        Sample.probesOtherSpecular).context.shadingBindingSet = some 72
    ∧ (Sample.forwardPass.PrepareLights Sample.namingDevice {} []
          Sample.probesConsistent).pass.CreateShadingBindingSet Sample.namingDevice none
        (some 70) (some 82) (some 83) = some 82
    ∧ BindingSetItem.Texture_SRV
          ForwardShadingPass.FORWARD_BINDING_SPECULAR_LIGHT_PROBE_TEXTURE (some 82)
        ∉ (Sample.forwardPass.shadingBindingSetDesc none (some 70) (some 72)
            (some 73)).bindings :=
  ⟨rfl, rfl, rfl, rfl, rfl, by decide⟩

/-- C25, amended: after `PrepareLights` returns without the mismatch error, with the
shadow-map texture and the diffuse, specular and environment-BRDF probe textures
selected from this call's lights and probes: when `m_ShadingBindingSets` holds a
non-null handle for the pair (shadow-map texture, diffuse texture),
`context.shadingBindingSet` is that handle, whatever the specular and environment-BRDF
textures; otherwise it is what the device returns for a descriptor that binds the four
selected textures (the black fallbacks where one is null). Either way the handle is the
entry of the pair afterwards. -/
theorem C25_shading_binding_set_by_shadow_and_diffuse (self : ForwardShadingPass)
    (dev : Device) (context : ForwardShadingPass.Context) (lights : List Light)
    (lightProbes : List LightProbe)
    (hok : (self.PrepareLights dev context lights lightProbes).loggedError = false) :
    ∃ (diffuse specular environmentBrdf : Handle),
      ForwardShadingPass.selectProbeTextures lightProbes (none, none, none)
        = some (diffuse, specular, environmentBrdf)
      ∧ (∀ id, self.m_ShadingBindingSets (ForwardShadingPass.firstShadowMapTexture lights,
            diffuse) = some (some id) →
          (self.PrepareLights dev context lights lightProbes).context.shadingBindingSet
            = some id)
      ∧ ((self.m_ShadingBindingSets (ForwardShadingPass.firstShadowMapTexture lights, diffuse)
            = none
          ∨ self.m_ShadingBindingSets (ForwardShadingPass.firstShadowMapTexture lights,
            diffuse) = some none) →
          (self.PrepareLights dev context lights lightProbes).context.shadingBindingSet
            = dev.createBindingSet
                (self.shadingBindingSetDesc (ForwardShadingPass.firstShadowMapTexture lights)
                  diffuse specular environmentBrdf)
                self.m_ShadingBindingLayout)
      ∧ (self.shadingBindingSetDesc (ForwardShadingPass.firstShadowMapTexture lights)
            diffuse specular environmentBrdf).bindings.filterMap
          (fun item =>
            match item with
            | BindingSetItem.Texture_SRV slot texture => some (slot, texture)
            | _ => none)
          = [ (ForwardShadingPass.FORWARD_BINDING_SHADOW_MAP_TEXTURE,
                ForwardShadingPass.orElse (ForwardShadingPass.firstShadowMapTexture lights)
                  self.m_CommonPasses.m_BlackTexture2DArray),
              (ForwardShadingPass.FORWARD_BINDING_DIFFUSE_LIGHT_PROBE_TEXTURE,
                ForwardShadingPass.orElse diffuse self.m_CommonPasses.m_BlackCubeMapArray),
              (ForwardShadingPass.FORWARD_BINDING_SPECULAR_LIGHT_PROBE_TEXTURE,
                ForwardShadingPass.orElse specular self.m_CommonPasses.m_BlackCubeMapArray),
              (ForwardShadingPass.FORWARD_BINDING_ENVIRONMENT_BRDF_TEXTURE,
                ForwardShadingPass.orElse environmentBrdf
                  self.m_CommonPasses.m_BlackTexture) ]
      ∧ (self.PrepareLights dev context lights lightProbes).pass.m_ShadingBindingSets
            (ForwardShadingPass.firstShadowMapTexture lights, diffuse)
          = some (self.PrepareLights dev context lights lightProbes).context.shadingBindingSet := by
  cases hsel : ForwardShadingPass.selectProbeTextures lightProbes (none, none, none) with
  | none =>
    rw [(ForwardShadingPass.forward_PrepareLights_error self dev context lights lightProbes
      hsel).1] at hok
    cases hok
  | some chosen =>
    obtain ⟨d, sp, en⟩ := chosen
    obtain ⟨-, hentry, -, -, hkept⟩ :=
      ForwardShadingPass.forward_PrepareLights_selected self dev context lights lightProbes
        d sp en hsel
    refine ⟨d, sp, en, rfl, hkept, ?_, rfl, hentry⟩
    intro hstored
    rw [ForwardShadingPass.forward_PrepareLights_created self dev context lights lightProbes
      d sp en hsel hstored]
    rfl

/-- C25 on the sample pass with empty caches and the probes of the textures 70, 72, 73:
the set is created for this call's textures. -/
theorem C25_shading_binding_set_by_shadow_and_diffuse_witness :
    ∃ (diffuse specular environmentBrdf : Handle),
      ForwardShadingPass.selectProbeTextures Sample.probesConsistent (none, none, none)
        = some (diffuse, specular, environmentBrdf)
      ∧ (∀ id, Sample.forwardPass.m_ShadingBindingSets
            (ForwardShadingPass.firstShadowMapTexture [], diffuse) = some (some id) →
          (Sample.forwardPass.PrepareLights Sample.namingDevice {} []
            Sample.probesConsistent).context.shadingBindingSet = some id)
      ∧ ((Sample.forwardPass.m_ShadingBindingSets
            (ForwardShadingPass.firstShadowMapTexture [], diffuse) = none
          ∨ Sample.forwardPass.m_ShadingBindingSets
            (ForwardShadingPass.firstShadowMapTexture [], diffuse) = some none) →
          (Sample.forwardPass.PrepareLights Sample.namingDevice {} []
            Sample.probesConsistent).context.shadingBindingSet
            = Sample.namingDevice.createBindingSet
                (Sample.forwardPass.shadingBindingSetDesc
                  (ForwardShadingPass.firstShadowMapTexture []) diffuse specular
                  environmentBrdf)
                Sample.forwardPass.m_ShadingBindingLayout)
      ∧ (Sample.forwardPass.shadingBindingSetDesc (ForwardShadingPass.firstShadowMapTexture [])
            diffuse specular environmentBrdf).bindings.filterMap
          (fun item =>
            match item with
            | BindingSetItem.Texture_SRV slot texture => some (slot, texture)
            | _ => none)
          = [ (ForwardShadingPass.FORWARD_BINDING_SHADOW_MAP_TEXTURE,
                ForwardShadingPass.orElse (ForwardShadingPass.firstShadowMapTexture [])
                  Sample.forwardPass.m_CommonPasses.m_BlackTexture2DArray),
              (ForwardShadingPass.FORWARD_BINDING_DIFFUSE_LIGHT_PROBE_TEXTURE,
                ForwardShadingPass.orElse diffuse
                  Sample.forwardPass.m_CommonPasses.m_BlackCubeMapArray),
              (ForwardShadingPass.FORWARD_BINDING_SPECULAR_LIGHT_PROBE_TEXTURE,
                ForwardShadingPass.orElse specular
                  Sample.forwardPass.m_CommonPasses.m_BlackCubeMapArray),
              (ForwardShadingPass.FORWARD_BINDING_ENVIRONMENT_BRDF_TEXTURE,
                ForwardShadingPass.orElse environmentBrdf
                  Sample.forwardPass.m_CommonPasses.m_BlackTexture) ]
      ∧ (Sample.forwardPass.PrepareLights Sample.namingDevice {} []
            Sample.probesConsistent).pass.m_ShadingBindingSets
            (ForwardShadingPass.firstShadowMapTexture [], diffuse)
          = some (Sample.forwardPass.PrepareLights Sample.namingDevice {} []
              Sample.probesConsistent).context.shadingBindingSet :=
  C25_shading_binding_set_by_shadow_and_diffuse Sample.forwardPass Sample.namingDevice {} []
    Sample.probesConsistent rfl

end C25

section C26

/-- C26 on the code: `ForwardShadingPass::Init` leaves `m_TrackLiveness` at its default
`true` whatever `params.trackLiveness` is, so the view binding set built in `Init` and
every shading binding set built later, after any calls, are created with
`trackLiveness = true`; the view binding set descriptor of the G-buffer fill pass takes
`params.trackLiveness`. With `params.trackLiveness = false` the forward pass creates its
view binding set with a flag that differs from the parameter. -/
theorem C26_forward_init_keeps_default_track_liveness :
    (∀ (isDX11 : Bool) (commonPasses : CommonRenderPasses) (dev : Device)
        (resources : ForwardShadingPass.InitResources)
        (params : ForwardShadingPass.CreateParameters),
        ((ForwardShadingPass.construct isDX11 commonPasses).Init dev resources
            params).m_TrackLiveness = true
        ∧ ((ForwardShadingPass.construct isDX11 commonPasses).Init dev resources
            params).m_ViewBindingSet
          = dev.createBindingSet
              { trackLiveness := true
                bindings :=
                  [ BindingSetItem.ConstantBuffer
                      ForwardShadingPass.FORWARD_BINDING_VIEW_CONSTANTS
                      resources.forwardViewCB ] }
              resources.viewBindingLayout
        ∧ ∀ (ops : List ForwardShadingPass.Op) (dev2 : Device)
            (shadowMapTexture diffuse specular environmentBrdf : Handle),
            (((ForwardShadingPass.construct isDX11 commonPasses).Init dev resources
                params).run ops).CreateShadingBindingSet dev2 shadowMapTexture diffuse specular
                environmentBrdf
              = dev2.createBindingSet
                  ((((ForwardShadingPass.construct isDX11 commonPasses).Init dev resources
                    params).run ops).shadingBindingSetDesc shadowMapTexture diffuse specular
                    environmentBrdf)
                  (((ForwardShadingPass.construct isDX11 commonPasses).Init dev resources
                    params).run ops).m_ShadingBindingLayout
            ∧ ((((ForwardShadingPass.construct isDX11 commonPasses).Init dev resources
                  params).run ops).shadingBindingSetDesc shadowMapTexture diffuse specular
                  environmentBrdf).trackLiveness = true)
    ∧ (∀ (self : GBufferFillPass) (commonPasses : CommonRenderPasses)
        (params : GBufferFillPass.CreateParameters),
        (self.viewBindingSetDesc commonPasses params).trackLiveness = params.trackLiveness)
    ∧ (((ForwardShadingPass.construct false Sample.commonPasses).Init Sample.workingDevice
          Sample.initResources { trackLiveness := false }).viewBindingSetDesc.trackLiveness
        = true
      ∧ ({ trackLiveness := false } : ForwardShadingPass.CreateParameters).trackLiveness
        = false) := by
  refine ⟨?_, fun _ _ _ => rfl, rfl, rfl⟩
  intro isDX11 commonPasses dev resources params
  refine ⟨rfl, rfl, ?_⟩
  intro ops dev2 shadowMapTexture diffuse specular environmentBrdf
  refine ⟨rfl, ?_⟩
  show (((ForwardShadingPass.construct isDX11 commonPasses).Init dev resources
    params).run ops).m_TrackLiveness = true
  rw [ForwardShadingPass.forward_run_trackLiveness]
  rfl

end C26

end donut
